import Mathlib

/-! Gempyre session bridge: a shallow embedding of `gempyrelib/src/core.cpp`.

The development follows the C++ source function by function.  The session
object `Ui` becomes a record, every member function a state transformer on it.
Closures stored in queues (`std::function`) are defunctionalised: one
constructor per lambda expression of `core.cpp`.  Code of the host application
(timer functions, on-open, on-reload, event handlers) is a list of API calls,
looked up by a callback identifier in a program table `prog`.

Collaborators whose sources are not part of `core.cpp` (transport, semaphore,
timer manager, event queue and map, `addRequest`, `holdTimers`) are modelled
from the specification and marked as such.

Loops and re-entrant calls (`exit` and `extensionGet` call `eventLoop`, which
runs callbacks, which may call `exit` ...) go through one fuel-indexed
interpreter `exec`.
-/

namespace Gempyre

/-! ## Plain data -/

/-- Session states, the keys of the table in `Ui::toStr`. -/
inductive State where
  | NOTSTARTED | RUNNING | RETRY | EXIT | CLOSE | RELOAD | PENDING
  deriving DecidableEq, Repr

/-- Close reasons of the transport (`Server::Close`), as used by the close handler. -/
inductive Close where
  | EXIT | CLOSE | FAIL
  deriving DecidableEq, Repr

/-- A `std::any` payload, restricted to the kinds of value the handlers cast to. -/
inductive Value where
  | str (s : String)
  | num (n : Int)
  | flag (b : Bool)
  | seq (l : List String)
  | object (o : List (String × String))
  deriving DecidableEq, Repr

/-- The type `Server::Object`: a string-keyed map of `std::any`. -/
abbrev Object := List (String × Value)

/-- Identifier of a piece of host-application code (a `std::function` target). -/
abbrev CallbackId := Nat

/-- Ways in which the C++ program stops abnormally, plus the two ways the
model itself can stop (`outOfFuel`, `blocked`: the semaphore wait never returns). -/
inductive Fault where
  | outOfFuel
  | blocked
  | assertion (msg : String)
  | badAnyCast
  | outOfRange
  | badFunctionCall
  | nullServer
  deriving DecidableEq, Repr

/-! ## Association lists standing for `std::unordered_map` -/

/-- Lookup `std::unordered_map::find`. -/
def find {β : Type} (k : String) : List (String × β) → Option β
  | [] => none
  | (a, b) :: rest => if a = k then some b else find k rest

/-- Removal `std::unordered_map::erase`. -/
def erase {β : Type} (k : String) : List (String × β) → List (String × β)
  | [] => []
  | (a, b) :: rest => if a = k then erase k rest else (a, b) :: erase k rest

/-- Insertion `std::unordered_map::emplace`: no effect when the key is present. -/
def emplace {β : Type} (k : String) (v : β) (m : List (String × β)) : List (String × β) :=
  match find k m with
  | some _ => m
  | none => m ++ [(k, v)]

/-- Insertion `std::unordered_map::insert_or_assign`. -/
def insert_or_assign {β : Type} (k : String) (v : β) (m : List (String × β)) :
    List (String × β) :=
  match find k m with
  | some _ => m.map (fun p => if p.1 = k then (k, v) else p)
  | none => m ++ [(k, v)]

/-! ## Collaborators modelled from the specification -/

/-- Modelled from the spec: the transport (`server.h`), consumed as
`send -> bool`, `isConnected`, `isRunning`, `close(force)`, `retryStart -> bool`
and a query-id counter.  The outcome of each `send` and `retryStart` is decided
by the environment: `sendScript` and `retryScript` list the coming outcomes,
`sendDefault` and `retryDefault` apply once a script is used up. -/
structure Server where
  running : Bool
  connected : Bool
  sendScript : List Bool
  sendDefault : Bool
  retryScript : List Bool
  retryDefault : Bool
  queryCounter : Nat
  deriving DecidableEq, Repr

/-- Modelled from the spec: `Server::send`, any overload. -/
def Server.send (s : Server) : Bool × Server :=
  match s.sendScript with
  | [] => (s.sendDefault, s)
  | b :: rest => (b, { s with sendScript := rest })

/-- Modelled from the spec: `Server::retryStart`. -/
def Server.retryStart (s : Server) : Bool × Server :=
  match s.retryScript with
  | [] => (s.retryDefault, s)
  | b :: rest => (b, { s with retryScript := rest })

/-- Modelled from the spec: `Server::close`; afterwards the transport neither
runs nor is connected. -/
def Server.close (s : Server) : Server :=
  { s with running := false, connected := false }

/-- Modelled from the spec: `Server::queryId`, a monotonically increasing counter. -/
def Server.queryId (s : Server) : Nat × Server :=
  (s.queryCounter, { s with queryCounter := s.queryCounter + 1 })

/-- Modelled from the spec: the counting wait primitive (`semaphore.h`). -/
structure Semaphore where
  count : Nat
  deriving DecidableEq, Repr

/-- Modelled from the spec: `Semaphore::signal`. -/
def Semaphore.signal (s : Semaphore) : Semaphore := { count := s.count + 1 }

/-- The function handed to `after` / `startPeriodic`: host code, or the lambda
of `Ui::pendingClose`. -/
inductive TimerFunc where
  | user (cb : CallbackId)
  | pendingCheck
  deriving DecidableEq, Repr

/-- Modelled from the spec: a timer (identity, deadline, repeat flag, callback).
`fired` tells that a one-shot timer was handed to the due queue and has not
run yet. -/
structure Timer where
  id : Nat
  ms : Nat
  deadline : Nat
  singleShot : Bool
  func : TimerFunc
  fired : Bool
  deriving DecidableEq, Repr

/-- Modelled from the spec: the timer manager (`timer.h`), an id-indexed
collection of timers with a clock. -/
structure TimerMgr where
  timers : List Timer
  nextId : Nat
  now : Nat
  deriving DecidableEq, Repr

/-- Modelled from the spec: `TimerMgr::append`, returning a fresh handle. -/
def TimerMgr.append (m : TimerMgr) (ms : Nat) (singleShot : Bool) (f : TimerFunc) :
    Nat × TimerMgr :=
  (m.nextId,
   { m with
     timers := m.timers ++
       [{ id := m.nextId, ms := ms, deadline := m.now + ms, singleShot := singleShot,
          func := f, fired := false }],
     nextId := m.nextId + 1 })

/-- Modelled from the spec: `TimerMgr::remove` (cancel), telling whether the timer existed. -/
def TimerMgr.remove (m : TimerMgr) (id : Nat) : Bool × TimerMgr :=
  (m.timers.any (fun t => t.id == id),
   { m with timers := m.timers.filter (fun t => !(t.id == id)) })

/-- Modelled from the spec: `TimerMgr::clear`, discarding all timers without running them. -/
def TimerMgr.clear (m : TimerMgr) : TimerMgr := { m with timers := [] }

/-- Lookup of a timer by its handle. -/
def TimerMgr.lookup (m : TimerMgr) (id : Nat) : Option Timer :=
  m.timers.find? (fun t => t.id == id)

/-- Insertion into a list of timers ordered by deadline; equal deadlines keep
scheduling order. -/
def insertByDeadline (t : Timer) : List Timer → List Timer
  | [] => [t]
  | u :: rest => if t.deadline < u.deadline then t :: u :: rest else u :: insertByDeadline t rest

/-- Stable ordering by deadline. -/
def sortByDeadline (l : List Timer) : List Timer :=
  l.foldl (fun acc t => insertByDeadline t acc) []

/-- The timers that fire when every pending one (`all = true`) or every one
whose deadline has elapsed is fired, in deadline order. -/
def TimerMgr.dueTimers (m : TimerMgr) (all : Bool) : List Timer :=
  sortByDeadline (m.timers.filter (fun t => !t.fired && (all || decide (t.deadline ≤ m.now))))

/-- State of the manager after firing: a one-shot timer is marked as fired, a
repeating timer is re-armed with the same period. -/
def TimerMgr.markFired (m : TimerMgr) (all : Bool) : TimerMgr :=
  { m with timers := m.timers.map (fun t =>
      if !t.fired && (all || decide (t.deadline ≤ m.now)) then
        (if t.singleShot then { t with fired := true } else { t with deadline := m.now + t.ms })
      else t) }

/-! ## Closures of `core.cpp` -/

/-- The lambdas passed to `addRequest` in `core.cpp`, one constructor each. -/
inductive Request where
  /-- `Ui::close`: send of `close_request`. -/
  | closeRequest
  /-- `Ui::exit`: send of `exit_request`, forcing the transport closed on failure. -/
  | exitRequest
  /-- `Ui::send(const DataPtr&)` with a payload of `len` bytes. -/
  | sendData (len : Nat)
  | beginBatch
  | endBatch
  /-- `Ui::send(el, type, values, unique)` where `values` holds a string. -/
  | sendParams (params : List (String × String))
  /-- `Ui::send(el, type, values, unique)` for any other payload. -/
  | sendValues (params : List (String × String)) (values : Value)
  /-- `Ui::eventLoop`, state `RELOAD`: call of `m_onReload`. -/
  | reload
  /-- `Ui::eventLoop`: call of the captured on-open function, then release of the timers. -/
  | onOpen (fptr : CallbackId)
  /-- `Ui::extensionCall` (empty id) and `Ui::extensionGet`. -/
  | extension (queryId : String) (callId : String) (parameters : Object)
  deriving DecidableEq, Repr

/-- An entry of the inbound queue (`InternalEvent`). -/
structure InternalEvent where
  element : String
  handler : String
  data : Object
  deriving DecidableEq, Repr

/-- What the transport thread and the timer thread do to the session. -/
inductive EnvEvent where
  /-- The transport calls the open handler. -/
  | opened
  /-- The transport calls the message handler. -/
  | message (params : Object)
  /-- The transport calls the close handler. -/
  | closed (status : Close) (code : Int)
  /-- The transport changes its own flags. -/
  | transport (running : Bool) (connected : Bool)
  /-- The clock of the timer thread advances. -/
  | elapse (ms : Nat)
  deriving DecidableEq, Repr

/-- Calls of the public interface made by host code. -/
inductive Action where
  /-- A side effect of the host on its own data, such as `test += c`. -/
  | note (c : Char)
  | exit
  | close
  | after (ms : Nat) (cb : CallbackId)
  | startPeriodic (ms : Nat) (cb : CallbackId)
  | cancelTimer (id : Nat)
  | onOpen (cb : Option CallbackId)
  | onReload (cb : Option CallbackId)
  | send (element : String) (type : String) (values : Value) (unique : Bool)
  | beginBatch
  | endBatch
  | extensionCall (callId : String) (parameters : Object)
  | extensionGet (callId : String) (parameters : Object)
  deriving DecidableEq, Repr

/-- Ghost record of what ran, in order. -/
inductive Obs where
  /-- An entry was taken from the due-timer queue. -/
  | dequeue (f : Option Nat)
  /-- The function of timer `id` was invoked. -/
  | timer (id : Nat)
  /-- A request was taken from the outbound queue and attempted. -/
  | attempt (r : Request)
  /-- An inbound event was delivered to a handler. -/
  | dispatch (ev : InternalEvent) (cb : CallbackId)
  /-- An inbound event was dropped. -/
  | dropped (ev : InternalEvent)
  /-- Host code started to run. -/
  | call (cb : CallbackId)
  | note (c : Char)
  deriving DecidableEq, Repr

/-- The session (`class Ui`).  Fields `m_*` are the members used by `core.cpp`;
`indexHtml` and `extraParams` are the constructor arguments captured by the
message handler; `env` is the schedule of what the other threads will do, one batch per wake-up
of the loop; `log` is a ghost trace. -/
structure Ui where
  m_status : State
  m_server : Option Server
  m_sema : Semaphore
  m_timers : TimerMgr
  m_timerqueue : List (Option Nat)
  m_requestqueue : List Request
  m_eventqueue : List InternalEvent
  m_responsemap : List (String × Value)
  m_filemap : List (String × String)
  m_elements : List (String × List (String × CallbackId))
  m_onOpen : Option CallbackId
  m_onReload : Option CallbackId
  m_onUiExit : Option CallbackId
  m_onError : Option CallbackId
  m_hold : Bool
  m_msgId : Nat
  indexHtml : String
  extraParams : String
  env : List (List EnvEvent)
  log : List Obs
  deriving DecidableEq, Repr

/-! ## Member functions without loops -/

/-- Modelled from the spec: `Ui::addRequest` (declared in `core.h`): the request
joins the tail of the outbound queue and the loop is signalled once. -/
def Ui.addRequest (ui : Ui) (r : Request) : Ui :=
  { ui with m_requestqueue := ui.m_requestqueue ++ [r], m_sema := ui.m_sema.signal }

/-- Modelled from the spec: `Ui::holdTimers` (declared in `core.h`). -/
def Ui.holdTimers (ui : Ui) (h : Bool) : Ui := { ui with m_hold := h }

/-- The lambda given to `TimerMgr::append` in `Ui::after` and `Ui::startPeriodic`:
`m_timerqueue.emplace_back(f); m_sema->signal();`. -/
def Ui.queueTimer (ui : Ui) (id : Nat) : Ui :=
  { ui with m_timerqueue := ui.m_timerqueue ++ [some id], m_sema := ui.m_sema.signal }

/-- Modelled from the spec: `TimerMgr::flush`: every pending timer
(`runAll = true`) or every timer already due is fired at once, through the
function it was appended with. -/
def Ui.flushTimers (ui : Ui) (runAll : Bool) : Ui :=
  (ui.m_timers.dueTimers runAll).foldl (fun u t => u.queueTimer t.id)
    { ui with m_timers := ui.m_timers.markFired runAll }

/-- Modelled from the spec: the timer thread after `ms` milliseconds: the clock
advances and the timers whose deadline has elapsed are fired in deadline order. -/
def Ui.elapse (ui : Ui) (ms : Nat) : Ui :=
  Ui.flushTimers { ui with m_timers := { ui.m_timers with now := ui.m_timers.now + ms } } false

/-- `Ui::after`, returning the timer id. -/
def Ui.after (ui : Ui) (ms : Nat) (f : TimerFunc) : Nat × Ui :=
  ((ui.m_timers.append ms true f).1, { ui with m_timers := (ui.m_timers.append ms true f).2 })

/-- `Ui::startPeriodic`, returning the timer id. -/
def Ui.startPeriodic (ui : Ui) (ms : Nat) (f : TimerFunc) : Nat × Ui :=
  ((ui.m_timers.append ms false f).1, { ui with m_timers := (ui.m_timers.append ms false f).2 })

/-- `Ui::cancelTimer`. -/
def Ui.cancelTimer (ui : Ui) (id : Nat) : Bool × Ui :=
  ((ui.m_timers.remove id).1, { ui with m_timers := (ui.m_timers.remove id).2 })

/-- The lambda scheduled by `Ui::pendingClose` (the deferred check). -/
def Ui.pendingCheck (ui : Ui) : Ui :=
  if ui.m_status = State.PENDING then
    { ui with m_status := State.CLOSE, m_sema := ui.m_sema.signal }
  else ui

/-- `Ui::pendingClose`. -/
def Ui.pendingClose (ui : Ui) : Ui :=
  (Ui.after (Ui.flushTimers { ui with m_status := State.PENDING } false) 1000
    TimerFunc.pendingCheck).2

/-- `Ui::close`. -/
def Ui.close (ui : Ui) : Ui := ui.addRequest Request.closeRequest

/-- `Ui::send(const DataPtr&)` for a payload of `len` bytes. -/
def Ui.sendData (ui : Ui) (len : Nat) : Ui := ui.addRequest (Request.sendData len)

/-- `Ui::beginBatch`. -/
def Ui.beginBatch (ui : Ui) : Ui := ui.addRequest Request.beginBatch

/-- `Ui::endBatch`. -/
def Ui.endBatch (ui : Ui) : Ui := ui.addRequest Request.endBatch

/-- The parameter map built at the start of `Ui::send(el, type, values, unique)`. -/
def sendHeader (element type : String) (unique : Bool) (msgId : Nat) : List (String × String) :=
  if unique then emplace "msgid" (toString msgId) [("element", element), ("type", type)]
  else [("element", element), ("type", type)]

/-- `Ui::send(const Element&, const std::string&, const std::any&, bool)`;
`element` is the id of the element. -/
def Ui.send (ui : Ui) (element type : String) (values : Value) (unique : Bool) : Ui :=
  let ui1 := if unique then { ui with m_msgId := ui.m_msgId + 1 } else ui
  match values with
  | Value.str s =>
      ui1.addRequest (Request.sendParams (emplace type s (sendHeader element type unique ui.m_msgId)))
  | v => ui1.addRequest (Request.sendValues (sendHeader element type unique ui.m_msgId) v)

/-- `Ui::extensionCall`.  Every `Value` has a JSON rendering, so the assertion
on `toJsonString` holds and the request carries the parameters themselves. -/
def Ui.extensionCall (ui : Ui) (callId : String) (parameters : Object) : Ui :=
  ui.addRequest (Request.extension "" callId parameters)

/-- `Ui::onOpen`. -/
def Ui.onOpen (ui : Ui) (f : Option CallbackId) : Ui := { ui with m_onOpen := f }

/-- `Ui::onReload`. -/
def Ui.onReload (ui : Ui) (f : Option CallbackId) : Ui := { ui with m_onReload := f }

/-- `Ui::onExit`. -/
def Ui.onExit (ui : Ui) (f : Option CallbackId) : Ui := { ui with m_onUiExit := f }

/-- `Ui::onError`. -/
def Ui.onError (ui : Ui) (f : Option CallbackId) : Ui := { ui with m_onError := f }

/-! ## Resource map -/

/-- Modelled from the spec: the Base64 codec (`base64.h`), taken as a pair of functions. -/
structure Base64 where
  encode : List UInt8 → String
  decode : String → List UInt8

/-- Modelled from the spec: the file system seen through `GempyreUtils::fileExists`
and `GempyreUtils::slurp`: the content of each existing file. -/
abbrev FileSystem := String → Option (List UInt8)

/-- `Ui::resource`. -/
def Ui.resource (codec : Base64) (ui : Ui) (url : String) : Option (List UInt8) :=
  match find url ui.m_filemap with
  | none => none
  | some encoded => some (codec.decode encoded)

/-- `Ui::addFile(const std::string& url, const std::string& file)`. -/
def Ui.addFile (codec : Base64) (fs : FileSystem) (ui : Ui) (url file : String) : Bool × Ui :=
  match fs file with
  | none => (false, ui)
  | some data =>
    match find url ui.m_filemap with
    | some _ => (false, ui)
    | none => (true, { ui with m_filemap := insert_or_assign url (codec.encode data) ui.m_filemap })

/-- The function `normalizeNames`: a `/` is put in front of every key that lacks it. -/
def normalizeNames (files : List (String × String)) : List (String × String) :=
  files.foldl (fun normalized kv =>
    if kv.1.length > 0 ∧ kv.1.front ≠ '/' then emplace ("/" ++ kv.1) kv.2 normalized
    else emplace kv.1 kv.2 normalized) []

/-- `Ui::setApplicationIcon`. -/
def Ui.setApplicationIcon (codec : Base64) (ui : Ui) (data : List UInt8) (type : String) : Ui :=
  ui.extensionCall "setAppIcon"
    [("image_data", Value.str (codec.encode data)), ("type", Value.str type)]

/-- The constructor `Ui::Ui(filemap, indexHtml, browser, extraParams, port, root)`. -/
def Ui.create (codec : Base64) (filemap : List (String × String)) (indexHtml extraParams : String) :
    Ui :=
  let ui : Ui :=
    { m_status := State.NOTSTARTED, m_server := none, m_sema := { count := 0 },
      m_timers := { timers := [], nextId := 0, now := 0 }, m_timerqueue := [],
      m_requestqueue := [], m_eventqueue := [], m_responsemap := [],
      m_filemap := normalizeNames filemap, m_elements := [],
      m_onOpen := none, m_onReload := none, m_onUiExit := none, m_onError := none,
      m_hold := false, m_msgId := 0, indexHtml := indexHtml, extraParams := extraParams,
      env := [], log := [] }
  match ui.resource codec "/favicon.ico" with
  | some icon => ui.setApplicationIcon codec icon "ico"
  | none => ui

/-! ## Transport callbacks -/

/-- The `openHandler` lambda of the constructor. -/
def Ui.openHandler (ui : Ui) : Ui :=
  let ui1 := if ui.m_status = State.CLOSE ∨ ui.m_status = State.PENDING then
      { ui with m_status := State.RELOAD } else ui
  { ui1 with m_sema := ui1.m_sema.signal }

/-- The `closeHandler` lambda of the constructor. -/
def Ui.closeHandler (ui : Ui) (closeStatus : Close) (_code : Int) : Ui :=
  match ui.m_server with
  | none => { ui with m_status := State.EXIT, m_sema := ui.m_sema.signal }
  | some srv =>
    let ui1 :=
      if ui.m_status ≠ State.EXIT ∧
          (closeStatus ≠ Close.EXIT ∧ (closeStatus = Close.CLOSE ∧ srv.connected = false)) then
        ui.pendingClose
      else if closeStatus = Close.FAIL then { ui with m_status := State.RETRY }
      else ui
    if ui1.m_status = State.EXIT ∨ ui1.m_status = State.RETRY then
      { ui1 with m_sema := ui1.m_sema.signal }
    else ui1

/-- The cast `std::any_cast<std::string>`. -/
def anyCastString : Value → Except Fault String
  | Value.str s => Except.ok s
  | _ => Except.error Fault.badAnyCast

/-- The cast `std::any_cast<Server::Object>`. -/
def anyCastObject : Value → Except Fault Object
  | Value.object o => Except.ok (o.map (fun p => (p.1, Value.str p.2)))
  | _ => Except.error Fault.badAnyCast

/-- Access `std::unordered_map::at`. -/
def at_ (params : Object) (k : String) : Except Fault Value :=
  match find k params with
  | some v => Except.ok v
  | none => Except.error Fault.outOfRange

/-- Modelled from the spec: `EventMap::push` (`eventqueue.h`): the value is stored under the id. -/
def responsePush (id : String) (v : Value) (m : List (String × Value)) : List (String × Value) :=
  insert_or_assign id v m

/-- Modelled from the spec: `EventMap::take`: the value under the id, and the table without it. -/
def responseTake (id : String) (m : List (String × Value)) : Option Value × List (String × Value) :=
  (find id m, erase id m)

/-- The address sent with `ui_info` by the message handler. -/
def uiInfoAddress (indexHtml : String) : String :=
  let appPage := ((indexHtml.splitOn "/").getLast?).getD ""
  " http://localhost/" ++ (if appPage.isEmpty then "index.html" else appPage)

/-- Modelled from the spec: `EventQueue::push` (`eventqueue.h`). -/
def Ui.pushEvent (ui : Ui) (e : InternalEvent) : Ui :=
  { ui with m_eventqueue := ui.m_eventqueue ++ [e] }

/-- The call `m_responsemap->push(id, std::move(k))`. -/
def Ui.pushResponse (ui : Ui) (id : String) (k : Value) : Ui :=
  { ui with m_responsemap := responsePush id k ui.m_responsemap }

/-- Message handler, branch `type == "event"`. -/
def Ui.onEventMessage (ui : Ui) (params : Object) : Except Fault Ui :=
  match (at_ params "element").bind anyCastString with
  | Except.error f => Except.error f
  | Except.ok element =>
    match (at_ params "event").bind anyCastString with
    | Except.error f => Except.error f
    | Except.ok event =>
      match (at_ params "properties").bind anyCastObject with
      | Except.error f => Except.error f
      | Except.ok properties =>
        Except.ok (ui.pushEvent { element := element, handler := event, data := properties })

/-- Message handler, branch `type == "query"`. -/
def Ui.onQueryMessage (ui : Ui) (params : Object) : Except Fault Ui :=
  match (at_ params "query_value").bind anyCastString with
  | Except.error f => Except.error f
  | Except.ok key =>
    match (at_ params "query_id").bind anyCastString with
    | Except.error f => Except.error f
    | Except.ok id =>
      match at_ params key with
      | Except.error f => Except.error f
      | Except.ok k => Except.ok (ui.pushResponse id k)

/-- Message handler, branch `type == "extension_response"`. -/
def Ui.onExtensionResponse (ui : Ui) (params : Object) : Except Fault Ui :=
  if (find "extension_id" params).isSome ∧ (find "extension_call" params).isSome then
    match (at_ params "extension_id").bind anyCastString with
    | Except.error f => Except.error f
    | Except.ok id =>
      match (at_ params "extension_call").bind anyCastString with
      | Except.error f => Except.error f
      | Except.ok key =>
        match at_ params key with
        | Except.error f => Except.error f
        | Except.ok k => Except.ok (ui.pushResponse id k)
  else Except.error (Fault.assertion "extension_response invalid parameters")

/-- Message handler, branch `type == "error"`; `onError` runs the host code of
the error callback. -/
def Ui.onErrorMessage (onError : CallbackId → Ui → Except Fault Ui) (ui : Ui) (params : Object) :
    Except Fault Ui :=
  match (at_ params "element").bind anyCastString with
  | Except.error f => Except.error f
  | Except.ok _ =>
    match (at_ params "error").bind anyCastString with
    | Except.error f => Except.error f
    | Except.ok _ =>
      match ui.m_onError with
      | some cb => onError cb ui
      | none => Except.ok ui

/-- The `messageHandler` lambda of the constructor. -/
def Ui.messageHandler (onError : CallbackId → Ui → Except Fault Ui) (ui : Ui) (params : Object) :
    Except Fault Ui :=
  match find "type" params with
  | none => Except.ok ui
  | some kit =>
    match anyCastString kit with
    | Except.error f => Except.error f
    | Except.ok type =>
      match (if type = "event" then ui.onEventMessage params
             else if type = "query" then ui.onQueryMessage params
             else if type = "extension_response" then ui.onExtensionResponse params
             else if type = "error" then ui.onErrorMessage onError params
             else if type = "exit_request" then Except.ok { ui with m_status := State.EXIT }
             else if type = "extensionready" then
               Except.ok (ui.extensionCall "ui_info"
                 [("url", Value.str (uiInfoAddress ui.indexHtml)),
                  ("params", Value.str ui.extraParams)])
             else Except.ok ui) with
      | Except.error f => Except.error f
      | Except.ok u => Except.ok { u with m_sema := u.m_sema.signal }

/-! ## Primitive updates used by the loops -/

/-- Assignment to `m_status`. -/
def Ui.setStatus (ui : Ui) (s : State) : Ui := { ui with m_status := s }

/-- The statement `m_status = State::EXIT`. -/
def Ui.setExit (ui : Ui) : Ui := ui.setStatus State.EXIT

/-- The call `m_sema->signal()`. -/
def Ui.signal (ui : Ui) : Ui := { ui with m_sema := ui.m_sema.signal }

/-- Modelled from the spec: return of `Semaphore::wait`, which takes one signal. -/
def Ui.waitDone (ui : Ui) : Ui := { ui with m_sema := { count := ui.m_sema.count - 1 } }

/-- The other threads have made their next batch of calls. -/
def Ui.dropBatch (ui : Ui) : Ui := { ui with env := ui.env.tail }

/-- The transport changes its flags on its own. -/
def Ui.setTransport (ui : Ui) (running connected : Bool) : Ui :=
  { ui with
    m_server := ui.m_server.map (fun s => { s with running := running, connected := connected }) }

/-- The call `m_server->retryStart()`, as far as the transport changes. -/
def Ui.serverRetry (ui : Ui) : Ui :=
  { ui with m_server := ui.m_server.map (fun s => s.retryStart.2) }

/-- The call `m_server->close(true)`. -/
def Ui.serverClose (ui : Ui) : Ui := { ui with m_server := ui.m_server.map Server.close }

/-- The call `m_server->send(...)`, as far as the transport changes. -/
def Ui.serverSend (ui : Ui) : Ui := { ui with m_server := ui.m_server.map (fun s => s.send.2) }

/-- The call `m_server->queryId()`, as far as the transport changes. -/
def Ui.serverQueryId (ui : Ui) : Ui :=
  { ui with m_server := ui.m_server.map (fun s => s.queryId.2) }

/-- A side effect of host code on its own data, kept in the ghost trace. -/
def Ui.note (ui : Ui) (c : Char) : Ui := { ui with log := ui.log ++ [Obs.note c] }

/-- Host code `cb` starts to run; the ghost trace records it. -/
def Ui.enter (ui : Ui) (cb : CallbackId) : Ui := { ui with log := ui.log ++ [Obs.call cb] }

/-- The statements `m_timerqueue.front()` and `m_timerqueue.pop_front()`; the
ghost trace records which entry left the queue. -/
def Ui.popTimer (ui : Ui) : Ui :=
  match ui.m_timerqueue with
  | [] => ui
  | f :: rest => { ui with m_timerqueue := rest, log := ui.log ++ [Obs.dequeue f] }

/-- Modelled from the spec: a timer fires: a one-shot timer is destroyed; the
ghost trace records the call of its function. -/
def Ui.fireTimer (ui : Ui) (t : Timer) : Ui :=
  { ui with
    m_timers := (if t.singleShot then (ui.m_timers.remove t.id).2 else ui.m_timers),
    log := ui.log ++ [Obs.timer t.id] }

/-- The statements `m_requestqueue.front()` and `m_requestqueue.pop_front()`;
the ghost trace records that the request is attempted. -/
def Ui.popRequest (ui : Ui) : Ui :=
  match ui.m_requestqueue with
  | [] => ui
  | r :: rest => { ui with m_requestqueue := rest, log := ui.log ++ [Obs.attempt r] }

/-- The statement `m_requestqueue.push_back(std::move(topRequest))`. -/
def Ui.pushBack (ui : Ui) (r : Request) : Ui :=
  { ui with m_requestqueue := ui.m_requestqueue ++ [r] }

/-- The handler subscribed for an inbound event: the lookups
`m_elements.find(it.element)` and `handlers.find(handlerName)`. -/
def Ui.handlerOf (ui : Ui) (it : InternalEvent) : Option CallbackId :=
  (find it.element ui.m_elements).bind (fun handlers => find it.handler handlers)

/-- Modelled from the spec: `EventQueue::take`, as far as the queue changes; the
ghost trace records whether the event goes to a handler or is dropped. -/
def Ui.takeEvent (ui : Ui) : Ui :=
  match ui.m_eventqueue with
  | [] => ui
  | it :: rest =>
    { ui with
      m_eventqueue := rest,
      log := ui.log ++ [match ui.handlerOf it with
                        | some h => Obs.dispatch it h
                        | none => Obs.dropped it] }

/-- The call `m_responsemap->take(queryId)`, as far as the table changes. -/
def Ui.takeResponse (ui : Ui) (queryId : String) : Ui :=
  { ui with m_responsemap := (responseTake queryId ui.m_responsemap).2 }

/-- The on-open step of `Ui::eventLoop`: `holdTimers(true)`, `addRequest` of the
on-open request, `m_onOpen = nullptr`. -/
def Ui.openStep (ui : Ui) (fptr : CallbackId) : Ui :=
  ((ui.holdTimers true).addRequest (Request.onOpen fptr)).onOpen none

/-- The call `m_startup()` of `Ui::run`: the transport instance `srv` is created. -/
def Ui.startup (ui : Ui) (srv : Server) : Ui := { ui with m_server := some srv }

/-- The statement `m_requestqueue.clear()`. -/
def Ui.clearRequests (ui : Ui) : Ui := { ui with m_requestqueue := [] }

/-- The statement `m_server.reset()`. -/
def Ui.resetServer (ui : Ui) : Ui := { ui with m_server := none }

/-- The statement `m_timers->clear()`. -/
def Ui.clearTimers (ui : Ui) : Ui := { ui with m_timers := ui.m_timers.clear }

/-- The statement `m_timerqueue.clear()`. -/
def Ui.clearTimerqueue (ui : Ui) : Ui := { ui with m_timerqueue := [] }

/-! ## The interpreter -/

/-- Procedures that loop or re-enter the loop. -/
inductive Cmd where
  /-- `Ui::eventLoop`. -/
  | eventLoop
  /-- `Semaphore::wait` inside the loop. -/
  | wait
  /-- The due-timer `while` of the loop. -/
  | timerDrain
  /-- The outbound-request `while` of the loop. -/
  | requestDrain
  /-- The inbound-event `while` of the loop. -/
  | eventDrain
  /-- `Ui::exit`. -/
  | exit
  /-- `Ui::extensionGet`. -/
  | extensionGet (callId : String) (parameters : Object)
  /-- The `for(;;)` of `Ui::extensionGet`. -/
  | extensionWait (queryId : String)
  /-- Invocation of host code. -/
  | call (cb : CallbackId)
  /-- `Ui::run`, with the transport instance that `m_startup` creates. -/
  | run (srv : Server)
  deriving DecidableEq, Repr

/-- Result of a procedure: a fault, or the session afterwards with the value
returned (only `extensionGet` returns one). -/
abbrev Res := Except Fault (Ui × Option Value)

/-- Normal return without a value. -/
def done (ui : Ui) : Res := Except.ok (ui, none)

/-- A procedure call whose value is not used. -/
def sub (self : Cmd → Ui → Res) (c : Cmd) (ui : Ui) : Except Fault Ui :=
  match self c ui with
  | Except.ok r => Except.ok r.1
  | Except.error e => Except.error e

/-- One call made by the transport thread or the timer thread. -/
def deliver (self : Cmd → Ui → Res) (e : EnvEvent) (ui : Ui) : Except Fault Ui :=
  match e with
  | EnvEvent.opened => Except.ok ui.openHandler
  | EnvEvent.message params => ui.messageHandler (fun cb u => sub self (Cmd.call cb) u) params
  | EnvEvent.closed st code => Except.ok (ui.closeHandler st code)
  | EnvEvent.transport r c => Except.ok (ui.setTransport r c)
  | EnvEvent.elapse ms => Except.ok (ui.elapse ms)

/-- A batch of such calls, in order. -/
def deliverAll (self : Cmd → Ui → Res) : List EnvEvent → Ui → Except Fault Ui
  | [], ui => Except.ok ui
  | e :: es, ui =>
    match deliver self e ui with
    | Except.ok u => deliverAll self es u
    | Except.error f => Except.error f

/-- The other threads run between two passes of the loop: the next batch of the
schedule, if any, is delivered. -/
def poll (self : Cmd → Ui → Res) (ui : Ui) : Except Fault Ui :=
  match ui.env with
  | [] => Except.ok ui
  | batch :: _ => deliverAll self batch ui.dropBatch

/-- Modelled from the spec: `Semaphore::wait`: returns, taking one signal, once
the count is positive; until then the other threads run.  With nothing left
in the schedule the wait never returns. -/
def waitBody (self : Cmd → Ui → Res) (ui : Ui) : Res :=
  if ui.m_sema.count = 0 then
    match ui.env with
    | [] => Except.error Fault.blocked
    | batch :: _ =>
      match deliverAll self batch ui.dropBatch with
      | Except.ok u => self Cmd.wait u
      | Except.error f => Except.error f
  else done ui.waitDone

/-- One call made by host code. -/
def actionStep (self : Cmd → Ui → Res) (a : Action) (ui : Ui) : Except Fault Ui :=
  match a with
  | Action.note c => Except.ok (ui.note c)
  | Action.exit => sub self Cmd.exit ui
  | Action.close => Except.ok ui.close
  | Action.after ms cb => Except.ok (ui.after ms (TimerFunc.user cb)).2
  | Action.startPeriodic ms cb => Except.ok (ui.startPeriodic ms (TimerFunc.user cb)).2
  | Action.cancelTimer id => Except.ok (ui.cancelTimer id).2
  | Action.onOpen cb => Except.ok (ui.onOpen cb)
  | Action.onReload cb => Except.ok (ui.onReload cb)
  | Action.send element type values unique => Except.ok (ui.send element type values unique)
  | Action.beginBatch => Except.ok ui.beginBatch
  | Action.endBatch => Except.ok ui.endBatch
  | Action.extensionCall callId parameters => Except.ok (ui.extensionCall callId parameters)
  | Action.extensionGet callId parameters => sub self (Cmd.extensionGet callId parameters) ui

/-- The body of a piece of host code. -/
def runActions (self : Cmd → Ui → Res) : List Action → Ui → Except Fault Ui
  | [], ui => Except.ok ui
  | a :: rest, ui =>
    match actionStep self a ui with
    | Except.ok u => runActions self rest u
    | Except.error f => Except.error f

/-- Invocation of the host code `cb`. -/
def callBody (prog : CallbackId → List Action) (self : Cmd → Ui → Res) (cb : CallbackId)
    (ui : Ui) : Res :=
  match runActions self (prog cb) (ui.enter cb) with
  | Except.ok u => done u
  | Except.error f => Except.error f

/-- Modelled from the spec: the function that the timer manager hands to the
due queue for timer `id`: it does nothing when the timer was cancelled or
cleared in the meantime, otherwise it fires the timer and calls its function. -/
def runTimer (self : Cmd → Ui → Res) (id : Nat) (ui : Ui) : Except Fault Ui :=
  match ui.m_timers.lookup id with
  | none => Except.ok ui
  | some t =>
    match t.func with
    | TimerFunc.user cb => sub self (Cmd.call cb) (ui.fireTimer t)
    | TimerFunc.pendingCheck => Except.ok (ui.fireTimer t).pendingCheck

/-- The due-timer drain of `Ui::eventLoop`:
`while(!m_timerqueue.empty() && m_status != State::EXIT && !m_onOpen && !m_hold)`. -/
def timerDrainBody (self : Cmd → Ui → Res) (ui : Ui) : Res :=
  match ui.m_timerqueue with
  | [] => done ui
  | timerfunction :: _ =>
    if ui.m_status ≠ State.EXIT ∧ ui.m_onOpen = none ∧ ui.m_hold = false then
      match timerfunction with
      | none => self Cmd.timerDrain ui.popTimer
      | some id =>
        match runTimer self id ui.popTimer with
        | Except.ok u => self Cmd.timerDrain u
        | Except.error f => Except.error f
    else done ui

/-- The size above which `Ui::send(const DataPtr&)` sends a follow-up message. -/
def ENSURE_SEND : Nat := 65536

/-- A call `m_server->send(...)` made by a request: its result and the session afterwards. -/
def transportSend (ui : Ui) : Except Fault (Bool × Ui) :=
  match ui.m_server with
  | none => Except.error Fault.nullServer
  | some s => Except.ok (s.send.1, ui.serverSend)

/-- Modelled from the spec: `Server::beginBatch` and `Server::endBatch`, which
need the transport and succeed. -/
def transportBatch (ui : Ui) : Except Fault (Bool × Ui) :=
  match ui.m_server with
  | none => Except.error Fault.nullServer
  | some _ => Except.ok (true, ui)

/-- Call of a request closure: its result and the session afterwards. -/
def attempt (self : Cmd → Ui → Res) (r : Request) (ui : Ui) : Except Fault (Bool × Ui) :=
  match r with
  | Request.closeRequest => transportSend ui
  | Request.exitRequest =>
    match transportSend ui with
    | Except.ok (true, u) => Except.ok (true, u)
    | Except.ok (false, u) => Except.ok (false, u.serverClose)
    | Except.error f => Except.error f
  | Request.sendData len =>
    match transportSend ui with
    | Except.ok (ok, u) =>
      if ok = true ∧ len > ENSURE_SEND then
        Except.ok (ok, u.send "" "nil" (Value.str "") false)
      else Except.ok (ok, u)
    | Except.error f => Except.error f
  | Request.beginBatch => transportBatch ui
  | Request.endBatch => transportBatch ui
  | Request.sendParams _ => transportSend ui
  | Request.sendValues _ _ => transportSend ui
  | Request.reload =>
    match ui.m_onReload with
    | none => Except.error Fault.badFunctionCall
    | some cb =>
      match sub self (Cmd.call cb) ui with
      | Except.ok u => Except.ok (true, u)
      | Except.error f => Except.error f
  | Request.onOpen fptr =>
    match sub self (Cmd.call fptr) ui with
    | Except.ok u => Except.ok (true, u.holdTimers false)
    | Except.error f => Except.error f
  | Request.extension _ _ _ => transportSend ui

/-- The outbound-request drain of `Ui::eventLoop`:
`while(!m_requestqueue.empty() && m_status == State::RUNNING && m_server->isConnected())`. -/
def requestDrainBody (self : Cmd → Ui → Res) (ui : Ui) : Res :=
  match ui.m_requestqueue with
  | [] => done ui
  | topRequest :: _ =>
    if ui.m_status = State.RUNNING then
      match ui.m_server with
      | none => Except.error Fault.nullServer
      | some s =>
        if s.connected then
          match attempt self topRequest ui.popRequest with
          | Except.ok (true, u) => self Cmd.requestDrain u
          | Except.ok (false, u) => self Cmd.requestDrain (u.pushBack topRequest)
          | Except.error f => Except.error f
        else done ui
    else done ui

/-- The inbound-event drain of `Ui::eventLoop`:
`while(!m_eventqueue->empty() && m_status == State::RUNNING)`. -/
def eventDrainBody (self : Cmd → Ui → Res) (ui : Ui) : Res :=
  match ui.m_eventqueue with
  | [] => done ui
  | it :: _ =>
    if ui.m_status = State.RUNNING then
      match ui.handlerOf it with
      | some h =>
        match sub self (Cmd.call h) ui.takeEvent with
        | Except.ok u => self Cmd.eventDrain u
        | Except.error f => Except.error f
      | none => self Cmd.eventDrain ui.takeEvent
    else done ui

/-- The reload step of `Ui::eventLoop`, taken in state `RELOAD`: the reload
request is queued when `m_onReload` is set, and the state returns to `RUNNING`. -/
def Ui.reloadStep (ui : Ui) : Ui :=
  (match ui.m_onReload with
   | some _ => ui.addRequest Request.reload
   | none => ui).setStatus State.RUNNING

/-- `Ui::eventLoop`: one pass of the `while`, continued by the next pass. -/
def eventLoopBody (self : Cmd → Ui → Res) (ui : Ui) : Res :=
  match ui.m_server with
  | none => done ui
  | some srv =>
    if srv.running = false then done ui
    else
      match poll self ui with
      | Except.error f => Except.error f
      | Except.ok u0 =>
      match (if u0.m_sema.count = 0 then sub self Cmd.wait u0 else Except.ok u0) with
      | Except.error f => Except.error f
      | Except.ok u1 =>
      if u1.m_status = State.EXIT then done u1
      else if u1.m_status = State.RETRY then
        match u1.m_server with
        | none => Except.error Fault.nullServer
        | some s =>
          if s.retryStart.1 then self Cmd.eventLoop u1.serverRetry
          else done u1.serverRetry.setExit
      else if u1.m_status = State.CLOSE then
        match u1.m_server with
        | none => Except.error Fault.nullServer
        | some s =>
          if s.connected = false then self Cmd.eventLoop u1.serverClose
          else self Cmd.eventLoop u1
      else
        match sub self Cmd.timerDrain
            (if u1.m_status = State.RELOAD then u1.reloadStep else u1) with
        | Except.error f => Except.error f
        | Except.ok u2 =>
        if u2.m_status = State.PENDING then self Cmd.eventLoop u2
        else
          match (match u2.m_onOpen with
                 | none => Except.ok u2
                 | some fptr =>
                   if u2.m_status = State.RUNNING then
                     match u2.m_server with
                     | none => Except.error Fault.nullServer
                     | some s => if s.connected then Except.ok (u2.openStep fptr) else Except.ok u2
                   else Except.ok u2 : Except Fault Ui) with
          | Except.error f => Except.error f
          | Except.ok u3 =>
          match sub self Cmd.requestDrain u3 with
          | Except.error f => Except.error f
          | Except.ok u4 =>
          if u4.m_responsemap ≠ [] then done u4
          else
            match sub self Cmd.eventDrain u4 with
            | Except.error f => Except.error f
            | Except.ok u5 => self Cmd.eventLoop u5

/-- `Ui::exit`. -/
def exitBody (self : Cmd → Ui → Res) (ui : Ui) : Res :=
  match ui.m_status with
  | State.RUNNING =>
    match ui.m_server with
    | none => done ui.setExit
    | some s =>
      if s.running = false then done ui.setExit
      else if s.connected = false then done ui.serverClose.setExit
      else
        match sub self Cmd.eventLoop ((ui.addRequest Request.exitRequest).flushTimers true) with
        | Except.ok u => done u.signal
        | Except.error f => Except.error f
  | State.CLOSE => done ui.setExit.signal
  | _ => done ui.signal

/-- The `for(;;)` of `Ui::extensionGet`. -/
def extensionWaitBody (self : Cmd → Ui → Res) (queryId : String) (ui : Ui) : Res :=
  match sub self Cmd.eventLoop ui with
  | Except.error f => Except.error f
  | Except.ok u =>
    if u.m_status ≠ State.RUNNING then done u.signal
    else
      match find queryId u.m_responsemap with
      | some item => Except.ok (u.takeResponse queryId, some item)
      | none => self (Cmd.extensionWait queryId) u

/-- `Ui::extensionGet`. -/
def extensionGetBody (self : Cmd → Ui → Res) (callId : String) (parameters : Object)
    (ui : Ui) : Res :=
  if ui.m_status ≠ State.RUNNING then done ui
  else
    match ui.m_server with
    | none => Except.error Fault.nullServer
    | some s =>
      self (Cmd.extensionWait (toString s.queryId.1))
        (ui.serverQueryId.addRequest (Request.extension (toString s.queryId.1) callId parameters))

/-- `Ui::run`. -/
def runBody (self : Cmd → Ui → Res) (srv : Server) (ui : Ui) : Res :=
  match ui.m_server with
  | some _ => Except.error (Fault.assertion "You shall not run more than once")
  | none =>
    match sub self Cmd.eventLoop ((ui.startup srv).setStatus State.RUNNING) with
    | Except.error f => Except.error f
    | Except.ok u =>
      match (match u.m_onUiExit with
             | some cb => sub self (Cmd.call cb) u
             | none => Except.ok u) with
      | Except.error f => Except.error f
      | Except.ok v =>
        done (Ui.flushTimers
          v.clearRequests.serverClose.resetServer.clearTimers.clearTimerqueue false)

/-- One unfolding of every procedure; `self` stands for the nested calls. -/
def body (prog : CallbackId → List Action) (self : Cmd → Ui → Res) : Cmd → Ui → Res
  | Cmd.eventLoop, ui => eventLoopBody self ui
  | Cmd.wait, ui => waitBody self ui
  | Cmd.timerDrain, ui => timerDrainBody self ui
  | Cmd.requestDrain, ui => requestDrainBody self ui
  | Cmd.eventDrain, ui => eventDrainBody self ui
  | Cmd.exit, ui => exitBody self ui
  | Cmd.extensionGet callId parameters, ui => extensionGetBody self callId parameters ui
  | Cmd.extensionWait queryId, ui => extensionWaitBody self queryId ui
  | Cmd.call cb, ui => callBody prog self cb ui
  | Cmd.run srv, ui => runBody self srv ui

/-- The interpreter: `exec prog n c ui` runs procedure `c` on session `ui` with
host code `prog`; `n` bounds the depth of nested calls and loop passes. -/
def exec (prog : CallbackId → List Action) : Nat → Cmd → Ui → Res
  | 0, _, _ => Except.error Fault.outOfFuel
  | n + 1, c, ui => body prog (exec prog n) c ui

/-! ## Primitive steps

Every change that the procedures above make to the session, apart from the
start and the teardown in `Ui::run`, is one of the steps below.  A property
of all runs is then proved step by step. -/

/-- The primitive changes of a session. -/
inductive Prim where
  | openHandler
  | closeHandler (st : Close) (code : Int)
  | pushEvent (e : InternalEvent)
  | pushResponse (id : String) (k : Value)
  | setTransport (running connected : Bool)
  | elapse (ms : Nat)
  | dropBatch
  | waitDone
  | signal
  | note (c : Char)
  | enter (cb : CallbackId)
  | close
  | after (ms : Nat) (f : TimerFunc)
  | startPeriodic (ms : Nat) (f : TimerFunc)
  | cancelTimer (id : Nat)
  | onOpen (cb : Option CallbackId)
  | onReload (cb : Option CallbackId)
  | send (element type : String) (values : Value) (unique : Bool)
  | beginBatch
  | endBatch
  | extensionCall (callId : String) (parameters : Object)
  | popTimer
  | fireTimer (id : Nat)
  | pendingCheck
  | serverSend
  | serverClose
  | serverRetry
  | serverQueryId
  | release
  | popRequest
  | pushBack (r : Request)
  | takeEvent
  | setExit
  | reloadStep
  | openStep (fptr : CallbackId)
  | addRequest (r : Request)
  | flushTimers (runAll : Bool)
  | takeResponse (queryId : String)
  deriving DecidableEq, Repr

/-- The session after a primitive step. -/
def Prim.apply (p : Prim) (ui : Ui) : Ui :=
  match p with
  | Prim.openHandler => ui.openHandler
  | Prim.closeHandler st code => ui.closeHandler st code
  | Prim.pushEvent e => ui.pushEvent e
  | Prim.pushResponse id k => ui.pushResponse id k
  | Prim.setTransport r c => ui.setTransport r c
  | Prim.elapse ms => ui.elapse ms
  | Prim.dropBatch => ui.dropBatch
  | Prim.waitDone => ui.waitDone
  | Prim.signal => ui.signal
  | Prim.note c => ui.note c
  | Prim.enter cb => ui.enter cb
  | Prim.close => ui.close
  | Prim.after ms f => (ui.after ms f).2
  | Prim.startPeriodic ms f => (ui.startPeriodic ms f).2
  | Prim.cancelTimer id => (ui.cancelTimer id).2
  | Prim.onOpen cb => ui.onOpen cb
  | Prim.onReload cb => ui.onReload cb
  | Prim.send element type values unique => ui.send element type values unique
  | Prim.beginBatch => ui.beginBatch
  | Prim.endBatch => ui.endBatch
  | Prim.extensionCall callId parameters => ui.extensionCall callId parameters
  | Prim.popTimer => ui.popTimer
  | Prim.fireTimer id =>
    match ui.m_timers.lookup id with
    | some t => ui.fireTimer t
    | none => ui
  | Prim.pendingCheck => ui.pendingCheck
  | Prim.serverSend => ui.serverSend
  | Prim.serverClose => ui.serverClose
  | Prim.serverRetry => ui.serverRetry
  | Prim.serverQueryId => ui.serverQueryId
  | Prim.release => ui.holdTimers false
  | Prim.popRequest => ui.popRequest
  | Prim.pushBack r => ui.pushBack r
  | Prim.takeEvent => ui.takeEvent
  | Prim.setExit => ui.setExit
  | Prim.reloadStep => ui.reloadStep
  | Prim.openStep fptr => ui.openStep fptr
  | Prim.addRequest r => ui.addRequest r
  | Prim.flushTimers runAll => ui.flushTimers runAll
  | Prim.takeResponse queryId => ui.takeResponse queryId

/-- One primitive step leads from `a` to `b`. -/
def Step (a b : Ui) : Prop := ∃ p : Prim, b = p.apply a

/-- A finite sequence of primitive steps leads from `a` to `b`. -/
def Chain (a b : Ui) : Prop := Relation.ReflTransGen Step a b

/-- A command other than `Ui::run`. -/
def Cmd.inner : Cmd → Bool
  | Cmd.run _ => false
  | _ => true

/-- What the nested calls of a procedure body are assumed to satisfy. -/
def SelfChain (self : Cmd → Ui → Res) : Prop :=
  ∀ c u r, self c u = Except.ok r → c.inner = true → Chain u r.1

/-! ## Observations on the ghost trace -/

/-- The requests attempted, in order, according to a trace. -/
def attempts (l : List Obs) : List Request :=
  l.filterMap (fun o => match o with
    | Obs.attempt r => some r
    | _ => none)

/-- First-in-first-out discipline of the outbound queue between two sessions:
the requests attempted in between, followed by the queue at the end, are the
queue at the start followed by the requests that joined. -/
def RequestFifo (a b : Ui) : Prop :=
  ∃ A new, attempts b.log = attempts a.log ++ A ∧ A ++ b.m_requestqueue = a.m_requestqueue ++ new

/-! ## Concrete sessions used as witnesses and counterexamples -/

/-- A host program without any code. -/
def noProg : CallbackId → List Action := fun _ => []

/-- A request sent by `Ui::eval("a")`. -/
def c1First : Request := Request.sendParams [("element", ""), ("type", "eval"), ("eval", "a")]
/-- A request sent by `Ui::eval("b")`. -/
def c1Second : Request := Request.sendParams [("element", ""), ("type", "eval"), ("eval", "b")]

/-- A connected transport whose next send fails. -/
def c1Server : Server :=
  { running := true, connected := true, sendScript := [false], sendDefault := true,
    retryScript := [], retryDefault := false, queryCounter := 0 }

/-- A running session with two queued requests. -/
def c1Session : Ui :=
  { m_status := State.RUNNING, m_server := some c1Server, m_sema := { count := 2 },
    m_timers := { timers := [], nextId := 0, now := 0 }, m_timerqueue := [],
    m_requestqueue := [c1First, c1Second], m_eventqueue := [], m_responsemap := [],
    m_filemap := [], m_elements := [],
    m_onOpen := none, m_onReload := none, m_onUiExit := none, m_onError := none,
    m_hold := false, m_msgId := 0, indexHtml := "index.html", extraParams := "",
    env := [], log := [] }

/-- A transport that has stopped running. -/
def stoppedServer : Server :=
  { running := false, connected := false, sendScript := [], sendDefault := true,
    retryScript := [], retryDefault := false, queryCounter := 0 }

/-- A running session whose transport has stopped, with work in all three queues. -/
def c2Session : Ui :=
  { m_status := State.RUNNING, m_server := some stoppedServer, m_sema := { count := 3 },
    m_timers := { timers := [], nextId := 1, now := 0 }, m_timerqueue := [some 0],
    m_requestqueue := [Request.closeRequest],
    m_eventqueue := [{ element := "button", handler := "click", data := [] }],
    m_responsemap := [],
    m_filemap := [], m_elements := [],
    m_onOpen := none, m_onReload := none, m_onUiExit := none, m_onError := none,
    m_hold := false, m_msgId := 0, indexHtml := "index.html", extraParams := "",
    env := [], log := [] }

/-- A session that has exited. -/
def c3Session : Ui :=
  { m_status := State.EXIT, m_server := none, m_sema := { count := 0 },
    m_timers := { timers := [], nextId := 0, now := 0 }, m_timerqueue := [],
    m_requestqueue := [], m_eventqueue := [], m_responsemap := [],
    m_filemap := [], m_elements := [],
    m_onOpen := none, m_onReload := none, m_onUiExit := none, m_onError := none,
    m_hold := false, m_msgId := 0, indexHtml := "index.html", extraParams := "",
    env := [], log := [] }

/-- A transport that runs, is connected and accepts every send. -/
def liveServer : Server :=
  { running := true, connected := true, sendScript := [], sendDefault := true,
    retryScript := [], retryDefault := false, queryCounter := 0 }

/-- A running, connected session whose pending-response table holds an answer
that nobody has taken. -/
def c2Answered : Ui :=
  { m_status := State.RUNNING, m_server := some liveServer, m_sema := { count := 0 },
    m_timers := { timers := [], nextId := 0, now := 0 }, m_timerqueue := [],
    m_requestqueue := [], m_eventqueue := [],
    m_responsemap := [("7", Value.str "late")],
    m_filemap := [], m_elements := [],
    m_onOpen := none, m_onReload := none, m_onUiExit := none, m_onError := none,
    m_hold := false, m_msgId := 0, indexHtml := "index.html", extraParams := "",
    env := [], log := [] }

/-- The state in which a procedure returned, if it returned. -/
def statusOf (r : Res) : Option State :=
  match r with
  | Except.ok x => some x.1.m_status
  | Except.error _ => none

/-- The answer of the front-end to the extension query with id `0`. -/
def c4Answer : Object :=
  [("type", Value.str "extension_response"), ("extension_id", Value.str "0"),
   ("extension_call", Value.str "answer"), ("answer", Value.str "42")]

/-- A running, connected session to which the front-end will answer query `0`. -/
def c4Session : Ui :=
  { m_status := State.RUNNING, m_server := some liveServer, m_sema := { count := 0 },
    m_timers := { timers := [], nextId := 0, now := 0 }, m_timerqueue := [],
    m_requestqueue := [], m_eventqueue := [], m_responsemap := [],
    m_filemap := [], m_elements := [],
    m_onOpen := none, m_onReload := none, m_onUiExit := none, m_onError := none,
    m_hold := false, m_msgId := 0, indexHtml := "index.html", extraParams := "",
    env := [[EnvEvent.message c4Answer]], log := [] }

/-- The value a procedure returned, if it returned. -/
def valueOf (r : Res) : Option (Option Value) :=
  match r with
  | Except.ok x => some x.2
  | Except.error _ => none

/-- The session in which `extensionGet` returns on `c4Session`. -/
def c4Result : Ui × Option Value :=
  match exec noProg 10 (Cmd.extensionGet "call" []) c4Session with
  | Except.ok r => r
  | Except.error _ => (c4Session, none)

/-- A fulfilment of query `7` that arrives although no query is waiting. -/
def c5Late : Object :=
  [("type", Value.str "query"), ("query_id", Value.str "7"),
   ("query_value", Value.str "value"), ("value", Value.str "late")]

/-- A session in which no query is waiting: it has exited and its
pending-response table is empty. -/
def c5Session : Ui := c3Session

/-- An error callback that does nothing. -/
def noError : CallbackId → Ui → Except Fault Ui := fun _ u => Except.ok u

/-- A codec that writes every byte as one character. -/
def plainCodec : Base64 :=
  { encode := fun b => String.mk (b.map (fun x => Char.ofNat x.toNat)),
    decode := fun s => s.data.map (fun c => UInt8.ofNat c.toNat) }

/-- A file system with one file, `/tmp/test_data`. -/
def c6Files : FileSystem := fun name => if name = "/tmp/test_data" then some [104, 105] else none

/-- Timer `id` has been handed out by the manager and is no longer in it. -/
def TimerMgr.Gone (id : Nat) (m : TimerMgr) : Prop :=
  id < m.nextId ∧ ∀ t ∈ m.timers, t.id ≠ id

/-- How often the function of timer `id` was invoked according to a trace. -/
def timerCalls (id : Nat) (l : List Obs) : Nat := l.count (Obs.timer id)

/-- Relation between two sessions: when timer `id` is gone in the first, it is
gone in the second and its function was not invoked in between. -/
def StaysCancelled (id : Nat) (a b : Ui) : Prop :=
  a.m_timers.Gone id → b.m_timers.Gone id ∧ timerCalls id b.log = timerCalls id a.log

/-- Host code whose callback `1` leaves the note `x`. -/
def c7Prog : CallbackId → List Action
  | 1 => [Action.note 'x']
  | _ => []

/-- A running session in which the one-shot timer `0` is due: its function has
been moved into the due-timer queue and has not been dequeued yet. -/
def c7Session : Ui :=
  { m_status := State.RUNNING, m_server := some liveServer, m_sema := { count := 1 },
    m_timers := { timers := [{ id := 0, ms := 1000, deadline := 1000, singleShot := true,
                               func := TimerFunc.user 1, fired := true }],
                  nextId := 1, now := 1000 },
    m_timerqueue := [some 0],
    m_requestqueue := [], m_eventqueue := [], m_responsemap := [],
    m_filemap := [], m_elements := [],
    m_onOpen := none, m_onReload := none, m_onUiExit := none, m_onError := none,
    m_hold := false, m_msgId := 0, indexHtml := "index.html", extraParams := "",
    env := [], log := [] }

/-- The trace of a procedure that returned. -/
def logOf (r : Res) : List Obs :=
  match r with
  | Except.ok x => x.1.log
  | Except.error _ => []

/-- The session in which the due-timer drain returns after the cancel. -/
def c7Result : Ui × Option Value :=
  match exec c7Prog 5 Cmd.timerDrain (c7Session.cancelTimer 0).2 with
  | Except.ok r => r
  | Except.error _ => (c7Session, none)

/-- The entries taken from the due-timer queue, in order, according to a trace. -/
def dequeued (l : List Obs) : List (Option Nat) :=
  l.filterMap (fun o => match o with
    | Obs.dequeue f => some f
    | _ => none)

/-- First-in-first-out discipline of the due-timer queue between two sessions:
the entries dequeued in between, followed by the queue at the end, are the
queue at the start followed by the entries that joined. -/
def TimerFifo (a b : Ui) : Prop :=
  ∃ D new, dequeued b.log = dequeued a.log ++ D ∧ D ++ b.m_timerqueue = a.m_timerqueue ++ new

/-- The notes that host code left in a trace. -/
def notes (l : List Obs) : List Char :=
  l.filterMap (fun o => match o with
    | Obs.note c => some c
    | _ => none)

/-- Host code of the test `startManyTimers`: on-open appends `m`, the six timer
functions append `o`, `n`, `s`, `t`, `e`, `r`, and the last one calls `exit`. -/
def monsterProg : CallbackId → List Action
  | 0 => [Action.note 'm']
  | 1 => [Action.note 'o']
  | 2 => [Action.note 'n']
  | 3 => [Action.note 's']
  | 4 => [Action.note 't']
  | 5 => [Action.note 'e']
  | 6 => [Action.note 'r', Action.exit]
  | _ => []

/-- A transport that listens and has no connection yet. -/
def listeningServer : Server :=
  { running := true, connected := false, sendScript := [], sendDefault := true,
    retryScript := [], retryDefault := false, queryCounter := 0 }

/-- The session of the test `startManyTimers` before `run()`: on-open is
registered and six timers are started with delays 0, 1, 100, 1000, 1001 and
10002 ms.  The first two timers become due before the front-end connects;
after the exit request the transport closes. -/
def monsterSession : Ui :=
  let u0 := (Ui.create plainCodec [("/apitests.html", "")] "apitests.html" "").onOpen (some 0)
  let u1 := (u0.after 0 (TimerFunc.user 1)).2
  let u2 := (u1.after 1 (TimerFunc.user 2)).2
  let u3 := (u2.after 100 (TimerFunc.user 3)).2
  let u4 := (u3.after 1000 (TimerFunc.user 4)).2
  let u5 := (u4.after 1001 (TimerFunc.user 5)).2
  let u6 := (u5.after 10002 (TimerFunc.user 6)).2
  { u6 with env := [[EnvEvent.elapse 5], [EnvEvent.transport true true, EnvEvent.opened],
                    [EnvEvent.elapse 20000], [],
                    [EnvEvent.closed Close.EXIT 0, EnvEvent.transport false false]] }

/-- A running session that the front-end has just left: the transport runs
and is not connected. -/
def c10Session : Ui :=
  { m_status := State.RUNNING, m_server := some listeningServer, m_sema := { count := 0 },
    m_timers := { timers := [], nextId := 0, now := 0 }, m_timerqueue := [],
    m_requestqueue := [], m_eventqueue := [], m_responsemap := [],
    m_filemap := [], m_elements := [],
    m_onOpen := none, m_onReload := none, m_onUiExit := none, m_onError := none,
    m_hold := false, m_msgId := 0, indexHtml := "index.html", extraParams := "",
    env := [], log := [] }

/-- The session after a first disconnect. -/
def c10Closed : Ui := c10Session.closeHandler Close.CLOSE 0

/-- The session after the reconnection that follows. -/
def c10Reopened : Ui := c10Closed.openHandler

/-- The session after a second disconnect, 500 ms after the first. -/
def c10ClosedAgain : Ui := (c10Reopened.elapse 500).closeHandler Close.CLOSE 0

/-- The session 1000 ms after the first disconnect. -/
def c10Due : Ui := c10ClosedAgain.elapse 500

/-- The same calls as a schedule for the event loop. -/
def c10Scheduled : Ui :=
  { c10Session with
    env := [[EnvEvent.closed Close.CLOSE 0], [EnvEvent.opened],
            [EnvEvent.elapse 500, EnvEvent.closed Close.CLOSE 0], [EnvEvent.elapse 500]] }

/-- The state after a procedure that need not return a session. -/
def statusAfter (r : Except Fault Ui) : Option State :=
  match r with
  | Except.ok u => some u.m_status
  | Except.error _ => none

/-- The state is neither `PENDING` nor `CLOSE`. -/
def Settled (u : Ui) : Prop := u.m_status ≠ State.PENDING ∧ u.m_status ≠ State.CLOSE

/-- A primitive step that is a call of the close handler. -/
def Prim.isClose : Prim → Bool
  | Prim.closeHandler _ _ => true
  | _ => false

/-- The session after a sequence of primitive steps. -/
def applyAll (ps : List Prim) (ui : Ui) : Ui := ps.foldl (fun u p => p.apply u) ui

/-- A session in state `EXIT` whose transport handle still exists: the front-end
has asked for the exit and `run()` has not torn the session down yet. -/
def c11Session : Ui :=
  { m_status := State.EXIT, m_server := some liveServer, m_sema := { count := 0 },
    m_timers := { timers := [], nextId := 0, now := 0 }, m_timerqueue := [],
    m_requestqueue := [], m_eventqueue := [], m_responsemap := [],
    m_filemap := [], m_elements := [],
    m_onOpen := none, m_onReload := none, m_onUiExit := none, m_onError := none,
    m_hold := false, m_msgId := 0, indexHtml := "index.html", extraParams := "",
    env := [], log := [] }

/-- A transport that runs and whose next restart fails. -/
def failingRestart : Server :=
  { running := true, connected := false, sendScript := [], sendDefault := true,
    retryScript := [false], retryDefault := true, queryCounter := 0 }

/-- A session in state `RETRY` with work in all three queues and a pending signal. -/
def c12Session : Ui :=
  { c2Session with m_status := State.RETRY, m_server := some failingRestart,
                   m_sema := { count := 1 } }

/-- A running, connected session with a reload callback, and the same session
after a disconnect. -/
def c13Session : Ui :=
  { c10Session with m_server := some liveServer, m_onReload := some 1 }

/-- The session `c13Session` in state `PENDING`, with a pending signal. -/
def c13Pending : Ui := { c13Session with m_status := State.PENDING, m_sema := { count := 1 } }

/-- A front-end message that asks for the exit. -/
def exitRequestMessage : Object := [("type", Value.str "exit_request")]

/-- The session `c13Pending` after the open callback; the front-end will ask
for the exit one pass later. -/
def c13Reopened : Ui :=
  { c13Pending.openHandler with env := [[], [EnvEvent.message exitRequestMessage]] }

/-- A running session whose transport handle is gone. -/
def c14Detached : Ui := { c13Session with m_server := none }

/-- An inbound click on the element `button`. -/
def clickMessage : Object :=
  [("type", Value.str "event"), ("element", Value.str "button"), ("event", Value.str "click"),
   ("properties", Value.object [])]

/-- A session before `run()`; during the run the front-end connects, sends a
click and an answer that nobody waits for, and asks for the exit, all at once. -/
def c15Session : Ui :=
  { c14Detached with
    m_status := State.NOTSTARTED,
    env := [[EnvEvent.transport true true, EnvEvent.opened, EnvEvent.message clickMessage,
             EnvEvent.message c5Late, EnvEvent.message exitRequestMessage]] }

/-- Host code of the test `timerStartStop`: both timer functions call `exit`
and count. -/
def startStopProg : CallbackId → List Action
  | 1 => [Action.exit, Action.note '1']
  | 2 => [Action.exit, Action.note '2']
  | _ => []

/-- What the other threads do during one run of the test `timerStartStop`: the
front-end connects, the timer becomes due, and after the exit request the
transport closes. -/
def startStopEnv : List (List EnvEvent) :=
  [[EnvEvent.transport true true, EnvEvent.opened, EnvEvent.elapse 0], [],
   [EnvEvent.closed Close.EXIT 0, EnvEvent.transport false false]]

/-- The session of the test `timerStartStop` before the first `run()`. -/
def startStopFirst : Ui :=
  { ((Ui.create plainCodec [("/apitests.html", "")] "apitests.html" "").after 0
      (TimerFunc.user 1)).2 with env := startStopEnv }

/-- The session a procedure returned, or the given one. -/
def sessionOf (r : Res) (otherwise : Ui) : Ui :=
  match r with
  | Except.ok x => x.1
  | Except.error _ => otherwise

/-- The session of the test `timerStartStop` before the second `run()`. -/
def startStopSecond : Ui :=
  { ((sessionOf (exec startStopProg 30 (Cmd.run listeningServer) startStopFirst)
        startStopFirst).after 0 (TimerFunc.user 2)).2 with env := startStopEnv }

/-- The key under which `normalizeNames` stores the entry of key `k`. -/
def normalizedKey (k : String) : String :=
  if k.length > 0 ∧ k.front ≠ '/' then "/" ++ k else k

/-- The key is empty or begins with `/`. -/
def Rooted (k : String) : Prop := k = "" ∨ k.front = '/'

/-- An inbound message of type `event` without the field `element`. -/
def c17Malformed : Object := [("type", Value.str "event"), ("event", Value.str "click")]

/-- The message types that the handler knows. -/
def knownTypes : List String :=
  ["event", "query", "extension_response", "error", "exit_request", "extensionready"]

/-- The parameter map of the request that `Ui::send` queued last, if it is a
request with a string payload. -/
def lastSent (ui : Ui) : Option (List (String × String)) :=
  match ui.m_requestqueue.getLast? with
  | some (Request.sendParams params) => some params
  | _ => none

/-- The rest of a pass of `Ui::eventLoop` after its on-open step: the
outbound-request drain, the check of the pending-response table, the
inbound-event drain and the next pass. -/
def restOfPass (self : Cmd → Ui → Res) (u3 : Ui) : Res :=
  match sub self Cmd.requestDrain u3 with
  | Except.error f => Except.error f
  | Except.ok u4 =>
    if u4.m_responsemap ≠ [] then done u4
    else
      match sub self Cmd.eventDrain u4 with
      | Except.error f => Except.error f
      | Except.ok u5 => self Cmd.eventLoop u5

/-- A primitive step that registers an on-open function. -/
def Prim.registers : Prim → Bool
  | Prim.onOpen (some _) => true
  | _ => false

/-- Host code of the test `openPage_defaults`: on-open counts and calls `exit`. -/
def openPageProg : CallbackId → List Action
  | 0 => [Action.note 'k', Action.exit]
  | _ => []

/-- The session of the test `openPage_defaults` before `run()`. -/
def openPageSession : Ui :=
  { (Ui.create plainCodec [("/apitests.html", "")] "apitests.html" "").onOpen (some 0) with
    env := [[EnvEvent.transport true true, EnvEvent.opened], [], [],
            [EnvEvent.closed Close.EXIT 0, EnvEvent.transport false false]] }

/-- How often host code `cb` was called according to a trace. -/
def callCount (cb : CallbackId) (l : List Obs) : Nat := l.count (Obs.call cb)

/-- A running, connected session with a registered on-open function and a
pending signal. -/
def c19Session : Ui := { c13Session with m_onOpen := some 0, m_sema := { count := 1 } }

/-- A transport that runs and is connected, and every send of which fails. -/
def brokenServer : Server :=
  { running := true, connected := true, sendScript := [], sendDefault := false,
    retryScript := [], retryDefault := false, queryCounter := 0 }

/-- A running session, connected over `brokenServer`, with nothing queued. -/
def c20Session : Ui := { c10Session with m_server := some brokenServer }

/-- The session in which `Ui::exit` leaves `c20Session`. -/
def c20Result : Ui := sessionOf (exec noProg 8 Cmd.exit c20Session) c20Session

/-- The session after the failed attempt of the exit request at the head of the
queue of `ui`: the request is taken, the send is made, the transport is
closed, and the drain puts the request back. -/
def Ui.exitFailed (ui : Ui) : Ui :=
  ui.popRequest.serverSend.serverClose.pushBack Request.exitRequest

/-- The on-open step of a pass of `Ui::eventLoop`:
`if(m_onOpen && m_status == State::RUNNING && m_server->isConnected())`. -/
def onOpenStep (u2 : Ui) : Except Fault Ui :=
  match u2.m_onOpen with
  | none => Except.ok u2
  | some fptr =>
    if u2.m_status = State.RUNNING then
      match u2.m_server with
      | none => Except.error Fault.nullServer
      | some s => if s.connected then Except.ok (u2.openStep fptr) else Except.ok u2
    else Except.ok u2

/-- A running, connected session with a pending signal, an answer in the
pending-response table that nobody has taken, and a click waiting in the
inbound-event queue for the handler `5`. -/
def c21Session : Ui :=
  { c2Answered with
    m_sema := { count := 1 },
    m_eventqueue := [{ element := "button", handler := "click", data := [] }],
    m_elements := [("button", [("click", 5)])] }

/-- A session in state `PENDING` on a connected transport, with a pending
signal, a registered on-open function and work in all three queues. -/
def c23Session : Ui :=
  { c2Session with m_status := State.PENDING, m_server := some liveServer, m_onOpen := some 0,
                   m_elements := [("button", [("click", 5)])] }

/-- The answer of the front-end to the query with id `3` for the value `width`. -/
def c24Answer : Object :=
  [("type", Value.str "query"), ("query_id", Value.str "3"), ("query_value", Value.str "width"),
   ("width", Value.num 640)]

/-- The events taken from the inbound-event queue, in order, according to a
trace, whether they went to a handler or were dropped. -/
def taken (l : List Obs) : List InternalEvent :=
  l.filterMap (fun o => match o with
    | Obs.dispatch it _ => some it
    | Obs.dropped it => some it
    | _ => none)

/-- First-in-first-out discipline of the inbound-event queue between two
sessions: the events taken in between, followed by the queue at the end, are
the queue at the start followed by the events that arrived. -/
def EventFifo (a b : Ui) : Prop :=
  ∃ T new, taken b.log = taken a.log ++ T ∧ T ++ b.m_eventqueue = a.m_eventqueue ++ new

/-- Host code whose handler `5` leaves the note `c`. -/
def c22Prog : CallbackId → List Action
  | 5 => [Action.note 'c']
  | _ => []

/-- A click on the element `button`. -/
def c22Click : InternalEvent := { element := "button", handler := "click", data := [] }

/-- A key press on the element `button`, for which nothing is subscribed. -/
def c22Key : InternalEvent :=
  { element := "button", handler := "keyup", data := [("key", Value.str "a")] }

/-- A click on the element `label`, which has no subscriptions. -/
def c22Other : InternalEvent := { element := "label", handler := "click", data := [] }

/-- A running, connected session with three queued events; only the click on
`button` has a handler. -/
def c22Session : Ui :=
  { c13Session with
    m_eventqueue := [c22Key, c22Click, c22Other],
    m_elements := [("button", [("click", 5)])] }

/-- Host code whose on-open function `0` leaves the note `m`. -/
def c25Prog : CallbackId → List Action
  | 0 => [Action.note 'm']
  | _ => []

/-- A running session on a connected transport with a pending signal, a
registered on-open function and a request that was queued before the loop
reached its on-open step. -/
def c25Session : Ui :=
  { c19Session with m_requestqueue := [Request.sendParams [("element", ""), ("type", "early")]] }

/-- The requests whose closure only calls `m_server->send(...)` and returns
what the call returned. -/
def Request.isSend : Request → Bool
  | Request.closeRequest => true
  | Request.sendParams _ => true
  | Request.sendValues _ _ => true
  | Request.extension _ _ _ => true
  | _ => false

/-- A running session, connected over `brokenServer`, with one queued request. -/
def c26Session : Ui :=
  { c20Session with m_requestqueue := [Request.sendParams [("element", ""), ("type", "nil")]] }

/-- A transport that runs, is connected, and refuses the next two sends. -/
def slowServer : Server :=
  { running := true, connected := true, sendScript := [false, false], sendDefault := true,
    retryScript := [], retryDefault := false, queryCounter := 0 }

/-- A running session, connected over `slowServer`, with two queued requests. -/
def c26Slow : Ui :=
  { c20Session with
    m_server := some slowServer,
    m_requestqueue := [Request.sendParams [("element", ""), ("type", "nil")],
                       Request.closeRequest] }

/-- The character class of the pattern `[\/\\]`: the slash and the backslash. -/
def slashClass (c : Char) : Bool := c == '/' || c == Char.ofNat 92

/-- Modelled from the spec: `GempyreUtils::substitute` for a pattern that is a
character class and a substitution of one character: every character of the
class is replaced. -/
def substitute (str : String) (cls : Char → Bool) (substitution : Char) : String :=
  String.mk (str.data.map (fun c => if cls c then substitution else c))

/-- The static `Ui::addFile(Gempyre::Ui::Filemap& map, const std::string& file)`:
the url returned, if any, and the map afterwards. -/
def addFile (codec : Base64) (fs : FileSystem) (map : List (String × String)) (file : String) :
    Option String × List (String × String) :=
  match fs file with
  | none => (none, map)
  | some data =>
    match find (substitute file slashClass '_') map with
    | some _ => (none, map)
    | none =>
      (some ("/" ++ substitute file slashClass '_'),
       insert_or_assign ("/" ++ substitute file slashClass '_') (codec.encode data) map)

/-- The file system `c6Files` after the file was rewritten. -/
def c28Files : FileSystem := fun name => if name = "/tmp/test_data" then some [98, 121, 101] else none

/-- Modelled from the spec: `Color::type` is `Gempyre::dataT` (`gempyre.h`), an
unsigned 32-bit integer; a pixel is a natural number below `2 ^ 32`, and a
shift keeps the low 32 bits of its result. -/
def Color.wrap (x : Nat) : Nat := x % 2 ^ 32

/-- `Color::rgba_clamped`. -/
def Color.rgba_clamped (r g b a : Nat) : Nat :=
  (0xFF &&& r) ||| Color.wrap ((0xFF &&& g) <<< 8) ||| Color.wrap ((0xFF &&& b) <<< 16) |||
    Color.wrap ((0xFF &&& a) <<< 24)

/-- `Color::rgba(type r, type g, type b, type a)`. -/
def Color.rgba (r g b a : Nat) : Nat :=
  r ||| Color.wrap (g <<< 8) ||| Color.wrap (b <<< 16) ||| Color.wrap (a <<< 24)

/-- `Color::r`. -/
def Color.r (pixel : Nat) : Nat := pixel &&& 0xFF

/-- `Color::g`. -/
def Color.g (pixel : Nat) : Nat := (pixel &&& 0xFF00) >>> 8

/-- `Color::b`. -/
def Color.b (pixel : Nat) : Nat := (pixel &&& 0xFF0000) >>> 16

/-- `Color::alpha`. -/
def Color.alpha (pixel : Nat) : Nat := (pixel &&& 0xFF000000) >>> 24

/-- `Graphics::Black`. -/
def Graphics.Black : Nat := Color.rgba 0 0 0 0xFF

/-- `Graphics::White`. -/
def Graphics.White : Nat := Color.rgba 0xFF 0xFF 0xFF 0xFF

/-- `Graphics::Red`. -/
def Graphics.Red : Nat := Color.rgba 0xFF 0 0 0xFF

/-- `Graphics::Green`. -/
def Graphics.Green : Nat := Color.rgba 0 0xFF 0 0xFF

/-- `Graphics::Blue`. -/
def Graphics.Blue : Nat := Color.rgba 0 0xFF 0 0xFF

/-- The session in which the last pass of the event loop made by the `for(;;)`
of `Ui::extensionGet` ended, when the loop is entered with the session `ui`:
every pass before it ended in state `RUNNING` with no entry under `queryId`
in the pending-response table, and the next pass started from there. -/
def lastPass (prog : CallbackId → List Action) (queryId : String) : Nat → Ui → Except Fault Ui
  | 0, _ => Except.error Fault.outOfFuel
  | n + 1, ui =>
    match exec prog n Cmd.eventLoop ui with
    | Except.error f => Except.error f
    | Except.ok r =>
      if r.1.m_status = State.RUNNING ∧ (find queryId r.1.m_responsemap).isNone then
        lastPass prog queryId n r.1
      else Except.ok r.1

/-- The session in which the last pass of the loop ends when `extensionGet` is
called on `c4Session`. -/
def c4Last : Ui := { c4Result.1 with m_responsemap := [("0", Value.str "42")] }

/-- The session of the second `run()` after the run of `c15Session`: a timer of
one second is started, the front-end connects, the second passes, and the
front-end closes. -/
def c15Second : Ui :=
  { ((sessionOf (exec noProg 10 (Cmd.run listeningServer) c15Session) c15Session).after 1000
      (TimerFunc.user 2)).2 with
    env := [[EnvEvent.transport true true, EnvEvent.opened], [EnvEvent.elapse 1000], [],
            [EnvEvent.closed Close.EXIT 0, EnvEvent.transport false false]] }

/-- The session `c15Second` with the pending-response table emptied. -/
def c15Cleared : Ui := { c15Second with m_responsemap := [] }

/-- The teardown of `Ui::run` after the loop and the on-exit function returned
with the session `v`. -/
def Ui.teardown (v : Ui) : Ui :=
  Ui.flushTimers v.clearRequests.serverClose.resetServer.clearTimers.clearTimerqueue false

/-! ## Theorems -/

theorem chain_refl (a : Ui) : Chain a a := Relation.ReflTransGen.refl

theorem chain_trans {a b c : Ui} (h1 : Chain a b) (h2 : Chain b c) : Chain a c :=
  Relation.ReflTransGen.trans h1 h2

theorem chain_prim (p : Prim) {a b : Ui} (h : Chain a b) : Chain a (p.apply b) :=
  Relation.ReflTransGen.tail h ⟨p, rfl⟩

theorem chain_one (p : Prim) (a : Ui) : Chain a (p.apply a) := chain_prim p (chain_refl a)

/-! ### Every run is a sequence of primitive steps -/


theorem sub_ok {self : Cmd → Ui → Res} {c : Cmd} {u u' : Ui} (h : sub self c u = Except.ok u') :
    ∃ r, self c u = Except.ok r ∧ r.1 = u' := by
  unfold sub at h
  split at h
  · next r hr => exact ⟨r, hr, by cases h; rfl⟩
  · cases h

theorem sub_chain {self : Cmd → Ui → Res} (hs : SelfChain self)
    {c : Cmd} {u u' : Ui} (h : sub self c u = Except.ok u') (hc : c.inner = true) : Chain u u' := by
  obtain ⟨r, hr, rfl⟩ := sub_ok h
  exact hs c u r hr hc

theorem onEventMessage_chain (ui ui' : Ui) (params : Object)
    (h : ui.onEventMessage params = Except.ok ui') : Chain ui ui' := by
  unfold Ui.onEventMessage at h
  split at h
  · cases h
  · split at h
    · cases h
    · split at h
      · cases h
      · cases h; exact chain_one (Prim.pushEvent _) ui

theorem onQueryMessage_chain (ui ui' : Ui) (params : Object)
    (h : ui.onQueryMessage params = Except.ok ui') : Chain ui ui' := by
  unfold Ui.onQueryMessage at h
  split at h
  · cases h
  · split at h
    · cases h
    · split at h
      · cases h
      · cases h; exact chain_one (Prim.pushResponse _ _) ui

theorem onExtensionResponse_chain (ui ui' : Ui) (params : Object)
    (h : ui.onExtensionResponse params = Except.ok ui') : Chain ui ui' := by
  unfold Ui.onExtensionResponse at h
  split at h
  · split at h
    · cases h
    · split at h
      · cases h
      · split at h
        · cases h
        · cases h; exact chain_one (Prim.pushResponse _ _) ui
  · cases h

theorem onErrorMessage_chain {onError : CallbackId → Ui → Except Fault Ui}
    (hon : ∀ cb u u', onError cb u = Except.ok u' → Chain u u') (ui ui' : Ui) (params : Object)
    (h : ui.onErrorMessage onError params = Except.ok ui') : Chain ui ui' := by
  unfold Ui.onErrorMessage at h
  split at h
  · cases h
  · split at h
    · cases h
    · split at h
      · exact hon _ _ _ h
      · cases h; exact chain_refl ui

theorem messageHandler_chain {onError : CallbackId → Ui → Except Fault Ui}
    (hon : ∀ cb u u', onError cb u = Except.ok u' → Chain u u') (ui ui' : Ui) (params : Object)
    (h : ui.messageHandler onError params = Except.ok ui') : Chain ui ui' := by
  unfold Ui.messageHandler at h
  split at h
  · cases h; exact chain_refl ui
  · split at h
    · cases h
    · split at h
      · cases h
      · next u hu =>
        cases h
        refine chain_prim Prim.signal ?_
        split at hu
        · exact onEventMessage_chain ui u params hu
        · split at hu
          · exact onQueryMessage_chain ui u params hu
          · split at hu
            · exact onExtensionResponse_chain ui u params hu
            · split at hu
              · exact onErrorMessage_chain hon ui u params hu
              · split at hu
                · cases hu; exact chain_one Prim.setExit ui
                · split at hu
                  · cases hu; exact chain_one (Prim.extensionCall _ _) ui
                  · cases hu; exact chain_refl ui

theorem deliver_chain {self : Cmd → Ui → Res} (hs : SelfChain self) (e : EnvEvent) (ui ui' : Ui)
    (h : deliver self e ui = Except.ok ui') : Chain ui ui' := by
  cases e with
  | opened => cases h; exact chain_one Prim.openHandler ui
  | message params =>
    have hon : ∀ cb u u', sub self (Cmd.call cb) u = Except.ok u' → Chain u u' :=
      fun _ _ _ hu => sub_chain hs hu rfl
    exact messageHandler_chain hon ui ui' params h
  | closed st code => cases h; exact chain_one (Prim.closeHandler st code) ui
  | transport r c => cases h; exact chain_one (Prim.setTransport r c) ui
  | elapse ms => cases h; exact chain_one (Prim.elapse ms) ui

theorem deliverAll_chain {self : Cmd → Ui → Res} (hs : SelfChain self) (es : List EnvEvent) :
    ∀ (ui ui' : Ui), deliverAll self es ui = Except.ok ui' → Chain ui ui' := by
  induction es with
  | nil => intro ui ui' h; cases h; exact chain_refl ui
  | cons e es ih =>
    intro ui ui' h
    unfold deliverAll at h
    split at h
    · next u hu => exact (deliver_chain hs e ui u hu).trans (ih u ui' h)
    · cases h

theorem poll_chain {self : Cmd → Ui → Res} (hs : SelfChain self) (ui ui' : Ui)
    (h : poll self ui = Except.ok ui') : Chain ui ui' := by
  unfold poll at h
  split at h
  · cases h; exact chain_refl ui
  · exact (chain_one Prim.dropBatch ui).trans (deliverAll_chain hs _ _ _ h)

theorem waitBody_chain {self : Cmd → Ui → Res} (hs : SelfChain self) (ui : Ui) (r : Ui × Option Value)
    (h : waitBody self ui = Except.ok r) : Chain ui r.1 := by
  unfold waitBody at h
  split at h
  · split at h
    · cases h
    · split at h
      · next u hu =>
        exact ((chain_one Prim.dropBatch ui).trans (deliverAll_chain hs _ _ _ hu)).trans
          (hs _ _ _ h rfl)
      · cases h
  · cases h; exact chain_one Prim.waitDone ui

theorem actionStep_chain {self : Cmd → Ui → Res} (hs : SelfChain self) (a : Action) (ui ui' : Ui)
    (h : actionStep self a ui = Except.ok ui') : Chain ui ui' := by
  cases a with
  | note c => cases h; exact chain_one (Prim.note c) ui
  | exit => exact sub_chain hs h rfl
  | close => cases h; exact chain_one Prim.close ui
  | after ms cb => cases h; exact chain_one (Prim.after ms (TimerFunc.user cb)) ui
  | startPeriodic ms cb => cases h; exact chain_one (Prim.startPeriodic ms (TimerFunc.user cb)) ui
  | cancelTimer id => cases h; exact chain_one (Prim.cancelTimer id) ui
  | onOpen cb => cases h; exact chain_one (Prim.onOpen cb) ui
  | onReload cb => cases h; exact chain_one (Prim.onReload cb) ui
  | send e t v u => cases h; exact chain_one (Prim.send e t v u) ui
  | beginBatch => cases h; exact chain_one Prim.beginBatch ui
  | endBatch => cases h; exact chain_one Prim.endBatch ui
  | extensionCall c ps => cases h; exact chain_one (Prim.extensionCall c ps) ui
  | extensionGet c ps => exact sub_chain hs h rfl

theorem runActions_chain {self : Cmd → Ui → Res} (hs : SelfChain self) (l : List Action) :
    ∀ (ui ui' : Ui), runActions self l ui = Except.ok ui' → Chain ui ui' := by
  induction l with
  | nil => intro ui ui' h; cases h; exact chain_refl ui
  | cons a l ih =>
    intro ui ui' h
    unfold runActions at h
    split at h
    · next u hu => exact (actionStep_chain hs a ui u hu).trans (ih u ui' h)
    · cases h

theorem callBody_chain (prog : CallbackId → List Action) {self : Cmd → Ui → Res}
    (hs : SelfChain self) (cb : CallbackId) (ui : Ui) (r : Ui × Option Value)
    (h : callBody prog self cb ui = Except.ok r) : Chain ui r.1 := by
  unfold callBody at h
  split at h
  · next u hu =>
    cases h
    exact (chain_one (Prim.enter cb) ui).trans (runActions_chain hs _ _ _ hu)
  · cases h

theorem fireTimer_prim (ui : Ui) (id : Nat) (t : Timer) (h : ui.m_timers.lookup id = some t) :
    ui.fireTimer t = (Prim.fireTimer id).apply ui := by
  simp [Prim.apply, h]

theorem runTimer_chain {self : Cmd → Ui → Res} (hs : SelfChain self) (id : Nat) (ui ui' : Ui)
    (h : runTimer self id ui = Except.ok ui') : Chain ui ui' := by
  unfold runTimer at h
  split at h
  · cases h; exact chain_refl ui
  · next t ht =>
    have hf : Chain ui (ui.fireTimer t) := by
      rw [fireTimer_prim ui id t ht]; exact chain_one _ ui
    split at h
    · exact hf.trans (sub_chain hs h rfl)
    · cases h; exact chain_prim Prim.pendingCheck hf

theorem timerDrainBody_chain {self : Cmd → Ui → Res} (hs : SelfChain self) (ui : Ui)
    (r : Ui × Option Value) (h : timerDrainBody self ui = Except.ok r) : Chain ui r.1 := by
  unfold timerDrainBody at h
  split at h
  · cases h; exact chain_refl ui
  · split at h
    · split at h
      · exact (chain_one Prim.popTimer ui).trans (hs _ _ _ h rfl)
      · split at h
        · next u hu =>
          exact ((chain_one Prim.popTimer ui).trans (runTimer_chain hs _ _ _ hu)).trans
            (hs _ _ _ h rfl)
        · cases h
    · cases h; exact chain_refl ui

theorem transportSend_chain (ui : Ui) (b : Bool) (u : Ui)
    (h : transportSend ui = Except.ok (b, u)) : Chain ui u := by
  unfold transportSend at h
  split at h
  · cases h
  · cases h; exact chain_one Prim.serverSend ui

theorem transportBatch_chain (ui : Ui) (b : Bool) (u : Ui)
    (h : transportBatch ui = Except.ok (b, u)) : Chain ui u := by
  unfold transportBatch at h
  split at h
  · cases h
  · cases h; exact chain_refl ui

theorem attempt_chain {self : Cmd → Ui → Res} (hs : SelfChain self) (r : Request) (ui : Ui)
    (b : Bool) (u : Ui) (h : attempt self r ui = Except.ok (b, u)) : Chain ui u := by
  cases r with
  | closeRequest => exact transportSend_chain ui b u h
  | exitRequest =>
    simp only [attempt] at h
    split at h
    · next v hv => cases h; exact transportSend_chain ui _ _ hv
    · next v hv => cases h; exact chain_prim Prim.serverClose (transportSend_chain ui _ _ hv)
    · cases h
  | sendData len =>
    simp only [attempt] at h
    split at h
    · next ok v hv =>
      split at h
      · cases h
        exact chain_prim (Prim.send "" "nil" (Value.str "") false) (transportSend_chain ui _ _ hv)
      · cases h; exact transportSend_chain ui _ _ hv
    · cases h
  | beginBatch => exact transportBatch_chain ui b u h
  | endBatch => exact transportBatch_chain ui b u h
  | sendParams ps => exact transportSend_chain ui b u h
  | sendValues ps v => exact transportSend_chain ui b u h
  | reload =>
    simp only [attempt] at h
    split at h
    · cases h
    · split at h
      · next v hv => cases h; exact sub_chain hs hv rfl
      · cases h
  | onOpen fptr =>
    simp only [attempt] at h
    split at h
    · next v hv => cases h; exact chain_prim Prim.release (sub_chain hs hv rfl)
    · cases h
  | extension q c ps => exact transportSend_chain ui b u h

theorem requestDrainBody_chain {self : Cmd → Ui → Res} (hs : SelfChain self) (ui : Ui)
    (r : Ui × Option Value) (h : requestDrainBody self ui = Except.ok r) : Chain ui r.1 := by
  unfold requestDrainBody at h
  split at h
  · cases h; exact chain_refl ui
  · split at h
    · split at h
      · cases h
      · split at h
        · split at h
          · next u hu =>
            exact ((chain_one Prim.popRequest ui).trans (attempt_chain hs _ _ _ _ hu)).trans
              (hs _ _ _ h rfl)
          · next u hu =>
            exact (chain_prim (Prim.pushBack _)
              ((chain_one Prim.popRequest ui).trans (attempt_chain hs _ _ _ _ hu))).trans
              (hs _ _ _ h rfl)
          · cases h
        · cases h; exact chain_refl ui
    · cases h; exact chain_refl ui

theorem eventDrainBody_chain {self : Cmd → Ui → Res} (hs : SelfChain self) (ui : Ui)
    (r : Ui × Option Value) (h : eventDrainBody self ui = Except.ok r) : Chain ui r.1 := by
  unfold eventDrainBody at h
  split at h
  · cases h; exact chain_refl ui
  · split at h
    · split at h
      · split at h
        · next u hu =>
          exact ((chain_one Prim.takeEvent ui).trans (sub_chain hs hu rfl)).trans (hs _ _ _ h rfl)
        · cases h
      · exact (chain_one Prim.takeEvent ui).trans (hs _ _ _ h rfl)
    · cases h; exact chain_refl ui

theorem reloadStep_chain (ui : Ui) :
    Chain ui (if ui.m_status = State.RELOAD then ui.reloadStep else ui) := by
  split
  · exact chain_one Prim.reloadStep ui
  · exact chain_refl ui

theorem eventLoopBody_chain {self : Cmd → Ui → Res} (hs : SelfChain self) (ui : Ui)
    (r : Ui × Option Value) (h : eventLoopBody self ui = Except.ok r) : Chain ui r.1 := by
  unfold eventLoopBody at h
  split at h
  · cases h; exact chain_refl ui
  · split at h
    · cases h; exact chain_refl ui
    · split at h
      · cases h
      · next u0 hu0 =>
        have c0 : Chain ui u0 := poll_chain hs ui u0 hu0
        split at h
        · cases h
        · next u1 hu1 =>
          have c1 : Chain ui u1 := by
            split at hu1
            · exact c0.trans (sub_chain hs hu1 rfl)
            · cases hu1; exact c0
          split at h
          · cases h; exact c1
          · split at h
            · split at h
              · cases h
              · split at h
                · exact (chain_prim Prim.serverRetry c1).trans (hs _ _ _ h rfl)
                · cases h; exact chain_prim Prim.setExit (chain_prim Prim.serverRetry c1)
            · split at h
              · split at h
                · cases h
                · split at h
                  · exact (chain_prim Prim.serverClose c1).trans (hs _ _ _ h rfl)
                  · exact c1.trans (hs _ _ _ h rfl)
              · split at h
                · cases h
                · next u2 hu2 =>
                  have c2 : Chain ui u2 :=
                    (c1.trans (reloadStep_chain u1)).trans (sub_chain hs hu2 rfl)
                  split at h
                  · exact c2.trans (hs _ _ _ h rfl)
                  · split at h
                    · cases h
                    · next u3 hu3 =>
                      have c3 : Chain ui u3 := by
                        split at hu3
                        · cases hu3; exact c2
                        · split at hu3
                          · split at hu3
                            · cases hu3
                            · split at hu3
                              · cases hu3; exact chain_prim (Prim.openStep _) c2
                              · cases hu3; exact c2
                          · cases hu3; exact c2
                      split at h
                      · cases h
                      · next u4 hu4 =>
                        have c4 : Chain ui u4 := c3.trans (sub_chain hs hu4 rfl)
                        split at h
                        · cases h; exact c4
                        · split at h
                          · cases h
                          · next u5 hu5 =>
                            exact (c4.trans (sub_chain hs hu5 rfl)).trans (hs _ _ _ h rfl)

theorem exitBody_chain {self : Cmd → Ui → Res} (hs : SelfChain self) (ui : Ui)
    (r : Ui × Option Value) (h : exitBody self ui = Except.ok r) : Chain ui r.1 := by
  unfold exitBody at h
  split at h
  · split at h
    · cases h; exact chain_one Prim.setExit ui
    · split at h
      · cases h; exact chain_one Prim.setExit ui
      · split at h
        · cases h; exact chain_prim Prim.setExit (chain_one Prim.serverClose ui)
        · split at h
          · next u hu =>
            cases h
            exact chain_prim Prim.signal
              ((chain_prim (Prim.flushTimers true)
                (chain_one (Prim.addRequest Request.exitRequest) ui)).trans (sub_chain hs hu rfl))
          · cases h
  · cases h; exact chain_prim Prim.signal (chain_one Prim.setExit ui)
  · cases h; exact chain_one Prim.signal ui

theorem extensionWaitBody_chain {self : Cmd → Ui → Res} (hs : SelfChain self) (q : String)
    (ui : Ui) (r : Ui × Option Value) (h : extensionWaitBody self q ui = Except.ok r) :
    Chain ui r.1 := by
  unfold extensionWaitBody at h
  split at h
  · cases h
  · next u hu =>
    have c : Chain ui u := sub_chain hs hu rfl
    split at h
    · cases h; exact chain_prim Prim.signal c
    · split at h
      · cases h; exact chain_prim (Prim.takeResponse q) c
      · exact c.trans (hs _ _ _ h rfl)

theorem extensionGetBody_chain {self : Cmd → Ui → Res} (hs : SelfChain self) (callId : String)
    (ps : Object) (ui : Ui) (r : Ui × Option Value)
    (h : extensionGetBody self callId ps ui = Except.ok r) : Chain ui r.1 := by
  unfold extensionGetBody at h
  split at h
  · cases h; exact chain_refl ui
  · split at h
    · cases h
    · exact (chain_prim (Prim.addRequest _) (chain_one Prim.serverQueryId ui)).trans
        (hs _ _ _ h rfl)

/-- Every run of a procedure other than `Ui::run` is a sequence of primitive steps. -/
theorem exec_chain (prog : CallbackId → List Action) (n : Nat) :
    ∀ (c : Cmd) (ui : Ui) (r : Ui × Option Value),
      exec prog n c ui = Except.ok r → c.inner = true → Chain ui r.1 := by
  induction n with
  | zero => intro c ui r h; cases h
  | succ n ih =>
    intro c ui r h hc
    have hs : SelfChain (exec prog n) := ih
    cases c with
    | eventLoop => exact eventLoopBody_chain hs ui r h
    | wait => exact waitBody_chain hs ui r h
    | timerDrain => exact timerDrainBody_chain hs ui r h
    | requestDrain => exact requestDrainBody_chain hs ui r h
    | eventDrain => exact eventDrainBody_chain hs ui r h
    | exit => exact exitBody_chain hs ui r h
    | extensionGet callId ps => exact extensionGetBody_chain hs callId ps ui r h
    | extensionWait q => exact extensionWaitBody_chain hs q ui r h
    | call cb => exact callBody_chain prog hs cb ui r h
    | run srv => cases hc

/-- Induction over the primitive steps of a run: a relation between sessions
that is reflexive, transitive and holds across every primitive step holds
between the start and the end of every run. -/
theorem exec_rel (R : Ui → Ui → Prop) (hrefl : ∀ a, R a a)
    (htrans : ∀ a b c, R a b → R b c → R a c) (hprim : ∀ (p : Prim) (a : Ui), R a (p.apply a))
    (prog : CallbackId → List Action) (n : Nat) (c : Cmd) (ui : Ui) (r : Ui × Option Value)
    (h : exec prog n c ui = Except.ok r) (hc : c.inner = true) : R ui r.1 := by
  have hch : ∀ b, Chain ui b → R ui b := by
    intro b hb
    induction hb with
    | refl => exact hrefl ui
    | tail _ hstep ih =>
      obtain ⟨p, rfl⟩ := hstep
      exact htrans _ _ _ ih (hprim p _)
  exact hch r.1 (exec_chain prog n c ui r h hc)

/-! ### The outbound queue is first-in-first-out -/

theorem queueTimer_foldl (l : List Timer) : ∀ (u : Ui),
    l.foldl (fun u t => u.queueTimer t.id) u =
      { u with m_timerqueue := u.m_timerqueue ++ l.map (fun t => some t.id),
               m_sema := { count := u.m_sema.count + l.length } } := by
  induction l with
  | nil => intro u; simp
  | cons t l ih =>
    intro u
    rw [List.foldl_cons, ih]
    have : u.m_sema.count + 1 + l.length = u.m_sema.count + (l.length + 1) := by omega
    simp [Ui.queueTimer, Semaphore.signal, this]

theorem flushTimers_eq (ui : Ui) (runAll : Bool) :
    ui.flushTimers runAll =
      { ui with m_timers := ui.m_timers.markFired runAll,
                m_timerqueue := ui.m_timerqueue ++
                  (ui.m_timers.dueTimers runAll).map (fun t => some t.id),
                m_sema := { count := ui.m_sema.count + (ui.m_timers.dueTimers runAll).length } } := by
  simp [Ui.flushTimers, queueTimer_foldl]

theorem prim_queue (p : Prim) (a : Ui) (hp : p ≠ Prim.popRequest) :
    ∃ new, (p.apply a).m_requestqueue = a.m_requestqueue ++ new := by
  have h : a.m_requestqueue <+: (p.apply a).m_requestqueue := by
    cases p <;> simp only [Prim.apply]
    all_goals first
      | contradiction
      | (simp only [Ui.openHandler, Ui.closeHandler, Ui.pendingClose, Ui.setTransport, Ui.elapse,
            flushTimers_eq, Ui.dropBatch, Ui.waitDone, Ui.pushEvent, Ui.pushResponse,
            Ui.signal, Ui.note, Ui.enter, Ui.after, Ui.startPeriodic, Ui.cancelTimer, Ui.onOpen,
            Ui.onReload, Ui.pendingCheck, Ui.serverSend, Ui.serverClose, Ui.serverRetry,
            Ui.serverQueryId, Ui.holdTimers, Ui.setExit, Ui.setStatus, Ui.takeResponse,
            Ui.close, Ui.send, Ui.beginBatch, Ui.endBatch, Ui.extensionCall, Ui.addRequest,
            Ui.popTimer, Ui.fireTimer, Ui.pushBack, Ui.takeEvent, Ui.reloadStep, Ui.openStep]
         repeat' split
         all_goals simp)
  obtain ⟨new, hn⟩ := h
  exact ⟨new, hn.symm⟩

theorem prim_attempts (p : Prim) (a : Ui) (hp : p ≠ Prim.popRequest) :
    attempts (p.apply a).log = attempts a.log := by
  cases p <;> simp only [Prim.apply]
  all_goals first
    | contradiction
    | (simp only [Ui.openHandler, Ui.closeHandler, Ui.pendingClose, Ui.setTransport, Ui.elapse,
          flushTimers_eq, Ui.dropBatch, Ui.waitDone, Ui.pushEvent, Ui.pushResponse,
          Ui.signal, Ui.note, Ui.enter, Ui.after, Ui.startPeriodic, Ui.cancelTimer, Ui.onOpen,
          Ui.onReload, Ui.pendingCheck, Ui.serverSend, Ui.serverClose, Ui.serverRetry,
          Ui.serverQueryId, Ui.holdTimers, Ui.setExit, Ui.setStatus, Ui.takeResponse,
          Ui.close, Ui.send, Ui.beginBatch, Ui.endBatch, Ui.extensionCall, Ui.addRequest,
          Ui.popTimer, Ui.fireTimer, Ui.pushBack, Ui.takeEvent, Ui.reloadStep, Ui.openStep]
       repeat' split
       all_goals simp [attempts])

theorem requestFifo_refl (a : Ui) : RequestFifo a a := ⟨[], [], by simp, by simp⟩

theorem requestFifo_trans (a b c : Ui) (h1 : RequestFifo a b) (h2 : RequestFifo b c) :
    RequestFifo a c := by
  obtain ⟨A1, n1, hl1, hq1⟩ := h1
  obtain ⟨A2, n2, hl2, hq2⟩ := h2
  refine ⟨A1 ++ A2, n1 ++ n2, by rw [hl2, hl1, List.append_assoc], ?_⟩
  rw [List.append_assoc, hq2, ← List.append_assoc, hq1, List.append_assoc]

theorem requestFifo_prim (p : Prim) (a : Ui) : RequestFifo a (p.apply a) := by
  by_cases hp : p = Prim.popRequest
  · subst hp
    cases hq : a.m_requestqueue with
    | nil => exact ⟨[], [], by simp [Prim.apply, Ui.popRequest, hq], by simp [Prim.apply, Ui.popRequest, hq]⟩
    | cons r rest =>
      exact ⟨[r], [], by simp [Prim.apply, Ui.popRequest, hq, attempts],
        by simp [Prim.apply, Ui.popRequest, hq]⟩
  · obtain ⟨new, hn⟩ := prim_queue p a hp
    exact ⟨[], new, by simp [prim_attempts p a hp], by simp [hn]⟩

theorem chain_requestFifo {a b : Ui} (h : Chain a b) : RequestFifo a b := by
  induction h with
  | refl => exact requestFifo_refl a
  | tail _ hstep ih =>
    obtain ⟨p, rfl⟩ := hstep
    exact requestFifo_trans _ _ _ ih (requestFifo_prim p _)

/-! ### C1: rotate past failure -/

theorem transportSend_frame (ui u : Ui) (b : Bool) (h : transportSend ui = Except.ok (b, u)) :
    u.m_requestqueue = ui.m_requestqueue ∧ u.log = ui.log := by
  unfold transportSend at h
  split at h
  · cases h
  · cases h; exact ⟨rfl, rfl⟩

theorem attempt_false_frame (self : Cmd → Ui → Res) (r : Request) (ui u : Ui)
    (h : attempt self r ui = Except.ok (false, u)) :
    u.m_requestqueue = ui.m_requestqueue ∧ u.log = ui.log := by
  cases r with
  | closeRequest => exact transportSend_frame ui u false h
  | exitRequest =>
    simp only [attempt] at h
    split at h
    · cases h
    · next v hv => cases h; exact transportSend_frame ui v false hv
    · cases h
  | sendData len =>
    simp only [attempt] at h
    split at h
    · next ok v hv =>
      split at h
      · next hc => cases h; simp at hc
      · cases h; exact transportSend_frame ui _ _ hv
    · cases h
  | beginBatch =>
    simp only [attempt, transportBatch] at h
    split at h <;> cases h
  | endBatch =>
    simp only [attempt, transportBatch] at h
    split at h <;> cases h
  | sendParams ps => exact transportSend_frame ui u false h
  | sendValues ps v => exact transportSend_frame ui u false h
  | reload =>
    simp only [attempt] at h
    split at h
    · cases h
    · split at h <;> cases h
  | onOpen fptr =>
    simp only [attempt] at h
    split at h <;> cases h
  | extension q c ps => exact transportSend_frame ui u false h

theorem requestDrain_step (prog : CallbackId → List Action) (n : Nat) (ui u : Ui)
    (r : Request) (rest : List Request) (s : Server) (ok : Bool)
    (hq : ui.m_requestqueue = r :: rest) (hst : ui.m_status = State.RUNNING)
    (hsrv : ui.m_server = some s) (hconn : s.connected = true)
    (hatt : attempt (exec prog n) r ui.popRequest = Except.ok (ok, u)) :
    exec prog (n + 1) Cmd.requestDrain ui =
      exec prog n Cmd.requestDrain (if ok then u else u.pushBack r) := by
  cases ok <;> simp [exec, body, requestDrainBody, hq, hst, hsrv, hconn, hatt]

theorem exec_selfChain (prog : CallbackId → List Action) (n : Nat) : SelfChain (exec prog n) :=
  fun c u r h hc => exec_chain prog n c u r h hc

/-- C1: in the outbound-request drain of `Ui::eventLoop`, when the head request
`r` of the queue `r :: rest` is attempted and fails, it is put back at the tail
(the queue becomes `rest ++ [r]`) and the drain goes on from there; in whatever
runs afterwards the requests are attempted in queue order, so either only
requests of `rest` have been attempted again so far, or all of `rest` and then
`r`.  When the attempt succeeds the drain goes on without putting `r` back. -/
theorem C1_rotate_past_failure (prog : CallbackId → List Action) (n : Nat) (ui u : Ui)
    (r : Request) (rest : List Request) (s : Server) (ok : Bool)
    (hq : ui.m_requestqueue = r :: rest) (hst : ui.m_status = State.RUNNING)
    (hsrv : ui.m_server = some s) (hconn : s.connected = true)
    (hatt : attempt (exec prog n) r ui.popRequest = Except.ok (ok, u)) :
    (ok = false →
        (u.pushBack r).m_requestqueue = rest ++ [r] ∧
        exec prog (n + 1) Cmd.requestDrain ui = exec prog n Cmd.requestDrain (u.pushBack r) ∧
        ∀ (m : Nat) (c : Cmd) (res : Ui × Option Value), c.inner = true →
          exec prog m c (u.pushBack r) = Except.ok res →
          ∃ A new, attempts res.1.log = attempts ui.log ++ [r] ++ A ∧
            A ++ res.1.m_requestqueue = rest ++ [r] ++ new ∧
            (A <+: rest ∨ rest ++ [r] <+: A)) ∧
    (ok = true →
        exec prog (n + 1) Cmd.requestDrain ui = exec prog n Cmd.requestDrain u ∧
        ∃ A new, attempts u.log = attempts ui.log ++ [r] ++ A ∧
          A ++ u.m_requestqueue = rest ++ new) := by
  have hpopq : ui.popRequest.m_requestqueue = rest := by simp [Ui.popRequest, hq]
  have hpopl : attempts ui.popRequest.log = attempts ui.log ++ [r] := by
    simp [Ui.popRequest, hq, attempts]
  constructor
  · intro hok
    subst hok
    obtain ⟨hfq, hfl⟩ := attempt_false_frame _ r _ u hatt
    have hq2 : (u.pushBack r).m_requestqueue = rest ++ [r] := by
      simp [Ui.pushBack, hfq, hpopq]
    have hl2 : attempts (u.pushBack r).log = attempts ui.log ++ [r] := by
      simp only [Ui.pushBack, hfl, hpopl]
    refine ⟨hq2, ?_, ?_⟩
    · simpa using requestDrain_step prog n ui u r rest s false hq hst hsrv hconn hatt
    · intro m c res hc hres
      obtain ⟨A, new, hA, hQ⟩ := chain_requestFifo (exec_chain prog m c _ res hres hc)
      rw [hl2] at hA
      rw [hq2] at hQ
      refine ⟨A, new, hA, hQ, ?_⟩
      have h1 : A <+: rest ++ [r] ++ new := ⟨_, hQ⟩
      have h2 : rest ++ [r] <+: rest ++ [r] ++ new := List.prefix_append _ _
      rcases List.prefix_or_prefix_of_prefix h1 h2 with h3 | h3
      · rcases List.prefix_concat_iff.mp h3 with h4 | h4
        · right; rw [h4]
        · left; exact h4
      · right; exact h3
  · intro hok
    subst hok
    refine ⟨?_, ?_⟩
    · simpa using requestDrain_step prog n ui u r rest s true hq hst hsrv hconn hatt
    · obtain ⟨A, new, hA, hQ⟩ :=
        chain_requestFifo (attempt_chain (exec_selfChain prog n) r _ true u hatt)
      rw [hpopl] at hA
      rw [hpopq] at hQ
      exact ⟨A, new, hA, hQ⟩

/-- C1 on a session with two queued requests whose first send fails: the failed
request moves behind the other one. -/
theorem C1_rotate_past_failure_witness :
    c1Session.m_requestqueue = [c1First, c1Second] ∧
    (c1Session.popRequest.serverSend.pushBack c1First).m_requestqueue = [c1Second, c1First] ∧
    exec noProg 4 Cmd.requestDrain c1Session =
      exec noProg 3 Cmd.requestDrain (c1Session.popRequest.serverSend.pushBack c1First) :=
  ⟨rfl,
   ((C1_rotate_past_failure noProg 3 c1Session c1Session.popRequest.serverSend c1First
      [c1Second] c1Server false rfl rfl rfl rfl rfl).1 rfl).1,
   ((C1_rotate_past_failure noProg 3 c1Session c1Session.popRequest.serverSend c1First
      [c1Second] c1Server false rfl rfl rfl rfl rfl).1 rfl).2.1⟩

/-! ### C2 and C3: `Ui::exit` -/

/-- C3, counterexample: `exit()` on a session in state `EXIT` changes the
wake-up signal count. -/
theorem C3_exit_signals_counterexample :
    c3Session.m_status = State.EXIT ∧
    exec noProg 1 Cmd.exit c3Session = Except.ok (c3Session.signal, none) ∧
    c3Session.m_sema.count = 0 ∧ c3Session.signal.m_sema.count = 1 :=
  ⟨rfl, rfl, rfl, rfl⟩

/-- C3, amended: in state `EXIT`, `exit()` changes nothing but the wake-up
signal count, which grows by one: the state stays `EXIT`, no request is
enqueued, no timer is flushed, the transport is not closed.  Calling it twice
leaves the same session as calling it once, except that the count has grown
by two. -/
theorem C3_exit_in_exit (prog : CallbackId → List Action) (n m : Nat) (ui : Ui)
    (hst : ui.m_status = State.EXIT) :
    exec prog (n + 1) Cmd.exit ui =
      Except.ok ({ ui with m_sema := { count := ui.m_sema.count + 1 } }, none) ∧
    exec prog (m + 1) Cmd.exit { ui with m_sema := { count := ui.m_sema.count + 1 } } =
      Except.ok ({ ui with m_sema := { count := ui.m_sema.count + 2 } }, none) := by
  constructor
  · simp [exec, body, exitBody, hst, done, Ui.signal, Semaphore.signal]
  · simp [exec, body, exitBody, hst, done, Ui.signal, Semaphore.signal]

/-- C3 on a session that has exited. -/
theorem C3_exit_in_exit_witness :
    c3Session.m_status = State.EXIT ∧
    exec noProg 1 Cmd.exit c3Session =
      Except.ok ({ c3Session with m_sema := { count := c3Session.m_sema.count + 1 } }, none) :=
  ⟨rfl, (C3_exit_in_exit noProg 0 0 c3Session rfl).1⟩

/-! ### C4: `Ui::extensionGet` -/

theorem find_erase_self {β : Type} (k : String) (m : List (String × β)) :
    find k (erase k m) = none := by
  induction m with
  | nil => rfl
  | cons p m ih =>
    obtain ⟨a, b⟩ := p
    by_cases h : a = k
    · simp [erase, h, ih]
    · simp [erase, find, h, ih]

theorem extensionWait_exact (prog : CallbackId → List Action) (q : String) :
    ∀ (n : Nat) (ui : Ui) (r : Ui × Option Value),
      exec prog n (Cmd.extensionWait q) ui = Except.ok r ↔
      ∃ um, lastPass prog q n ui = Except.ok um ∧
        ((um.m_status ≠ State.RUNNING ∧ r = (um.signal, none)) ∨
         (um.m_status = State.RUNNING ∧
            ∃ v, find q um.m_responsemap = some v ∧ r = (um.takeResponse q, some v))) := by
  intro n
  induction n with
  | zero =>
    intro ui r
    constructor
    · intro h; cases h
    · rintro ⟨um, h, _⟩; cases h
  | succ n ih =>
    intro ui r
    simp only [exec, body, extensionWaitBody, lastPass, sub, done]
    cases hloop : exec prog n Cmd.eventLoop ui with
    | error f =>
      constructor
      · intro h; cases h
      · rintro ⟨um, h, _⟩; cases h
    | ok r0 =>
      simp only []
      by_cases hs : r0.1.m_status = State.RUNNING
      · cases hf : find q r0.1.m_responsemap with
        | none =>
          simp only [hs, hf, ne_eq, not_true_eq_false, if_false, Option.isNone_none, and_self,
            if_true]
          exact ih r0.1 r
        | some item =>
          simp only [hs, hf, ne_eq, not_true_eq_false, if_false, Option.isNone_some,
            Bool.false_eq_true, and_false]
          constructor
          · intro h
            cases h
            exact ⟨r0.1, rfl, Or.inr ⟨hs, item, hf, rfl⟩⟩
          · rintro ⟨um, h, hcase⟩
            cases h
            rcases hcase with ⟨h1, _⟩ | ⟨_, v, hv, hr⟩
            · exact absurd hs h1
            · rw [hf] at hv
              cases hv
              rw [hr]
      · simp only [hs, ne_eq, not_false_eq_true, if_true, false_and, if_false]
        constructor
        · intro h
          cases h
          exact ⟨r0.1, rfl, Or.inl ⟨hs, rfl⟩⟩
        · rintro ⟨um, h, hcase⟩
          cases h
          rcases hcase with ⟨_, hr⟩ | ⟨h1, _⟩
          · rw [hr]
          · exact absurd h1 hs

/-- C4: `Ui::extensionGet`.  (1) When the state is not `RUNNING` at the call it
returns no value at once and leaves the session as it was: nothing is
enqueued.  (2) When the state is `RUNNING` at the call, the query id `i` is
taken from the transport, the request is queued, and the event loop is
entered from that session, pass after pass.  Let `um` be the session in which
the last of these passes ended.  The call returns exactly then, and what it
returns is fixed by `um`: when `um` is in state `RUNNING`, the value that the
pending-response table of `um` holds under `i`, with the session `um` from
which that entry is taken; when `um` is not in state `RUNNING`, no value, with
the session `um` signalled once.  (3) After the take the table holds nothing
under `i`. -/
theorem C4_extensionGet (prog : CallbackId → List Action) (callId : String) (ps : Object)
    (ui : Ui) :
    (ui.m_status ≠ State.RUNNING →
      ∀ n, exec prog (n + 1) (Cmd.extensionGet callId ps) ui = Except.ok (ui, none)) ∧
    (∀ (n : Nat) (s : Server) (r : Ui × Option Value),
      ui.m_status = State.RUNNING → ui.m_server = some s →
      (exec prog (n + 1) (Cmd.extensionGet callId ps) ui = Except.ok r ↔
        ∃ um,
          lastPass prog (toString s.queryId.1) n
            (ui.serverQueryId.addRequest
              (Request.extension (toString s.queryId.1) callId ps)) = Except.ok um ∧
          ((um.m_status ≠ State.RUNNING ∧ r = (um.signal, none)) ∨
           (um.m_status = State.RUNNING ∧
              ∃ v, find (toString s.queryId.1) um.m_responsemap = some v ∧
                r = (um.takeResponse (toString s.queryId.1), some v))))) ∧
    (∀ (um : Ui) (i : String), find i (um.takeResponse i).m_responsemap = none) := by
  refine ⟨?_, ?_, ?_⟩
  · intro hs n
    simp [exec, body, extensionGetBody, hs, done]
  · intro n s r hst hsrv
    have h : exec prog (n + 1) (Cmd.extensionGet callId ps) ui =
        exec prog n (Cmd.extensionWait (toString s.queryId.1))
          (ui.serverQueryId.addRequest (Request.extension (toString s.queryId.1) callId ps)) := by
      simp [exec, body, extensionGetBody, hst, hsrv]
    rw [h]
    exact extensionWait_exact prog _ n _ r
  · intro um i
    exact find_erase_self _ _

/-- C4 on a session whose front-end answers query `0` with `42`: the last pass
of the loop ends in the session `c4Last`, whose table holds `42` under `0`,
and the query returns `42` with that entry taken. -/
theorem C4_extensionGet_witness :
    lastPass noProg (toString liveServer.queryId.1) 9
        (c4Session.serverQueryId.addRequest
          (Request.extension (toString liveServer.queryId.1) "call" [])) = Except.ok c4Last ∧
    c4Last.m_responsemap = [("0", Value.str "42")] ∧
    exec noProg 10 (Cmd.extensionGet "call" []) c4Session =
      Except.ok (c4Last.takeResponse (toString liveServer.queryId.1), some (Value.str "42")) ∧
    (c4Last.takeResponse (toString liveServer.queryId.1)).m_responsemap = [] :=
  ⟨rfl, rfl,
   ((C4_extensionGet noProg "call" [] c4Session).2.1 9 liveServer
      (c4Last.takeResponse (toString liveServer.queryId.1), some (Value.str "42")) rfl rfl).mpr
     ⟨c4Last, rfl, Or.inr ⟨rfl, Value.str "42", rfl, rfl⟩⟩,
   rfl⟩

/-! ### C5: fulfilments without a waiting query; C6: the resource map -/

theorem find_cons_eq {β : Type} (k : String) (b : β) (m : List (String × β)) :
    find k ((k, b) :: m) = some b := by
  simp [find]

theorem find_cons_ne {β : Type} (k a : String) (b : β) (m : List (String × β)) (h : ¬ a = k) :
    find k ((a, b) :: m) = find k m := by
  simp [find, h]

theorem find_append_singleton {β : Type} (k : String) (v : β) (m : List (String × β))
    (hn : find k m = none) : find k (m ++ [(k, v)]) = some v := by
  induction m with
  | nil => exact find_cons_eq k v []
  | cons p m ih =>
    obtain ⟨a, b⟩ := p
    by_cases h : a = k
    · subst h; rw [find_cons_eq] at hn; cases hn
    · rw [find_cons_ne k a b m h] at hn
      rw [List.cons_append, find_cons_ne k a b _ h]
      exact ih hn

theorem find_map_assign {β : Type} (k : String) (v w : β) (m : List (String × β))
    (hw : find k m = some w) :
    find k (m.map (fun p => if p.1 = k then (k, v) else p)) = some v := by
  induction m with
  | nil => cases hw
  | cons p m ih =>
    obtain ⟨a, b⟩ := p
    by_cases h : a = k
    · subst h
      rw [List.map_cons, if_pos rfl]
      exact find_cons_eq a v _
    · rw [find_cons_ne k a b m h] at hw
      rw [List.map_cons, if_neg h, find_cons_ne k a b _ h]
      exact ih hw

theorem find_insert_or_assign_self {β : Type} (k : String) (v : β) (m : List (String × β)) :
    find k (insert_or_assign k v m) = some v := by
  unfold insert_or_assign
  split
  · next w hw => exact find_map_assign k v w m hw
  · next hn => exact find_append_singleton k v m hn

/-- C5, counterexample: a fulfilment for id `7` that reaches a session in which
no query is waiting is kept: afterwards the pending-response table holds it. -/
theorem C5_late_fulfilment_counterexample :
    c5Session.m_responsemap = [] ∧
    c5Session.messageHandler noError c5Late =
      Except.ok (c5Session.pushResponse "7" (Value.str "late")).signal ∧
    find "7" (c5Session.pushResponse "7" (Value.str "late")).signal.m_responsemap =
      some (Value.str "late") :=
  ⟨rfl, rfl, rfl⟩

/-- C5, amended: a well-formed fulfilment (inbound message of type `query` or
`extension_response`) is stored in the pending-response table under its
correlation id whatever the session is doing: the handler does not look for a
waiting query, and after it has processed the message the table holds the
delivered value under that id. -/
theorem C5_fulfilment_is_stored (onError : CallbackId → Ui → Except Fault Ui) (ui : Ui)
    (params : Object) (id key : String) (v : Value) (hv : find key params = some v) :
    ((find "type" params = some (Value.str "query") ∧
        find "query_value" params = some (Value.str key) ∧
        find "query_id" params = some (Value.str id)) ∨
      (find "type" params = some (Value.str "extension_response") ∧
        find "extension_call" params = some (Value.str key) ∧
        find "extension_id" params = some (Value.str id))) →
    ui.messageHandler onError params = Except.ok (ui.pushResponse id v).signal ∧
    find id (ui.pushResponse id v).signal.m_responsemap = some v := by
  intro h
  refine ⟨?_, find_insert_or_assign_self id v _⟩
  rcases h with ⟨ht, hk, hi⟩ | ⟨ht, hk, hi⟩
  · simp [Ui.messageHandler, ht, anyCastString, Ui.onQueryMessage, at_, hk, hi, hv,
      Except.bind, Ui.signal]
  · simp [Ui.messageHandler, ht, anyCastString, Ui.onExtensionResponse, at_, hk, hi, hv,
      Except.bind, Ui.signal]

/-- C5 on a late answer to query `7`. -/
theorem C5_fulfilment_is_stored_witness :
    find "value" c5Late = some (Value.str "late") ∧
    c5Session.messageHandler noError c5Late =
      Except.ok (c5Session.pushResponse "7" (Value.str "late")).signal :=
  ⟨rfl, (C5_fulfilment_is_stored noError c5Session c5Late "7" "value" (Value.str "late") rfl
    (Or.inl ⟨rfl, rfl, rfl⟩)).1⟩

/-- C6: round trip of the resource map.  When `url` is not yet a key, `file`
exists with content `b`, and decoding the encoding of `b` gives `b` back,
`Ui::addFile(url, file)` returns true and `Ui::resource(url)` then returns
exactly `b`; `Ui::resource` of a url that is not a key returns no value. -/
theorem C6_resource_round_trip (codec : Base64) (fs : FileSystem) (ui : Ui) (url file : String)
    (b : List UInt8) (hfile : fs file = some b) (hnew : find url ui.m_filemap = none)
    (hcodec : codec.decode (codec.encode b) = b) :
    (ui.addFile codec fs url file).1 = true ∧
    (ui.addFile codec fs url file).2.resource codec url = some b ∧
    (((ui.addFile codec fs url file).2.resource codec url).map List.length = some b.length) ∧
    (∀ other, find other ui.m_filemap = none → ui.resource codec other = none) := by
  have hadd : ui.addFile codec fs url file =
      (true, { ui with m_filemap := insert_or_assign url (codec.encode b) ui.m_filemap }) := by
    simp [Ui.addFile, hfile, hnew]
  have hres : (ui.addFile codec fs url file).2.resource codec url = some b := by
    rw [hadd]
    simp [Ui.resource, find_insert_or_assign_self, hcodec]
  refine ⟨by rw [hadd], hres, by rw [hres]; rfl, ?_⟩
  intro other hother
  simp [Ui.resource, hother]

/-- C6 on a file of two bytes. -/
theorem C6_resource_round_trip_witness :
    c6Files "/tmp/test_data" = some [104, 105] ∧
    (c3Session.addFile plainCodec c6Files "test_data" "/tmp/test_data").1 = true ∧
    (c3Session.addFile plainCodec c6Files "test_data" "/tmp/test_data").2.resource plainCodec
      "test_data" = some [104, 105] :=
  ⟨rfl,
   (C6_resource_round_trip plainCodec c6Files c3Session "test_data" "/tmp/test_data" [104, 105]
      rfl rfl (by decide)).1,
   (C6_resource_round_trip plainCodec c6Files c3Session "test_data" "/tmp/test_data" [104, 105]
      rfl rfl (by decide)).2.1⟩

/-! ### C7: a cancelled timer never fires -/

theorem gone_append (id : Nat) (m : TimerMgr) (ms : Nat) (ss : Bool) (f : TimerFunc)
    (h : m.Gone id) : (m.append ms ss f).2.Gone id := by
  obtain ⟨h1, h2⟩ := h
  refine ⟨by simp [TimerMgr.append]; omega, ?_⟩
  intro t ht
  simp only [TimerMgr.append, List.mem_append, List.mem_singleton] at ht
  rcases ht with ht | ht
  · exact h2 t ht
  · rw [ht]; simp; omega

theorem gone_remove (id j : Nat) (m : TimerMgr) (h : m.Gone id) : (m.remove j).2.Gone id := by
  obtain ⟨h1, h2⟩ := h
  refine ⟨h1, ?_⟩
  intro t ht
  simp only [TimerMgr.remove, List.mem_filter] at ht
  exact h2 t ht.1

theorem gone_markFired (id : Nat) (m : TimerMgr) (b : Bool) (h : m.Gone id) :
    (m.markFired b).Gone id := by
  obtain ⟨h1, h2⟩ := h
  refine ⟨h1, ?_⟩
  intro t ht
  simp only [TimerMgr.markFired, List.mem_map] at ht
  obtain ⟨t0, ht0, rfl⟩ := ht
  have := h2 t0 ht0
  split
  · split <;> simpa using this
  · exact this

theorem gone_now (id : Nat) (m : TimerMgr) (now : Nat) (h : m.Gone id) :
    TimerMgr.Gone id { m with now := now } := h

theorem lookup_some (m : TimerMgr) (j : Nat) (t : Timer) (h : m.lookup j = some t) :
    t ∈ m.timers ∧ t.id = j := by
  unfold TimerMgr.lookup at h
  exact ⟨List.mem_of_find?_eq_some h, by simpa using List.find?_some h⟩

theorem prim_gone (id : Nat) (p : Prim) (a : Ui) (h : a.m_timers.Gone id) :
    (p.apply a).m_timers.Gone id := by
  cases p <;> simp only [Prim.apply]
  all_goals first
    | (simp only [Ui.openHandler, Ui.setTransport,
          Ui.dropBatch, Ui.waitDone, Ui.pushEvent, Ui.pushResponse,
          Ui.signal, Ui.note, Ui.enter, Ui.onOpen,
          Ui.onReload, Ui.pendingCheck, Ui.serverSend, Ui.serverClose, Ui.serverRetry,
          Ui.serverQueryId, Ui.holdTimers, Ui.setExit, Ui.setStatus, Ui.takeResponse,
          Ui.close, Ui.send, Ui.beginBatch, Ui.endBatch, Ui.extensionCall, Ui.addRequest,
          Ui.popTimer, Ui.popRequest, Ui.pushBack, Ui.takeEvent, Ui.reloadStep, Ui.openStep]
       repeat' split
       all_goals exact h)
    | skip
  case closeHandler st code =>
    simp only [Ui.closeHandler, Ui.pendingClose, Ui.after, flushTimers_eq]
    repeat' split
    all_goals first
      | exact h
      | exact gone_append id _ _ _ _ (gone_markFired id _ _ h)
  case elapse ms =>
    simp only [Ui.elapse, flushTimers_eq]
    exact gone_markFired id _ _ (gone_now id _ _ h)
  case after ms f => exact gone_append id _ _ _ _ h
  case startPeriodic ms f => exact gone_append id _ _ _ _ h
  case cancelTimer j => exact gone_remove id j _ h
  case fireTimer j =>
    split
    · simp only [Ui.fireTimer]
      split
      · exact gone_remove id _ _ h
      · exact h
    · exact h
  case flushTimers b =>
    simp only [flushTimers_eq]
    exact gone_markFired id _ _ h

theorem prim_timerCalls (id : Nat) (p : Prim) (a : Ui) (h : a.m_timers.Gone id) :
    timerCalls id (p.apply a).log = timerCalls id a.log := by
  cases p <;> simp only [Prim.apply]
  all_goals first
    | (simp only [Ui.openHandler, Ui.closeHandler, Ui.pendingClose, Ui.setTransport, Ui.elapse,
          flushTimers_eq, Ui.dropBatch, Ui.waitDone, Ui.pushEvent, Ui.pushResponse,
          Ui.signal, Ui.note, Ui.enter, Ui.after, Ui.startPeriodic, Ui.cancelTimer, Ui.onOpen,
          Ui.onReload, Ui.pendingCheck, Ui.serverSend, Ui.serverClose, Ui.serverRetry,
          Ui.serverQueryId, Ui.holdTimers, Ui.setExit, Ui.setStatus, Ui.takeResponse,
          Ui.close, Ui.send, Ui.beginBatch, Ui.endBatch, Ui.extensionCall, Ui.addRequest,
          Ui.popTimer, Ui.popRequest, Ui.pushBack, Ui.takeEvent, Ui.reloadStep, Ui.openStep]
       repeat' split
       all_goals simp [timerCalls])
    | skip
  case fireTimer j =>
    split
    · next t ht =>
      obtain ⟨hmem, hid⟩ := lookup_some _ _ _ ht
      have hne : t.id ≠ id := h.2 t hmem
      have hobs : (Obs.timer t.id == Obs.timer id) = false := by
        simpa using hne
      simp [Ui.fireTimer, timerCalls, List.count_append, List.count_cons, hobs]
    · rfl

theorem staysCancelled_refl (id : Nat) (a : Ui) : StaysCancelled id a a :=
  fun h => ⟨h, rfl⟩

theorem staysCancelled_trans (id : Nat) (a b c : Ui) (h1 : StaysCancelled id a b)
    (h2 : StaysCancelled id b c) : StaysCancelled id a c := by
  intro h
  obtain ⟨hb, hbl⟩ := h1 h
  obtain ⟨hc, hcl⟩ := h2 hb
  exact ⟨hc, hcl.trans hbl⟩

theorem staysCancelled_prim (id : Nat) (p : Prim) (a : Ui) : StaysCancelled id a (p.apply a) :=
  fun h => ⟨prim_gone id p a h, prim_timerCalls id p a h⟩

/-- Induction over the steps of a run, `Ui::run` included: a relation between
sessions that is reflexive, transitive, holds across every primitive step and
across the start and the teardown of `Ui::run` holds between the start and
the end of every run. -/
theorem exec_rel_all (R : Ui → Ui → Prop) (hrefl : ∀ a, R a a)
    (htrans : ∀ a b c, R a b → R b c → R a c) (hprim : ∀ (p : Prim) (a : Ui), R a (p.apply a))
    (hstart : ∀ (a : Ui) (srv : Server), R a ((a.startup srv).setStatus State.RUNNING))
    (hdown : ∀ a : Ui, R a a.clearRequests.serverClose.resetServer.clearTimers.clearTimerqueue)
    (prog : CallbackId → List Action) (n : Nat) (c : Cmd) (ui : Ui) (r : Ui × Option Value)
    (h : exec prog n c ui = Except.ok r) : R ui r.1 := by
  cases hc : c.inner with
  | true => exact exec_rel R hrefl htrans hprim prog n c ui r h hc
  | false =>
    cases c <;> try cases hc
    next srv =>
    cases n with
    | zero => cases h
    | succ n =>
      have hin : ∀ (c : Cmd) (u u' : Ui), sub (exec prog n) c u = Except.ok u' →
          c.inner = true → R u u' := by
        intro c u u' hu hc
        obtain ⟨r0, hr0, rfl⟩ := sub_ok hu
        exact exec_rel R hrefl htrans hprim prog n c u r0 hr0 hc
      simp only [exec, body, runBody] at h
      split at h
      · cases h
      · split at h
        · cases h
        · next u hu =>
          have h1 : R ui u := htrans _ _ _ (hstart ui srv) (hin _ _ _ hu rfl)
          split at h
          · cases h
          · next v hv =>
            have h2 : R u v := by
              split at hv
              · exact hin _ _ _ hv rfl
              · cases hv; exact hrefl u
            cases h
            exact htrans _ _ _ (htrans _ _ _ h1 h2)
              (htrans _ _ _ (hdown v) (hprim (Prim.flushTimers false) _))

/-- The timer handles never decrease. -/
theorem prim_nextId (p : Prim) (a : Ui) : a.m_timers.nextId ≤ (p.apply a).m_timers.nextId := by
  cases p <;> simp only [Prim.apply]
  all_goals
    (simp only [Ui.openHandler, Ui.closeHandler, Ui.pendingClose, Ui.setTransport, Ui.elapse,
          flushTimers_eq, Ui.dropBatch, Ui.waitDone, Ui.pushEvent, Ui.pushResponse,
          Ui.signal, Ui.note, Ui.enter, Ui.after, Ui.startPeriodic, Ui.cancelTimer, Ui.onOpen,
          Ui.onReload, Ui.pendingCheck, Ui.serverSend, Ui.serverClose, Ui.serverRetry,
          Ui.serverQueryId, Ui.holdTimers, Ui.setExit, Ui.setStatus, Ui.takeResponse,
          Ui.close, Ui.send, Ui.beginBatch, Ui.endBatch, Ui.extensionCall, Ui.addRequest,
          Ui.popTimer, Ui.popRequest, Ui.pushBack, Ui.takeEvent, Ui.reloadStep, Ui.openStep,
          Ui.fireTimer, TimerMgr.append, TimerMgr.remove, TimerMgr.markFired]
     repeat' split
     all_goals simp)

/-- C7: once `Ui::cancelTimer(id)` has been called for a handle `id` that the
timer manager has handed out, nothing that runs afterwards (procedures of the
session, `Ui::run` included, with the calls of the other threads) invokes the
function of timer `id`, whatever the due-timer queue holds at the time of the
cancel.  Handles returned by `Ui::after` and `Ui::startPeriodic` are handed out,
and stay so in every run. -/
theorem C7_cancelled_timer_never_runs (prog : CallbackId → List Action) (ui : Ui) (id : Nat)
    (hid : id < ui.m_timers.nextId) :
    (∀ (n : Nat) (c : Cmd) (r : Ui × Option Value),
      exec prog n c (ui.cancelTimer id).2 = Except.ok r →
      timerCalls id r.1.log = timerCalls id ui.log) ∧
    (∀ (u : Ui) (ms : Nat) (f : TimerFunc),
      (u.after ms f).1 < (u.after ms f).2.m_timers.nextId ∧
      (u.startPeriodic ms f).1 < (u.startPeriodic ms f).2.m_timers.nextId) ∧
    (∀ (n : Nat) (c : Cmd) (u : Ui) (r : Ui × Option Value),
      exec prog n c u = Except.ok r → u.m_timers.nextId ≤ r.1.m_timers.nextId) := by
  refine ⟨?_, ?_, ?_⟩
  · intro n c r h
    have hgone : (ui.cancelTimer id).2.m_timers.Gone id := by
      refine ⟨hid, ?_⟩
      intro t ht
      simp only [Ui.cancelTimer, TimerMgr.remove, List.mem_filter] at ht
      simpa using ht.2
    have hrel := exec_rel_all (StaysCancelled id) (staysCancelled_refl id)
      (staysCancelled_trans id) (staysCancelled_prim id)
      (fun a srv hg => ⟨hg, rfl⟩)
      (fun a hg => ⟨⟨hg.1, by simp [Ui.clearTimers, Ui.clearTimerqueue, Ui.resetServer,
        Ui.serverClose, Ui.clearRequests, TimerMgr.clear]⟩, rfl⟩)
      prog n c _ r h
    exact (hrel hgone).2
  · intro u ms f
    simp [Ui.after, Ui.startPeriodic, TimerMgr.append]
  · intro n c u r h
    exact exec_rel_all (fun a b => a.m_timers.nextId ≤ b.m_timers.nextId)
      (fun a => Nat.le_refl _) (fun a b c h1 h2 => Nat.le_trans h1 h2) prim_nextId
      (fun a srv => Nat.le_refl _) (fun a => Nat.le_refl _) prog n c u r h

/-- C7 on a session whose timer `0` is already in the due-timer queue: without
the cancel the drain invokes its function, after the cancel it only dequeues
the entry. -/
theorem C7_cancelled_timer_never_runs_witness :
    c7Session.m_timerqueue = [some 0] ∧
    logOf (exec c7Prog 5 Cmd.timerDrain c7Session) =
      [Obs.dequeue (some 0), Obs.timer 0, Obs.call 1, Obs.note 'x'] ∧
    exec c7Prog 5 Cmd.timerDrain (c7Session.cancelTimer 0).2 = Except.ok c7Result ∧
    c7Result.1.log = [Obs.dequeue (some 0)] ∧
    timerCalls 0 c7Result.1.log = timerCalls 0 c7Session.log :=
  ⟨rfl, rfl, rfl, rfl,
   (C7_cancelled_timer_never_runs c7Prog c7Session 0 (by decide)).1 5 Cmd.timerDrain c7Result rfl⟩

/-! ### C8: timers wait for on-open -/

theorem prim_timerqueue (p : Prim) (a : Ui) (hp : p ≠ Prim.popTimer) :
    ∃ new, (p.apply a).m_timerqueue = a.m_timerqueue ++ new := by
  have h : a.m_timerqueue <+: (p.apply a).m_timerqueue := by
    cases p <;> simp only [Prim.apply]
    all_goals first
      | contradiction
      | (simp only [Ui.openHandler, Ui.closeHandler, Ui.pendingClose, Ui.setTransport, Ui.elapse,
            flushTimers_eq, Ui.dropBatch, Ui.waitDone, Ui.pushEvent, Ui.pushResponse,
            Ui.signal, Ui.note, Ui.enter, Ui.after, Ui.startPeriodic, Ui.cancelTimer, Ui.onOpen,
            Ui.onReload, Ui.pendingCheck, Ui.serverSend, Ui.serverClose, Ui.serverRetry,
            Ui.serverQueryId, Ui.holdTimers, Ui.setExit, Ui.setStatus, Ui.takeResponse,
            Ui.close, Ui.send, Ui.beginBatch, Ui.endBatch, Ui.extensionCall, Ui.addRequest,
            Ui.popRequest, Ui.fireTimer, Ui.pushBack, Ui.takeEvent, Ui.reloadStep, Ui.openStep]
         repeat' split
         all_goals simp)
  obtain ⟨new, hn⟩ := h
  exact ⟨new, hn.symm⟩

theorem prim_dequeued (p : Prim) (a : Ui) (hp : p ≠ Prim.popTimer) :
    dequeued (p.apply a).log = dequeued a.log := by
  cases p <;> simp only [Prim.apply]
  all_goals first
    | contradiction
    | (simp only [Ui.openHandler, Ui.closeHandler, Ui.pendingClose, Ui.setTransport, Ui.elapse,
          flushTimers_eq, Ui.dropBatch, Ui.waitDone, Ui.pushEvent, Ui.pushResponse,
          Ui.signal, Ui.note, Ui.enter, Ui.after, Ui.startPeriodic, Ui.cancelTimer, Ui.onOpen,
          Ui.onReload, Ui.pendingCheck, Ui.serverSend, Ui.serverClose, Ui.serverRetry,
          Ui.serverQueryId, Ui.holdTimers, Ui.setExit, Ui.setStatus, Ui.takeResponse,
          Ui.close, Ui.send, Ui.beginBatch, Ui.endBatch, Ui.extensionCall, Ui.addRequest,
          Ui.popRequest, Ui.fireTimer, Ui.pushBack, Ui.takeEvent, Ui.reloadStep, Ui.openStep]
       repeat' split
       all_goals simp [dequeued])

theorem timerFifo_refl (a : Ui) : TimerFifo a a := ⟨[], [], by simp, by simp⟩

theorem timerFifo_trans (a b c : Ui) (h1 : TimerFifo a b) (h2 : TimerFifo b c) :
    TimerFifo a c := by
  obtain ⟨A1, n1, hl1, hq1⟩ := h1
  obtain ⟨A2, n2, hl2, hq2⟩ := h2
  refine ⟨A1 ++ A2, n1 ++ n2, by rw [hl2, hl1, List.append_assoc], ?_⟩
  rw [List.append_assoc, hq2, ← List.append_assoc, hq1, List.append_assoc]

theorem timerFifo_prim (p : Prim) (a : Ui) : TimerFifo a (p.apply a) := by
  by_cases hp : p = Prim.popTimer
  · subst hp
    cases hq : a.m_timerqueue with
    | nil => exact ⟨[], [], by simp [Prim.apply, Ui.popTimer, hq], by simp [Prim.apply, Ui.popTimer, hq]⟩
    | cons f rest =>
      exact ⟨[f], [], by simp [Prim.apply, Ui.popTimer, hq, dequeued],
        by simp [Prim.apply, Ui.popTimer, hq]⟩
  · obtain ⟨new, hn⟩ := prim_timerqueue p a hp
    exact ⟨[], new, by simp [prim_dequeued p a hp], by simp [hn]⟩

theorem prim_hold (p : Prim) (a : Ui) (hp : p ≠ Prim.release) (h : a.m_hold = true) :
    (p.apply a).m_hold = true := by
  cases p <;> simp only [Prim.apply]
  all_goals first
    | contradiction
    | (simp only [Ui.openHandler, Ui.closeHandler, Ui.pendingClose, Ui.setTransport, Ui.elapse,
          flushTimers_eq, Ui.dropBatch, Ui.waitDone, Ui.pushEvent, Ui.pushResponse,
          Ui.signal, Ui.note, Ui.enter, Ui.after, Ui.startPeriodic, Ui.cancelTimer, Ui.onOpen,
          Ui.onReload, Ui.pendingCheck, Ui.serverSend, Ui.serverClose, Ui.serverRetry,
          Ui.serverQueryId, Ui.holdTimers, Ui.setExit, Ui.setStatus, Ui.takeResponse,
          Ui.close, Ui.send, Ui.beginBatch, Ui.endBatch, Ui.extensionCall, Ui.addRequest,
          Ui.popTimer, Ui.popRequest, Ui.fireTimer, Ui.pushBack, Ui.takeEvent, Ui.reloadStep,
          Ui.openStep]
       repeat' split
       all_goals simp [h])

theorem chain_timerFifo {a b : Ui} (h : Chain a b) : TimerFifo a b := by
  induction h with
  | refl => exact timerFifo_refl a
  | tail _ hstep ih =>
    obtain ⟨p, rfl⟩ := hstep
    exact timerFifo_trans _ _ _ ih (timerFifo_prim p _)

/-- C8: timers wait for on-open.  (1) The due-timer drain of the loop runs
nothing and leaves the session as it is when the on-open slot is set or the
timers are held.  (2) The on-open step of the loop sets the hold, queues the
on-open request at the tail and clears the slot, all in one step.  (3) No
primitive step other than the release lowers the hold, and the release is the
last act of the on-open request, on the session in which the call of the
on-open function returned.  (4) The due-timer queue is first-in-first-out in
every run: the entries dequeued, followed by the queue at the end, are the
queue at the start followed by the entries that joined.  (5) In the test
`startManyTimers` the notes come out as `m`, `o`, `n`, `s`, `t`, `e`, `r`. -/
theorem C8_timers_wait_for_on_open (prog : CallbackId → List Action) :
    (∀ (n : Nat) (ui : Ui), (ui.m_onOpen ≠ none ∨ ui.m_hold = true) →
      exec prog (n + 1) Cmd.timerDrain ui = Except.ok (ui, none)) ∧
    (∀ (ui : Ui) (fptr : CallbackId),
      (ui.openStep fptr).m_hold = true ∧ (ui.openStep fptr).m_onOpen = none ∧
      (ui.openStep fptr).m_requestqueue = ui.m_requestqueue ++ [Request.onOpen fptr] ∧
      (ui.openStep fptr).m_timerqueue = ui.m_timerqueue) ∧
    (∀ (p : Prim) (ui : Ui), p ≠ Prim.release → ui.m_hold = true → (p.apply ui).m_hold = true) ∧
    (∀ (n : Nat) (fptr : CallbackId) (ui u : Ui) (b : Bool),
      attempt (exec prog n) (Request.onOpen fptr) ui = Except.ok (b, u) →
      ∃ r, exec prog n (Cmd.call fptr) ui = Except.ok r ∧ u = r.1.holdTimers false ∧ b = true) ∧
    (∀ (n : Nat) (c : Cmd) (ui : Ui) (r : Ui × Option Value), c.inner = true →
      exec prog n c ui = Except.ok r → TimerFifo ui r.1) ∧
    notes (logOf (exec monsterProg 40 (Cmd.run listeningServer) monsterSession)) =
      ['m', 'o', 'n', 's', 't', 'e', 'r'] := by
  refine ⟨?_, ?_, prim_hold, ?_, ?_, rfl⟩
  · intro n ui h
    simp only [exec, body, timerDrainBody, done]
    split
    · rfl
    · rw [if_neg]
      rintro ⟨_, h2, h3⟩
      rcases h with h | h
      · exact h h2
      · rw [h3] at h; cases h
  · intro ui fptr
    simp [Ui.openStep, Ui.holdTimers, Ui.addRequest, Ui.onOpen]
  · intro n fptr ui u b h
    simp only [attempt] at h
    split at h
    · next v hv =>
      obtain ⟨r, hr, hrv⟩ := sub_ok hv
      cases h
      exact ⟨r, hr, by rw [hrv], rfl⟩
    · cases h
  · intro n c ui r hc h
    exact chain_timerFifo (exec_chain prog n c ui r h hc)

/-- C8 on a session with a due timer and the timers held: the drain does nothing. -/
theorem C8_timers_wait_for_on_open_witness :
    (c7Session.holdTimers true).m_timerqueue = [some 0] ∧
    (c7Session.holdTimers true).m_hold = true ∧
    exec c7Prog 1 Cmd.timerDrain (c7Session.holdTimers true) =
      Except.ok (c7Session.holdTimers true, none) :=
  ⟨rfl, rfl, (C8_timers_wait_for_on_open c7Prog).1 0 (c7Session.holdTimers true) (Or.inr rfl)⟩

/-! ### C9 and C10: the pending-close grace period -/

/-- C9: `Ui::pendingClose` sets the state to `PENDING` and adds exactly one
timer to the timer manager: a one-shot timer of 1000 ms whose function is the
deferred check.  The deferred check sets the state to `CLOSE` (and signals the
loop) when the state is `PENDING`, and changes nothing in any other state.
When the due-timer drain runs the entry of such a timer, the timer is
destroyed and the check is applied. -/
theorem C9_pendingClose (ui : Ui) :
    ui.pendingClose.m_status = State.PENDING ∧
    ui.pendingClose.m_timers.timers =
      (ui.m_timers.markFired false).timers ++
        [{ id := ui.m_timers.nextId, ms := 1000, deadline := ui.m_timers.now + 1000,
           singleShot := true, func := TimerFunc.pendingCheck, fired := false }] ∧
    (ui.m_status = State.PENDING →
      ui.pendingCheck =
        { ui with m_status := State.CLOSE, m_sema := { count := ui.m_sema.count + 1 } }) ∧
    (ui.m_status ≠ State.PENDING → ui.pendingCheck = ui) ∧
    (∀ (self : Cmd → Ui → Res) (id : Nat) (t : Timer), ui.m_timers.lookup id = some t →
      t.func = TimerFunc.pendingCheck →
      runTimer self id ui = Except.ok (ui.fireTimer t).pendingCheck ∧
      (ui.fireTimer t).m_status = ui.m_status ∧
      (ui.fireTimer t).m_requestqueue = ui.m_requestqueue ∧
      (ui.fireTimer t).m_timerqueue = ui.m_timerqueue ∧
      (ui.fireTimer t).m_eventqueue = ui.m_eventqueue) := by
  refine ⟨?_, ?_, ?_, ?_, ?_⟩
  · simp [Ui.pendingClose, Ui.after, flushTimers_eq]
  · simp [Ui.pendingClose, Ui.after, flushTimers_eq, TimerMgr.append, TimerMgr.markFired]
  · intro h
    simp [Ui.pendingCheck, h, Semaphore.signal]
  · intro h
    simp [Ui.pendingCheck, h]
  · intro self id t hl hf
    refine ⟨?_, rfl, rfl, rfl, rfl⟩
    simp [runTimer, hl, hf]

/-- C9 after a disconnect (the check closes) and after the reconnection that
follows (the check does nothing). -/
theorem C9_pendingClose_witness :
    c10Closed.m_status = State.PENDING ∧
    c10Closed.pendingCheck =
      { c10Closed with m_status := State.CLOSE,
                       m_sema := { count := c10Closed.m_sema.count + 1 } } ∧
    c10Reopened.m_status = State.RELOAD ∧
    c10Reopened.pendingCheck = c10Reopened :=
  ⟨rfl, (C9_pendingClose c10Closed).2.2.1 rfl, rfl,
   (C9_pendingClose c10Reopened).2.2.2.1 (by decide)⟩

/-- C10, counterexample: disconnect, reconnect, second disconnect 500 ms after
the first, and then the check that the first disconnect scheduled fires,
1000 ms after the first disconnect: it moves the state to `CLOSE`, although an
open callback arrived after the first disconnect and before the check fired. -/
theorem C10_debounce_counterexample :
    (c10Closed.m_status = State.PENDING ∧
      (c10Closed.m_timers.lookup 0).map (fun t => (t.func, t.deadline)) =
        some (TimerFunc.pendingCheck, 1000)) ∧
    c10Reopened.m_status = State.RELOAD ∧
    (c10ClosedAgain.m_status = State.PENDING ∧
      (c10ClosedAgain.m_timers.lookup 1).map (fun t => (t.func, t.deadline)) =
        some (TimerFunc.pendingCheck, 1500)) ∧
    c10Due.m_timerqueue = [some 0] ∧
    statusAfter (runTimer (exec noProg 0) 0 c10Due.popTimer) = some State.CLOSE ∧
    statusOf (exec noProg 10 Cmd.eventLoop c10Scheduled) = some State.CLOSE :=
  ⟨⟨rfl, rfl⟩, rfl, ⟨rfl, rfl⟩, rfl, rfl, rfl⟩

theorem prim_settled (p : Prim) (a : Ui) (hp : p.isClose = false) (h : Settled a) :
    Settled (p.apply a) := by
  obtain ⟨h1, h2⟩ := h
  cases p <;> simp only [Prim.apply]
  all_goals first
    | (cases hp; done)
    | (simp only [Settled, Ui.openHandler, Ui.setTransport, Ui.elapse,
          flushTimers_eq, Ui.dropBatch, Ui.waitDone, Ui.pushEvent, Ui.pushResponse,
          Ui.signal, Ui.note, Ui.enter, Ui.after, Ui.startPeriodic, Ui.cancelTimer, Ui.onOpen,
          Ui.onReload, Ui.pendingCheck, Ui.serverSend, Ui.serverClose, Ui.serverRetry,
          Ui.serverQueryId, Ui.holdTimers, Ui.setExit, Ui.setStatus, Ui.takeResponse,
          Ui.close, Ui.send, Ui.beginBatch, Ui.endBatch, Ui.extensionCall, Ui.addRequest,
          Ui.popTimer, Ui.popRequest, Ui.fireTimer, Ui.pushBack, Ui.takeEvent, Ui.reloadStep,
          Ui.openStep]
       repeat' split
       all_goals simp_all)

theorem applyAll_settled (ps : List Prim) : ∀ (a : Ui), (∀ p ∈ ps, p.isClose = false) →
    Settled a → Settled (applyAll ps a) := by
  induction ps with
  | nil => intro a _ h; exact h
  | cons p ps ih =>
    intro a hps h
    exact ih (p.apply a) (fun q hq => hps q (List.mem_cons_of_mem p hq))
      (prim_settled p a (hps p (List.mem_cons_self p ps)) h)

/-- C10, amended: after an open callback the state is neither `PENDING` nor
`CLOSE`, and it stays so across every sequence of steps of the session that
contains no further call of the close handler (open callbacks, firings of
deferred checks, loop passes, host calls, in any order); a deferred check that
fires then leaves the session unchanged, whichever disconnect scheduled it.
A further disconnect (close reason `CLOSE`, transport not connected, state
not `EXIT`) sets the state to `PENDING` again, and then a deferred check,
also one scheduled by an earlier disconnect, moves the state to `CLOSE`. -/
theorem C10_debounce_amended (ui : Ui) :
    Settled ui.openHandler ∧
    (∀ ps : List Prim, (∀ p ∈ ps, p.isClose = false) →
      Settled (applyAll ps ui.openHandler) ∧
      (applyAll ps ui.openHandler).pendingCheck = applyAll ps ui.openHandler) ∧
    (∀ (s : Server) (code : Int), ui.m_server = some s → s.connected = false →
      ui.m_status ≠ State.EXIT →
      (ui.closeHandler Close.CLOSE code).m_status = State.PENDING ∧
      (ui.closeHandler Close.CLOSE code).pendingCheck.m_status = State.CLOSE) := by
  have hopen : Settled ui.openHandler := by
    simp only [Settled, Ui.openHandler]
    split <;> simp_all
  refine ⟨hopen, ?_, ?_⟩
  · intro ps hps
    have hs := applyAll_settled ps ui.openHandler hps hopen
    exact ⟨hs, by simp [Ui.pendingCheck, hs.1]⟩
  · intro s code hsrv hconn hst
    have h1 : (ui.closeHandler Close.CLOSE code).m_status = State.PENDING := by
      simp [Ui.closeHandler, hsrv, hconn, hst, Ui.pendingClose, Ui.after, flushTimers_eq]
    exact ⟨h1, by simp [Ui.pendingCheck, h1]⟩

/-- C10 after a disconnect and a reconnection: checks and loop steps leave the
state settled; a second disconnect makes the next check close. -/
theorem C10_debounce_amended_witness :
    Settled (applyAll [Prim.pendingCheck, Prim.reloadStep, Prim.openHandler, Prim.pendingCheck]
      c10Closed.openHandler) ∧
    c10Reopened.m_server = some listeningServer ∧
    (c10Reopened.closeHandler Close.CLOSE 0).m_status = State.PENDING ∧
    (c10Reopened.closeHandler Close.CLOSE 0).pendingCheck.m_status = State.CLOSE :=
  ⟨((C10_debounce_amended c10Closed).2.1
      [Prim.pendingCheck, Prim.reloadStep, Prim.openHandler, Prim.pendingCheck]
      (by decide)).1,
   rfl,
   ((C10_debounce_amended c10Reopened).2.2 listeningServer 0 rfl rfl (by decide)).1,
   ((C10_debounce_amended c10Reopened).2.2 listeningServer 0 rfl rfl (by decide)).2⟩

/-! ### C11: is `EXIT` terminal -/

theorem messageHandler_status (onError : CallbackId → Ui → Except Fault Ui)
    (hon : ∀ cb a b, onError cb a = Except.ok b → b.m_status = a.m_status)
    (ui u : Ui) (params : Object) (h : ui.messageHandler onError params = Except.ok u) :
    u.m_status = ui.m_status ∨ u.m_status = State.EXIT := by
  unfold Ui.messageHandler at h
  split at h
  · cases h; exact Or.inl rfl
  · split at h
    · cases h
    · split at h
      · cases h
      · next v hv =>
        cases h
        show v.m_status = ui.m_status ∨ v.m_status = State.EXIT
        split at hv
        · unfold Ui.onEventMessage at hv
          repeat' split at hv
          all_goals first
            | cases hv; done
            | (cases hv; exact Or.inl rfl)
        · split at hv
          · unfold Ui.onQueryMessage at hv
            repeat' split at hv
            all_goals first
              | cases hv; done
              | (cases hv; exact Or.inl rfl)
          · split at hv
            · unfold Ui.onExtensionResponse at hv
              repeat' split at hv
              all_goals first
                | cases hv; done
                | (cases hv; exact Or.inl rfl)
            · split at hv
              · unfold Ui.onErrorMessage at hv
                repeat' split at hv
                all_goals first
                  | cases hv; done
                  | exact Or.inl (hon _ _ _ hv)
                  | (cases hv; exact Or.inl rfl)
              · split at hv
                · cases hv; exact Or.inr rfl
                · split at hv
                  · cases hv; exact Or.inl rfl
                  · cases hv; exact Or.inl rfl

/-- C11: in state `EXIT` the open callback, the close callback with reason
`CLOSE` or `EXIT`, every inbound message (as long as the host's error callback
does not change the state), the deferred pending-close check and `exit()` leave
the state `EXIT`.  The close callback with reason `FAIL` does not: with the
transport handle still there it sets the state to `RETRY` and signals the loop. -/
theorem C11_exit_and_close_fail (ui : Ui) (hst : ui.m_status = State.EXIT) :
    ui.openHandler.m_status = State.EXIT ∧
    (∀ code, (ui.closeHandler Close.CLOSE code).m_status = State.EXIT ∧
      (ui.closeHandler Close.EXIT code).m_status = State.EXIT) ∧
    (∀ (onError : CallbackId → Ui → Except Fault Ui) (params : Object) (u : Ui),
      (∀ cb a b, onError cb a = Except.ok b → b.m_status = a.m_status) →
      ui.messageHandler onError params = Except.ok u → u.m_status = State.EXIT) ∧
    ui.pendingCheck.m_status = State.EXIT ∧
    (∀ (prog : CallbackId → List Action) (n : Nat),
      statusOf (exec prog (n + 1) Cmd.exit ui) = some State.EXIT) ∧
    (∀ (s : Server) (code : Int), ui.m_server = some s →
      (ui.closeHandler Close.FAIL code).m_status = State.RETRY ∧
      (ui.closeHandler Close.FAIL code).m_sema.count = ui.m_sema.count + 1) := by
  refine ⟨?_, ?_, ?_, ?_, ?_, ?_⟩
  · simp [Ui.openHandler, hst]
  · intro code
    constructor <;>
    · simp only [Ui.closeHandler]
      split
      · rfl
      · simp [hst]
  · intro onError params u hon h
    rcases messageHandler_status onError hon ui u params h with h1 | h1
    · rw [h1, hst]
    · exact h1
  · simp [Ui.pendingCheck, hst]
  · intro prog n
    simp [exec, body, exitBody, hst, done, statusOf, Ui.signal]
  · intro s code hsrv
    simp [Ui.closeHandler, hsrv, hst, Semaphore.signal]

/-- C11 on a session in state `EXIT` whose transport handle exists: a close
with reason `FAIL` moves it to `RETRY`. -/
theorem C11_exit_and_close_fail_witness :
    c11Session.m_status = State.EXIT ∧
    (c11Session.closeHandler Close.FAIL 0).m_status = State.RETRY ∧
    (c11Session.closeHandler Close.CLOSE 0).m_status = State.EXIT :=
  ⟨rfl, ((C11_exit_and_close_fail c11Session rfl).2.2.2.2.2 liveServer 0 rfl).1,
   ((C11_exit_and_close_fail c11Session rfl).2.1 0).1⟩

/-! ### C12, C13 and C14: `RETRY`, open and close -/

/-- C12: a pass of `Ui::eventLoop` that finds the state `RETRY` (after the wait)
calls `retryStart` on the transport `s`, once: the session it passes on holds
the transport `s.retryStart.2`, the transport after the call, which has used
up one restart outcome.  When the restart fails the state is set to `EXIT`
and the loop returns; when it succeeds the loop goes to its next pass.  In
both cases no timer function was invoked, no request attempted and no event
dispatched: the three queues and the trace are as they were.  What the
listener of a restarted transport does to the state is not part of the pass. -/
theorem C12_retry_pass (self : Cmd → Ui → Res) (ui u0 u1 : Ui) (srv s : Server)
    (hsrv : ui.m_server = some srv) (hrun : srv.running = true)
    (hpoll : poll self ui = Except.ok u0)
    (hwait : (if u0.m_sema.count = 0 then sub self Cmd.wait u0 else Except.ok u0) = Except.ok u1)
    (hst : u1.m_status = State.RETRY) (hs : u1.m_server = some s) :
    (s.retryStart.1 = false →
      eventLoopBody self ui = Except.ok (u1.serverRetry.setExit, none) ∧
      u1.serverRetry.setExit.m_status = State.EXIT) ∧
    (s.retryStart.1 = true →
      eventLoopBody self ui = self Cmd.eventLoop u1.serverRetry) ∧
    (u1.serverRetry.m_server = some s.retryStart.2 ∧
      u1.serverRetry.setExit.m_server = some s.retryStart.2 ∧
      s.retryStart.2.retryScript = s.retryScript.tail ∧
      s.retryStart.2.running = s.running ∧ s.retryStart.2.connected = s.connected) ∧
    (u1.serverRetry.log = u1.log ∧ u1.serverRetry.m_timerqueue = u1.m_timerqueue ∧
      u1.serverRetry.m_requestqueue = u1.m_requestqueue ∧
      u1.serverRetry.m_eventqueue = u1.m_eventqueue) ∧
    (u1.serverRetry.setExit.log = u1.log ∧
      u1.serverRetry.setExit.m_timerqueue = u1.m_timerqueue ∧
      u1.serverRetry.setExit.m_requestqueue = u1.m_requestqueue ∧
      u1.serverRetry.setExit.m_eventqueue = u1.m_eventqueue) := by
  refine ⟨?_, ?_, ⟨?_, ?_, ?_, ?_, ?_⟩, ⟨rfl, rfl, rfl, rfl⟩, ⟨rfl, rfl, rfl, rfl⟩⟩
  · intro hr
    refine ⟨?_, rfl⟩
    simp [eventLoopBody, hsrv, hrun, hpoll, hwait, hst, hs, hr, done]
  · intro hr
    simp [eventLoopBody, hsrv, hrun, hpoll, hwait, hst, hs, hr]
  · simp [Ui.serverRetry, hs]
  · simp [Ui.serverRetry, Ui.setExit, Ui.setStatus, hs]
  · unfold Server.retryStart
    split <;> simp_all
  · unfold Server.retryStart
    split <;> rfl
  · unfold Server.retryStart
    split <;> rfl

/-- C12 on a session in state `RETRY` whose restart fails: the loop returns
with state `EXIT`, the transport has been asked once (its script of restart
outcomes is used up), the queues are untouched. -/
theorem C12_retry_pass_witness :
    c12Session.m_status = State.RETRY ∧
    exec noProg 1 Cmd.eventLoop c12Session =
      Except.ok (c12Session.serverRetry.setExit, none) ∧
    c12Session.serverRetry.setExit.m_server = some failingRestart.retryStart.2 ∧
    failingRestart.retryScript = [false] ∧ failingRestart.retryStart.2.retryScript = [] ∧
    c12Session.serverRetry.setExit.m_requestqueue = [Request.closeRequest] :=
  ⟨rfl,
   ((C12_retry_pass (exec noProg 0) c12Session c12Session c12Session failingRestart
      failingRestart rfl rfl rfl rfl rfl rfl).1 rfl).1,
   (C12_retry_pass (exec noProg 0) c12Session c12Session c12Session failingRestart
      failingRestart rfl rfl rfl rfl rfl rfl).2.2.1.2.1,
   rfl, rfl, rfl⟩

/-- C13, counterexample: an open callback that arrives in state `RUNNING`
leaves the state `RUNNING`. -/
theorem C13_open_while_running_counterexample :
    c13Session.m_status = State.RUNNING ∧ c13Session.openHandler.m_status = State.RUNNING :=
  ⟨rfl, rfl⟩

/-- C13, amended: the open callback sets the state to `RELOAD` exactly when
the state is `CLOSE` or `PENDING`; in every other state, `RUNNING` included, it
leaves the state as it is; in all cases it signals the loop once and changes
nothing else.  In state `RELOAD` the reload step of the loop queues the reload
request when an on-reload function is registered, queues nothing otherwise,
and sets the state to `RUNNING`. -/
theorem C13_open_handler (ui : Ui) :
    ((ui.m_status = State.CLOSE ∨ ui.m_status = State.PENDING) →
      ui.openHandler =
        { ui with m_status := State.RELOAD, m_sema := { count := ui.m_sema.count + 1 } }) ∧
    (¬ (ui.m_status = State.CLOSE ∨ ui.m_status = State.PENDING) →
      ui.openHandler = { ui with m_sema := { count := ui.m_sema.count + 1 } }) ∧
    ui.reloadStep.m_status = State.RUNNING ∧
    (∀ cb, ui.m_onReload = some cb →
      ui.reloadStep.m_requestqueue = ui.m_requestqueue ++ [Request.reload]) ∧
    (ui.m_onReload = none → ui.reloadStep.m_requestqueue = ui.m_requestqueue) := by
  refine ⟨?_, ?_, ?_, ?_, ?_⟩
  · intro h
    simp [Ui.openHandler, h, Semaphore.signal]
  · intro h
    simp [Ui.openHandler, h, Semaphore.signal]
  · simp [Ui.reloadStep, Ui.setStatus]
  · intro cb h
    simp [Ui.reloadStep, Ui.setStatus, h, Ui.addRequest]
  · intro h
    simp [Ui.reloadStep, Ui.setStatus, h]

/-- C13 on a session in state `PENDING`: the open callback sets `RELOAD`, and
the pass of the loop that follows queues the reload request, returns to
`RUNNING` and calls the on-reload function. -/
theorem C13_open_handler_witness :
    c13Pending.m_status = State.PENDING ∧
    c13Pending.openHandler =
      { c13Pending with m_status := State.RELOAD,
                        m_sema := { count := c13Pending.m_sema.count + 1 } } ∧
    c13Pending.openHandler.reloadStep.m_requestqueue = [Request.reload] ∧
    logOf (exec noProg 6 Cmd.eventLoop c13Reopened) = [Obs.attempt Request.reload, Obs.call 1] :=
  ⟨rfl, (C13_open_handler c13Pending).1 (Or.inr rfl),
   (C13_open_handler c13Pending.openHandler).2.2.2.1 1 rfl, rfl⟩

/-- C14, counterexample: with the transport handle in place, a close callback
with reason `EXIT` leaves a running session in state `RUNNING` and does not
signal the loop. -/
theorem C14_close_exit_counterexample :
    c13Session.m_status = State.RUNNING ∧ c13Session.m_server = some liveServer ∧
    (c13Session.closeHandler Close.EXIT 0).m_status = State.RUNNING ∧
    (c13Session.closeHandler Close.EXIT 0).m_sema.count = c13Session.m_sema.count :=
  ⟨rfl, rfl, rfl, rfl⟩

/-- C14, amended: without a transport handle the close callback sets the
state to `EXIT` and signals the loop, for every close reason and from every
state.  With the handle in place a close with reason `EXIT` changes neither
the state nor anything else, except that it signals the loop when the state
already is `EXIT` or `RETRY`. -/
theorem C14_close_exit (ui : Ui) (code : Int) :
    (ui.m_server = none → ∀ reason,
      ui.closeHandler reason code =
        { ui with m_status := State.EXIT, m_sema := { count := ui.m_sema.count + 1 } }) ∧
    (∀ s, ui.m_server = some s →
      (ui.m_status = State.EXIT ∨ ui.m_status = State.RETRY →
        ui.closeHandler Close.EXIT code =
          { ui with m_sema := { count := ui.m_sema.count + 1 } }) ∧
      (¬ (ui.m_status = State.EXIT ∨ ui.m_status = State.RETRY) →
        ui.closeHandler Close.EXIT code = ui)) := by
  constructor
  · intro h reason
    simp [Ui.closeHandler, h, Semaphore.signal]
  · intro s h
    constructor
    · intro hst
      simp [Ui.closeHandler, h, hst, Semaphore.signal]
    · intro hst
      simp [Ui.closeHandler, h, hst]

/-- C14 on a session without transport handle, and on a running session with
one. -/
theorem C14_close_exit_witness :
    (c14Detached.m_server = none ∧ c14Detached.m_status = State.RUNNING) ∧
    (c14Detached.closeHandler Close.EXIT 0).m_status = State.EXIT ∧
    c13Session.closeHandler Close.EXIT 0 = c13Session :=
  ⟨⟨rfl, rfl⟩,
   by rw [(C14_close_exit c14Detached 0).1 rfl Close.EXIT],
   ((C14_close_exit c13Session 0).2 liveServer rfl).2 (by decide)⟩

/-! ### C16: `normalizeNames` -/

theorem front_slash_append (k : String) : ("/" ++ k).front = '/' := by
  rw [String.front_eq]
  rfl

theorem string_length_zero (k : String) (h : k.length = 0) : k = "" := by
  cases k with
  | mk d =>
    have hd : d.length = 0 := h
    have : d = [] := List.length_eq_zero.mp hd
    subst this
    rfl

theorem rooted_normalizedKey (k : String) : Rooted (normalizedKey k) := by
  unfold normalizedKey
  split
  · exact Or.inr (front_slash_append k)
  · next h =>
    by_cases hl : k.length > 0
    · right
      by_contra hf
      exact h ⟨hl, hf⟩
    · left
      exact string_length_zero k (by omega)

theorem mem_emplace {β : Type} (k : String) (v : β) (m : List (String × β)) (p : String × β)
    (h : p ∈ emplace k v m) : p ∈ m ∨ p.1 = k := by
  unfold emplace at h
  split at h
  · exact Or.inl h
  · simp only [List.mem_append, List.mem_singleton] at h
    rcases h with h | h
    · exact Or.inl h
    · right; rw [h]

theorem find_append_left {β : Type} (a : String) (m m' : List (String × β))
    (h : (find a m).isSome = true) : (find a (m ++ m')).isSome = true := by
  induction m with
  | nil => simp [find] at h
  | cons p m ih =>
    obtain ⟨x, y⟩ := p
    by_cases hx : x = a
    · subst hx; rw [List.cons_append, find_cons_eq]; rfl
    · rw [find_cons_ne a x y m hx] at h
      rw [List.cons_append, find_cons_ne a x y _ hx]
      exact ih h

theorem find_emplace_old {β : Type} (a k : String) (v : β) (m : List (String × β))
    (h : (find a m).isSome = true) : (find a (emplace k v m)).isSome = true := by
  unfold emplace
  split
  · exact h
  · exact find_append_left a m _ h

theorem find_emplace_self {β : Type} (k : String) (v : β) (m : List (String × β)) :
    (find k (emplace k v m)).isSome = true := by
  unfold emplace
  split
  · next w hw => rw [hw]; rfl
  · next hn => rw [find_append_singleton k v m hn]; rfl

theorem normalize_step (acc : List (String × String)) (kv : String × String) :
    (if kv.1.length > 0 ∧ kv.1.front ≠ '/' then emplace ("/" ++ kv.1) kv.2 acc
      else emplace kv.1 kv.2 acc) = emplace (normalizedKey kv.1) kv.2 acc := by
  unfold normalizedKey
  split <;> rfl

theorem normalize_foldl_rooted (files : List (String × String)) :
    ∀ acc : List (String × String), (∀ p ∈ acc, Rooted p.1) →
      ∀ p ∈ files.foldl (fun normalized kv =>
          if kv.1.length > 0 ∧ kv.1.front ≠ '/' then emplace ("/" ++ kv.1) kv.2 normalized
          else emplace kv.1 kv.2 normalized) acc, Rooted p.1 := by
  induction files with
  | nil => intro acc h p hp; exact h p hp
  | cons kv files ih =>
    intro acc h p hp
    rw [List.foldl_cons, normalize_step] at hp
    refine ih _ ?_ p hp
    intro q hq
    rcases mem_emplace _ _ _ q hq with h1 | h1
    · exact h q h1
    · rw [h1]; exact rooted_normalizedKey kv.1

theorem normalize_foldl_found (files : List (String × String)) :
    ∀ (acc : List (String × String)) (a : String),
      ((find a acc).isSome = true ∨ ∃ kv ∈ files, normalizedKey kv.1 = a) →
      (find a (files.foldl (fun normalized kv =>
          if kv.1.length > 0 ∧ kv.1.front ≠ '/' then emplace ("/" ++ kv.1) kv.2 normalized
          else emplace kv.1 kv.2 normalized) acc)).isSome = true := by
  induction files with
  | nil =>
    intro acc a h
    rcases h with h | ⟨kv, hkv, _⟩
    · exact h
    · cases hkv
  | cons kv files ih =>
    intro acc a h
    rw [List.foldl_cons, normalize_step]
    apply ih
    rcases h with h | ⟨kv', hkv', hn⟩
    · exact Or.inl (find_emplace_old a _ _ acc h)
    · rcases List.mem_cons.mp hkv' with h1 | h1
      · left; rw [← hn, h1]; exact find_emplace_self _ _ acc
      · exact Or.inr ⟨kv', h1, hn⟩

/-- C16, counterexample: the file map with the empty key: `normalizeNames`
keeps the empty key, which does not begin with `/`. -/
theorem C16_empty_key_counterexample :
    normalizeNames [("", "data")] = [("", "data")] ∧ "".front ≠ '/' :=
  ⟨rfl, by decide⟩

/-- C16, amended: every key of the map produced by `normalizeNames` is empty
or begins with `/`; the entry of key `k` is stored under `k` itself when `k`
is empty or begins with `/`, and under `/` followed by `k` otherwise; every
key of the given map is a key of the result in this form. -/
theorem C16_normalizeNames (files : List (String × String)) :
    (∀ p ∈ normalizeNames files, p.1 = "" ∨ p.1.front = '/') ∧
    (∀ kv ∈ files, (find (normalizedKey kv.1) (normalizeNames files)).isSome = true) ∧
    (∀ k : String, (k = "" ∨ k.front = '/') → normalizedKey k = k) ∧
    (∀ k : String, k ≠ "" → k.front ≠ '/' → normalizedKey k = "/" ++ k) := by
  refine ⟨?_, ?_, ?_, ?_⟩
  · exact normalize_foldl_rooted files [] (fun p hp => by cases hp)
  · intro kv hkv
    exact normalize_foldl_found files [] _ (Or.inr ⟨kv, hkv, rfl⟩)
  · intro k h
    unfold normalizedKey
    rw [if_neg]
    rintro ⟨hl, hf⟩
    rcases h with h | h
    · rw [h] at hl; exact absurd hl (by decide)
    · exact hf h
  · intro k hk hf
    unfold normalizedKey
    rw [if_pos]
    refine ⟨?_, hf⟩
    by_contra hl
    apply hk
    exact string_length_zero k (by omega)

/-- C16 on the file map of the test `openPage_with_browser`, given without the
leading `/`. -/
theorem C16_normalizeNames_witness :
    normalizeNames [("foobar.html", "page")] = [("/foobar.html", "page")] ∧
    (find (normalizedKey "foobar.html") (normalizeNames [("foobar.html", "page")])).isSome = true :=
  ⟨by decide,
   (C16_normalizeNames [("foobar.html", "page")]).2.1 ("foobar.html", "page")
      (List.mem_singleton.mpr rfl)⟩

/-! ### C17: malformed inbound messages -/

theorem at_string_ok (params : Object) (k s : String)
    (h : (at_ params k).bind anyCastString = Except.ok s) : find k params = some (Value.str s) := by
  unfold at_ at h
  split at h
  · next v hv =>
    cases v <;> simp [Except.bind, anyCastString] at h
    rw [hv, h]
  · simp [Except.bind] at h

theorem at_object_ok (params : Object) (k : String) (o : Object)
    (h : (at_ params k).bind anyCastObject = Except.ok o) :
    ∃ x, find k params = some (Value.object x) := by
  unfold at_ at h
  split at h
  · next v hv =>
    cases v <;> simp [Except.bind, anyCastObject] at h
    exact ⟨_, hv⟩
  · simp [Except.bind] at h

theorem at_ok (params : Object) (k : String) (v : Value) (h : at_ params k = Except.ok v) :
    find k params = some v := by
  unfold at_ at h
  split at h
  · next w hw => cases h; exact hw
  · cases h

theorem messageHandler_typed (onError : CallbackId → Ui → Except Fault Ui) (ui u : Ui)
    (params : Object) (t : String) (ht : find "type" params = some (Value.str t))
    (h : ui.messageHandler onError params = Except.ok u) :
    ∃ v, u = v.signal ∧
      (if t = "event" then ui.onEventMessage params
       else if t = "query" then ui.onQueryMessage params
       else if t = "extension_response" then ui.onExtensionResponse params
       else if t = "error" then ui.onErrorMessage onError params
       else if t = "exit_request" then Except.ok { ui with m_status := State.EXIT }
       else if t = "extensionready" then
         Except.ok (ui.extensionCall "ui_info"
           [("url", Value.str (uiInfoAddress ui.indexHtml)),
            ("params", Value.str ui.extraParams)])
       else Except.ok ui) = Except.ok v := by
  simp only [Ui.messageHandler, ht, anyCastString] at h
  split at h
  · cases h
  · next v hv => cases h; exact ⟨v, rfl, hv⟩

/-- C17, counterexample: an inbound message of type `event` without the
field `element`: the handler raises `std::out_of_range`. -/
theorem C17_malformed_message_counterexample :
    c3Session.messageHandler noError c17Malformed = Except.error Fault.outOfRange :=
  rfl

/-- C17, amended: the message handler completes and changes nothing when the
message has no `type` field, and completes with one signal to the loop,
leaving the state, the inbound-event queue and the pending-response table as
they were, when the type is a string it does not know.  It raises
`std::bad_any_cast` when the `type` field is not a string.  For the types
`event`, `query`, `extension_response` and `error` it completes only when
every field it reads is present and holds a value of the right kind; otherwise
it raises. -/
theorem C17_message_handler (onError : CallbackId → Ui → Except Fault Ui) (ui : Ui)
    (params : Object) :
    (find "type" params = none → ui.messageHandler onError params = Except.ok ui) ∧
    (∀ t, find "type" params = some (Value.str t) → t ∉ knownTypes →
      ui.messageHandler onError params = Except.ok ui.signal ∧
      ui.signal.m_status = ui.m_status ∧ ui.signal.m_eventqueue = ui.m_eventqueue ∧
      ui.signal.m_responsemap = ui.m_responsemap) ∧
    (∀ v, find "type" params = some v → (∀ s, v ≠ Value.str s) →
      ui.messageHandler onError params = Except.error Fault.badAnyCast) ∧
    (∀ u, ui.messageHandler onError params = Except.ok u →
      (find "type" params = some (Value.str "event") →
        ∃ e ev pr, find "element" params = some (Value.str e) ∧
          find "event" params = some (Value.str ev) ∧
          find "properties" params = some (Value.object pr)) ∧
      (find "type" params = some (Value.str "query") →
        ∃ key id v, find "query_value" params = some (Value.str key) ∧
          find "query_id" params = some (Value.str id) ∧ find key params = some v) ∧
      (find "type" params = some (Value.str "extension_response") →
        ∃ key id v, find "extension_call" params = some (Value.str key) ∧
          find "extension_id" params = some (Value.str id) ∧ find key params = some v) ∧
      (find "type" params = some (Value.str "error") →
        ∃ e m, find "element" params = some (Value.str e) ∧
          find "error" params = some (Value.str m))) := by
  refine ⟨?_, ?_, ?_, ?_⟩
  · intro h
    simp [Ui.messageHandler, h]
  · intro t ht hk
    simp only [knownTypes, List.mem_cons, List.mem_singleton, List.not_mem_nil, or_false,
      not_or] at hk
    obtain ⟨h1, h2, h3, h4, h5, h6⟩ := hk
    refine ⟨?_, rfl, rfl, rfl⟩
    simp [Ui.messageHandler, ht, anyCastString, h1, h2, h3, h4, h5, h6, Ui.signal]
  · intro v hv hs
    cases v with
    | str s => exact absurd rfl (hs s)
    | num n => simp [Ui.messageHandler, hv, anyCastString]
    | flag b => simp [Ui.messageHandler, hv, anyCastString]
    | seq l => simp [Ui.messageHandler, hv, anyCastString]
    | object o => simp [Ui.messageHandler, hv, anyCastString]
  · intro u h
    refine ⟨?_, ?_, ?_, ?_⟩
    · intro ht
      obtain ⟨v, _, hv⟩ := messageHandler_typed onError ui u params _ ht h
      simp only [if_true] at hv
      unfold Ui.onEventMessage at hv
      split at hv
      · cases hv
      · next e he =>
        split at hv
        · cases hv
        · next ev hev =>
          split at hv
          · cases hv
          · next pr hpr =>
            obtain ⟨x, hx⟩ := at_object_ok params _ pr hpr
            exact ⟨e, ev, x, at_string_ok params _ e he, at_string_ok params _ ev hev, hx⟩
    · intro ht
      obtain ⟨v, _, hv⟩ := messageHandler_typed onError ui u params _ ht h
      simp only [show ("query" = "event") = False by decide, if_false, if_true] at hv
      unfold Ui.onQueryMessage at hv
      split at hv
      · cases hv
      · next key hkey =>
        split at hv
        · cases hv
        · next id hid =>
          split at hv
          · cases hv
          · next k hk =>
            exact ⟨key, id, k, at_string_ok params _ key hkey, at_string_ok params _ id hid,
              at_ok params key k hk⟩
    · intro ht
      obtain ⟨v, _, hv⟩ := messageHandler_typed onError ui u params _ ht h
      simp only [show ("extension_response" = "event") = False by decide,
        show ("extension_response" = "query") = False by decide, if_false, if_true] at hv
      unfold Ui.onExtensionResponse at hv
      split at hv
      · split at hv
        · cases hv
        · next id hid =>
          split at hv
          · cases hv
          · next key hkey =>
            split at hv
            · cases hv
            · next k hk =>
              exact ⟨key, id, k, at_string_ok params _ key hkey, at_string_ok params _ id hid,
                at_ok params key k hk⟩
      · cases hv
    · intro ht
      obtain ⟨v, _, hv⟩ := messageHandler_typed onError ui u params _ ht h
      simp only [show ("error" = "event") = False by decide,
        show ("error" = "query") = False by decide,
        show ("error" = "extension_response") = False by decide, if_false, if_true] at hv
      unfold Ui.onErrorMessage at hv
      split at hv
      · cases hv
      · next e he =>
        split at hv
        · cases hv
        · next m hm =>
          exact ⟨e, m, at_string_ok params _ e he, at_string_ok params _ m hm⟩

/-- C17 on a message of an unknown type. -/
theorem C17_message_handler_witness :
    find "type" [("type", Value.str "resize")] = some (Value.str "resize") ∧
    c13Session.messageHandler noError [("type", Value.str "resize")] =
      Except.ok c13Session.signal :=
  ⟨rfl, ((C17_message_handler noError c13Session [("type", Value.str "resize")]).2.1 "resize"
    rfl (by decide)).1⟩

/-! ### C18: `Ui::send` -/

/-- C18, counterexample: `Ui::send` with the message type `type`: the payload
is not stored, the key `type` keeps the type string; and with the message type
`msgid` and `unique == false` the message has a `msgid` field. -/
theorem C18_send_reserved_type_counterexample :
    lastSent (c13Session.send "button" "type" (Value.str "payload") false) =
      some [("element", "button"), ("type", "type")] ∧
    lastSent (c13Session.send "button" "msgid" (Value.str "payload") false) =
      some [("element", "button"), ("type", "msgid"), ("msgid", "payload")] :=
  ⟨rfl, rfl⟩

/-- C18, amended: for every element id, every message type `t` other than
`element`, `type` and `msgid`, and every string payload `s`,
`Ui::send(element, t, s, unique)` appends one request to the outbound queue
whose message maps `element` to the element id, `type` to `t` and `t` to `s`.
With `unique` the message maps `msgid` to the message-id counter, which is
then incremented; without it the message has no `msgid` field and the
counter stays. -/
theorem C18_send (ui : Ui) (element t s : String) (unique : Bool)
    (h1 : t ≠ "element") (h2 : t ≠ "type") (h3 : t ≠ "msgid") :
    ∃ params,
      (ui.send element t (Value.str s) unique).m_requestqueue =
        ui.m_requestqueue ++ [Request.sendParams params] ∧
      find "element" params = some element ∧ find "type" params = some t ∧
      find t params = some s ∧
      (unique = true → find "msgid" params = some (toString ui.m_msgId) ∧
        (ui.send element t (Value.str s) unique).m_msgId = ui.m_msgId + 1) ∧
      (unique = false → find "msgid" params = none ∧
        (ui.send element t (Value.str s) unique).m_msgId = ui.m_msgId) := by
  have e1 : ¬ "element" = t := fun h => h1 h.symm
  have e2 : ¬ "type" = t := fun h => h2 h.symm
  have e3 : ¬ "msgid" = t := fun h => h3 h.symm
  cases unique with
  | false =>
    refine ⟨[("element", element), ("type", t), (t, s)], ?_, ?_, ?_, ?_, ?_, ?_⟩
    · simp [Ui.send, sendHeader, emplace, find, Ui.addRequest, e1, e2]
    · simp [find]
    · simp [find]
    · simp [find, e1, e2]
    · intro h; cases h
    · intro _
      refine ⟨?_, ?_⟩
      · simp [find, h3]
      · simp [Ui.send, Ui.addRequest]
  | true =>
    refine ⟨[("element", element), ("type", t), ("msgid", toString ui.m_msgId), (t, s)],
      ?_, ?_, ?_, ?_, ?_, ?_⟩
    · simp [Ui.send, sendHeader, emplace, find, Ui.addRequest, e1, e2, e3]
    · simp [find]
    · simp [find]
    · simp [find, e1, e2, e3]
    · intro _
      refine ⟨?_, ?_⟩
      · simp [find]
      · simp [Ui.send, Ui.addRequest]
    · intro h; cases h

/-- C18 on `Ui::eval("a")` with `unique`. -/
theorem C18_send_witness :
    ∃ params,
      (c13Session.send "" "eval" (Value.str "a") true).m_requestqueue =
        c13Session.m_requestqueue ++ [Request.sendParams params] ∧
      find "element" params = some "" ∧ find "type" params = some "eval" ∧
      find "eval" params = some "a" ∧
      (true = true → find "msgid" params = some (toString c13Session.m_msgId) ∧
        (c13Session.send "" "eval" (Value.str "a") true).m_msgId = c13Session.m_msgId + 1) ∧
      (true = false → find "msgid" params = none ∧
        (c13Session.send "" "eval" (Value.str "a") true).m_msgId = c13Session.m_msgId) :=
  C18_send c13Session "" "eval" "a" true (by decide) (by decide) (by decide)

/-! ### C19: the on-open function fires once -/

/-- A pass of the loop up to its on-open step: the pass is not ended by the
state, and the due-timer drain returns `u2`. -/
theorem eventLoop_pass (self : Cmd → Ui → Res) (ui u0 u1 u2 : Ui) (srv : Server)
    (hsrv : ui.m_server = some srv) (hrun : srv.running = true)
    (hpoll : poll self ui = Except.ok u0)
    (hwait : (if u0.m_sema.count = 0 then sub self Cmd.wait u0 else Except.ok u0) = Except.ok u1)
    (h1 : u1.m_status ≠ State.EXIT) (h2 : u1.m_status ≠ State.RETRY)
    (h3 : u1.m_status ≠ State.CLOSE)
    (hdrain : sub self Cmd.timerDrain
      (if u1.m_status = State.RELOAD then u1.reloadStep else u1) = Except.ok u2)
    (hp : u2.m_status ≠ State.PENDING) :
    (u2.m_onOpen = none → eventLoopBody self ui = restOfPass self u2) ∧
    (∀ fptr s, u2.m_onOpen = some fptr → u2.m_status = State.RUNNING →
      u2.m_server = some s → s.connected = true →
      eventLoopBody self ui = restOfPass self (u2.openStep fptr)) ∧
    (∀ fptr, u2.m_onOpen = some fptr →
      (u2.m_status ≠ State.RUNNING ∨ ∃ s, u2.m_server = some s ∧ s.connected = false) →
      eventLoopBody self ui = restOfPass self u2) := by
  refine ⟨?_, ?_, ?_⟩
  · intro hslot
    simp [eventLoopBody, restOfPass, hsrv, hrun, hpoll, hwait, h1, h2, h3, hdrain, hp, hslot]
  · intro fptr s hslot hst hs hc
    simp [eventLoopBody, restOfPass, hsrv, hrun, hpoll, hwait, h1, h2, h3, hdrain, hp, hslot,
      hst, hs, hc]
  · intro fptr hslot h
    rcases h with h | ⟨s, hs, hc⟩
    · simp [eventLoopBody, restOfPass, hsrv, hrun, hpoll, hwait, h1, h2, h3, hdrain, hp, hslot,
        h]
    · by_cases hst : u2.m_status = State.RUNNING
      · simp [eventLoopBody, restOfPass, hsrv, hrun, hpoll, hwait, h1, h2, h3, hdrain, hp,
          hslot, hst, hs, hc]
      · simp [eventLoopBody, restOfPass, hsrv, hrun, hpoll, hwait, h1, h2, h3, hdrain, hp,
          hslot, hst]

theorem prim_slot (p : Prim) (a : Ui) (hp : p.registers = false) (h : a.m_onOpen = none) :
    (p.apply a).m_onOpen = none := by
  cases p
  case onOpen cb =>
    cases cb with
    | none => rfl
    | some f => cases hp
  all_goals simp only [Prim.apply]
  all_goals
    simp only [Ui.openHandler, Ui.closeHandler, Ui.pendingClose, Ui.setTransport, Ui.elapse,
      flushTimers_eq, Ui.dropBatch, Ui.waitDone, Ui.pushEvent, Ui.pushResponse,
      Ui.signal, Ui.note, Ui.enter, Ui.after, Ui.startPeriodic, Ui.cancelTimer,
      Ui.onReload, Ui.pendingCheck, Ui.serverSend, Ui.serverClose, Ui.serverRetry,
      Ui.serverQueryId, Ui.holdTimers, Ui.setExit, Ui.setStatus, Ui.takeResponse,
      Ui.close, Ui.send, Ui.beginBatch, Ui.endBatch, Ui.extensionCall, Ui.addRequest,
      Ui.popTimer, Ui.popRequest, Ui.fireTimer, Ui.pushBack, Ui.takeEvent, Ui.reloadStep,
      Ui.openStep, Ui.onOpen]
    repeat' split
    all_goals simp [h]

theorem onOpen_request_true (self : Cmd → Ui → Res) (fptr : CallbackId) (a v : Ui) (b : Bool)
    (h : attempt self (Request.onOpen fptr) a = Except.ok (b, v)) : b = true := by
  simp only [attempt] at h
  split at h
  · cases h; rfl
  · cases h

/-- C19: the on-open function is called at most once per registration.  In a
pass of `Ui::eventLoop` that reaches the on-open step in state `RUNNING` with
the transport connected and the slot `m_onOpen` holding `fptr`, the step
queues the on-open request at the tail of the outbound queue and leaves the
slot empty, and the pass goes on from there.  The on-open request, whenever
it returns, returns `true`, and the drain goes on with the session the request
left, without putting the request back.  The empty slot stays empty under
every primitive step other than a call of `onOpen` with a function, and a
pass that reaches the on-open step with the slot empty, or in another state,
or with the transport not connected, queues nothing in that step. -/
theorem C19_on_open_single_fire (prog : CallbackId → List Action) (n : Nat)
    (ui u0 u1 u2 : Ui) (srv s : Server) (fptr : CallbackId)
    (hsrv : ui.m_server = some srv) (hrun : srv.running = true)
    (hpoll : poll (exec prog n) ui = Except.ok u0)
    (hwait : (if u0.m_sema.count = 0 then sub (exec prog n) Cmd.wait u0 else Except.ok u0) =
      Except.ok u1)
    (h1 : u1.m_status ≠ State.EXIT) (h2 : u1.m_status ≠ State.RETRY)
    (h3 : u1.m_status ≠ State.CLOSE)
    (hdrain : sub (exec prog n) Cmd.timerDrain
      (if u1.m_status = State.RELOAD then u1.reloadStep else u1) = Except.ok u2)
    (hslot : u2.m_onOpen = some fptr) (hst : u2.m_status = State.RUNNING)
    (hs : u2.m_server = some s) (hc : s.connected = true) :
    (exec prog (n + 1) Cmd.eventLoop ui = restOfPass (exec prog n) (u2.openStep fptr) ∧
      (u2.openStep fptr).m_onOpen = none ∧
      (u2.openStep fptr).m_requestqueue = u2.m_requestqueue ++ [Request.onOpen fptr] ∧
      (u2.openStep fptr).m_hold = true) ∧
    (∀ (self : Cmd → Ui → Res) (a v : Ui) (b : Bool),
      attempt self (Request.onOpen fptr) a = Except.ok (b, v) → b = true) ∧
    (∀ (m : Nat) (a v : Ui) (b : Bool) (rest : List Request) (t : Server),
      a.m_requestqueue = Request.onOpen fptr :: rest → a.m_status = State.RUNNING →
      a.m_server = some t → t.connected = true →
      attempt (exec prog m) (Request.onOpen fptr) a.popRequest = Except.ok (b, v) →
      a.popRequest.m_requestqueue = rest ∧
      exec prog (m + 1) Cmd.requestDrain a = exec prog m Cmd.requestDrain v) ∧
    (∀ (p : Prim) (a : Ui), p.registers = false → a.m_onOpen = none →
      (p.apply a).m_onOpen = none) ∧
    (∀ (self : Cmd → Ui → Res) (a a0 a1 a2 : Ui) (t : Server),
      a.m_server = some t → t.running = true → poll self a = Except.ok a0 →
      (if a0.m_sema.count = 0 then sub self Cmd.wait a0 else Except.ok a0) = Except.ok a1 →
      a1.m_status ≠ State.EXIT → a1.m_status ≠ State.RETRY → a1.m_status ≠ State.CLOSE →
      sub self Cmd.timerDrain (if a1.m_status = State.RELOAD then a1.reloadStep else a1) =
        Except.ok a2 →
      a2.m_status ≠ State.PENDING →
      (a2.m_onOpen = none ∨ a2.m_status ≠ State.RUNNING ∨
        ∃ t2, a2.m_server = some t2 ∧ t2.connected = false) →
      eventLoopBody self a = restOfPass self a2) := by
  have hp : u2.m_status ≠ State.PENDING := by rw [hst]; decide
  refine ⟨⟨?_, rfl, ?_, rfl⟩, ?_, ?_, ?_, ?_⟩
  · exact (eventLoop_pass (exec prog n) ui u0 u1 u2 srv hsrv hrun hpoll hwait h1 h2 h3 hdrain
      hp).2.1 fptr s hslot hst hs hc
  · simp [Ui.openStep, Ui.onOpen, Ui.addRequest, Ui.holdTimers]
  · intro self a v b h
    exact onOpen_request_true self fptr a v b h
  · intro m a v b rest t hq hrunning hsrv2 hconn hatt
    have hb : b = true := onOpen_request_true _ fptr _ v b hatt
    subst hb
    refine ⟨by simp [Ui.popRequest, hq], ?_⟩
    simpa using requestDrain_step prog m a v (Request.onOpen fptr) rest t true hq hrunning hsrv2
      hconn hatt
  · intro p a hp2 ha
    exact prim_slot p a hp2 ha
  · intro self a a0 a1 a2 t hsrv2 hrun2 hpoll2 hwait2 g1 g2 g3 hdrain2 gp hcase
    have hpass := eventLoop_pass self a a0 a1 a2 t hsrv2 hrun2 hpoll2 hwait2 g1 g2 g3 hdrain2 gp
    rcases hcase with hnone | hother
    · exact hpass.1 hnone
    · cases hopt : a2.m_onOpen with
      | none => exact hpass.1 hopt
      | some f => exact hpass.2.2 f hopt hother

/-- C19 on the session of the test `openPage_defaults`: the pass that finds the
transport connected queues the on-open request and empties the slot, and in
the whole run the on-open function is called once. -/
theorem C19_on_open_single_fire_witness :
    c19Session.m_onOpen = some 0 ∧
    exec openPageProg 2 Cmd.eventLoop c19Session =
      restOfPass (exec openPageProg 1) (c19Session.openStep 0) ∧
    (c19Session.openStep 0).m_onOpen = none ∧
    (c19Session.openStep 0).m_requestqueue = [Request.onOpen 0] ∧
    callCount 0 (logOf (exec openPageProg 30 (Cmd.run listeningServer) openPageSession)) = 1 :=
  ⟨rfl,
   (C19_on_open_single_fire openPageProg 1 c19Session c19Session c19Session c19Session
      liveServer liveServer 0 rfl rfl rfl rfl (by decide) (by decide) (by decide) rfl rfl rfl
      rfl rfl).1.1,
   rfl, rfl, rfl⟩

/-! ### C20: the exit request whose send fails -/

/-- C20, counterexample: `exit()` on a running, connected session whose send
fails.  The exit request is attempted once and the transport is closed, but
the request is on the outbound queue again when `exit()` returns. -/
theorem C20_exit_request_put_back_counterexample :
    c20Session.m_status = State.RUNNING ∧ c20Session.m_requestqueue = [] ∧
    exec noProg 8 Cmd.exit c20Session = Except.ok (c20Result, none) ∧
    c20Result.m_requestqueue = [Request.exitRequest] ∧
    attempts c20Result.log = [Request.exitRequest] ∧
    c20Result.m_server = some brokenServer.close :=
  ⟨rfl, rfl, rfl, rfl, rfl, rfl⟩

theorem attempts_popRequest (ui : Ui) (r : Request) (rest : List Request)
    (hq : ui.m_requestqueue = r :: rest) :
    attempts ui.popRequest.log = attempts ui.log ++ [r] := by
  simp [Ui.popRequest, hq, attempts]

/-- C20, amended: when the exit request is at the head of the outbound queue
of a running, connected session and its send fails, the drain takes it, the
transport is closed for good (neither running nor connected), the request is
put back at the tail of the queue, and the drain returns at once: the request
was attempted once.  `Ui::exit` called from `RUNNING` on a running, connected
transport queues that request at the tail and enters the loop.  While the
transport stays closed no drain attempts a request and every call of the loop
returns at once, so the request that was put back is not attempted again. -/
theorem C20_exit_send_fails (prog : CallbackId → List Action) (n : Nat) (ui : Ui)
    (rest : List Request) (s : Server)
    (hq : ui.m_requestqueue = Request.exitRequest :: rest)
    (hst : ui.m_status = State.RUNNING) (hsrv : ui.m_server = some s)
    (hconn : s.connected = true) (hfail : s.send.1 = false) :
    exec prog (n + 2) Cmd.requestDrain ui = Except.ok (ui.exitFailed, none) ∧
    ui.exitFailed.m_requestqueue = rest ++ [Request.exitRequest] ∧
    ui.exitFailed.m_server = some s.send.2.close ∧
    s.send.2.close.running = false ∧ s.send.2.close.connected = false ∧
    attempts ui.exitFailed.log = attempts ui.log ++ [Request.exitRequest] ∧
    ui.exitFailed.m_status = State.RUNNING ∧
    (∀ (v : Ui) (t : Server), v.m_status = State.RUNNING → v.m_server = some t →
      t.running = true → t.connected = true →
      exec prog (n + 1) Cmd.exit v =
        (match sub (exec prog n) Cmd.eventLoop
            ((v.addRequest Request.exitRequest).flushTimers true) with
         | Except.ok u => Except.ok (u.signal, none)
         | Except.error f => Except.error f) ∧
      ((v.addRequest Request.exitRequest).flushTimers true).m_requestqueue =
        v.m_requestqueue ++ [Request.exitRequest]) ∧
    (∀ (m : Nat) (v : Ui) (t : Server), v.m_server = some t → t.connected = false →
      exec prog (m + 1) Cmd.requestDrain v = Except.ok (v, none)) ∧
    (∀ (m : Nat) (v : Ui) (t : Server), v.m_server = some t → t.running = false →
      exec prog (m + 1) Cmd.eventLoop v = Except.ok (v, none)) := by
  have hatt : attempt (exec prog (n + 1)) Request.exitRequest ui.popRequest =
      Except.ok (false, ui.popRequest.serverSend.serverClose) := by
    have hs : ui.popRequest.m_server = some s := by simp [Ui.popRequest, hq, hsrv]
    simp [attempt, transportSend, hs, hfail]
  have hstep := requestDrain_step prog (n + 1) ui _ Request.exitRequest rest s false hq hst hsrv
    hconn hatt
  have hsrv2 : ui.exitFailed.m_server = some s.send.2.close := by
    simp [Ui.exitFailed, Ui.pushBack, Ui.serverClose, Ui.serverSend, Ui.popRequest, hq, hsrv]
  have hq2 : ui.exitFailed.m_requestqueue = rest ++ [Request.exitRequest] := by
    simp [Ui.exitFailed, Ui.pushBack, Ui.serverClose, Ui.serverSend, Ui.popRequest, hq]
  have hst2 : ui.exitFailed.m_status = State.RUNNING := by
    simp [Ui.exitFailed, Ui.pushBack, Ui.serverClose, Ui.serverSend, Ui.popRequest, hq, hst]
  refine ⟨?_, hq2, hsrv2, rfl, rfl, ?_, hst2, ?_, ?_, ?_⟩
  · rw [hstep]
    simp only [Bool.false_eq_true, if_false]
    change exec prog (n + 1) Cmd.requestDrain ui.exitFailed = _
    cases hrest : ui.exitFailed.m_requestqueue with
    | nil => simp [exec, body, requestDrainBody, hrest, done]
    | cons r q =>
      simp [exec, body, requestDrainBody, hrest, hst2, hsrv2, Server.close, done]
  · have h := attempts_popRequest ui Request.exitRequest rest hq
    simpa [Ui.exitFailed, Ui.pushBack, Ui.serverClose, Ui.serverSend] using h
  · intro v t hv ht hr hc
    refine ⟨?_, ?_⟩
    · simp [exec, body, exitBody, hv, ht, hr, hc, done]
    · simp [flushTimers_eq, Ui.addRequest]
  · intro m v t hv hc
    cases hrest : v.m_requestqueue with
    | nil => simp [exec, body, requestDrainBody, hrest, done]
    | cons r q =>
      by_cases hrn : v.m_status = State.RUNNING
      · simp [exec, body, requestDrainBody, hrest, hrn, hv, hc, done]
      · simp [exec, body, requestDrainBody, hrest, hrn, done]
  · intro m v t hv hr
    simp [exec, body, eventLoopBody, hv, hr, done]

/-- C20 on the session `c20Session` after `exit()` has queued the exit request:
the drain attempts it once, closes the transport and puts it back. -/
theorem C20_exit_send_fails_witness :
    (c20Session.addRequest Request.exitRequest).m_requestqueue = [Request.exitRequest] ∧
    brokenServer.send.1 = false ∧
    exec noProg 2 Cmd.requestDrain (c20Session.addRequest Request.exitRequest) =
      Except.ok ((c20Session.addRequest Request.exitRequest).exitFailed, none) ∧
    (c20Session.addRequest Request.exitRequest).exitFailed.m_requestqueue =
      [Request.exitRequest] :=
  ⟨rfl, rfl,
   (C20_exit_send_fails noProg 0 (c20Session.addRequest Request.exitRequest) [] brokenServer
      rfl rfl rfl rfl rfl).1,
   rfl⟩

/-! ### C21, C23 and C24: the response check, `PENDING`, query answers -/

/-- A pass of the loop up to its request drain: the pass is not ended by the
state, the due-timer drain returns `u2` and the on-open step `u3`. -/
theorem eventLoop_pass_open (self : Cmd → Ui → Res) (ui u0 u1 u2 u3 : Ui) (srv : Server)
    (hsrv : ui.m_server = some srv) (hrun : srv.running = true)
    (hpoll : poll self ui = Except.ok u0)
    (hwait : (if u0.m_sema.count = 0 then sub self Cmd.wait u0 else Except.ok u0) = Except.ok u1)
    (h1 : u1.m_status ≠ State.EXIT) (h2 : u1.m_status ≠ State.RETRY)
    (h3 : u1.m_status ≠ State.CLOSE)
    (hdrain : sub self Cmd.timerDrain
      (if u1.m_status = State.RELOAD then u1.reloadStep else u1) = Except.ok u2)
    (hp : u2.m_status ≠ State.PENDING) (hopen : onOpenStep u2 = Except.ok u3) :
    eventLoopBody self ui = restOfPass self u3 := by
  unfold onOpenStep at hopen
  simp only [eventLoopBody, restOfPass, hsrv, hrun, hpoll, hwait, h1, h2, h3, hdrain, hp, hopen,
    if_false, Bool.true_eq_false]

/-- C21: a pass of `Ui::eventLoop` whose request drain returns the session `u4`
with a non-empty pending-response table returns `u4` at once: the
inbound-event drain is not entered, so the inbound-event queue and the trace
of dispatched events are those of `u4`. -/
theorem C21_response_check (prog : CallbackId → List Action) (n : Nat)
    (ui u0 u1 u2 u3 u4 : Ui) (srv : Server)
    (hsrv : ui.m_server = some srv) (hrun : srv.running = true)
    (hpoll : poll (exec prog n) ui = Except.ok u0)
    (hwait : (if u0.m_sema.count = 0 then sub (exec prog n) Cmd.wait u0 else Except.ok u0) =
      Except.ok u1)
    (h1 : u1.m_status ≠ State.EXIT) (h2 : u1.m_status ≠ State.RETRY)
    (h3 : u1.m_status ≠ State.CLOSE)
    (hdrain : sub (exec prog n) Cmd.timerDrain
      (if u1.m_status = State.RELOAD then u1.reloadStep else u1) = Except.ok u2)
    (hp : u2.m_status ≠ State.PENDING) (hopen : onOpenStep u2 = Except.ok u3)
    (hreq : sub (exec prog n) Cmd.requestDrain u3 = Except.ok u4)
    (hne : u4.m_responsemap ≠ []) :
    exec prog (n + 1) Cmd.eventLoop ui = Except.ok (u4, none) := by
  have h := eventLoop_pass_open (exec prog n) ui u0 u1 u2 u3 srv hsrv hrun hpoll hwait h1 h2 h3
    hdrain hp hopen
  change eventLoopBody (exec prog n) ui = _
  rw [h]
  simp [restOfPass, hreq, hne, done]

/-- C21 on a session with an untaken answer and a click waiting for its
handler: the loop returns the session as it found it, the click still queued
and nothing dispatched. -/
theorem C21_response_check_witness :
    c21Session.m_eventqueue = [{ element := "button", handler := "click", data := [] }] ∧
    c21Session.handlerOf { element := "button", handler := "click", data := [] } = some 5 ∧
    exec noProg 2 Cmd.eventLoop c21Session = Except.ok (c21Session, none) :=
  ⟨rfl, rfl,
   C21_response_check noProg 1 c21Session c21Session c21Session c21Session c21Session c21Session
     liveServer rfl rfl rfl rfl (by decide) (by decide) (by decide) rfl (by decide) rfl rfl
     (by decide)⟩

/-- C23: a pass of `Ui::eventLoop` in which the state is `PENDING` after the
due-timer drain goes straight to the next pass, which starts with the session
`u2` that the drain left: the on-open slot, the outbound queue, the
inbound-event queue and the trace are untouched by the rest of the pass. -/
theorem C23_pending_pass (prog : CallbackId → List Action) (n : Nat)
    (ui u0 u1 u2 : Ui) (srv : Server)
    (hsrv : ui.m_server = some srv) (hrun : srv.running = true)
    (hpoll : poll (exec prog n) ui = Except.ok u0)
    (hwait : (if u0.m_sema.count = 0 then sub (exec prog n) Cmd.wait u0 else Except.ok u0) =
      Except.ok u1)
    (h1 : u1.m_status ≠ State.EXIT) (h2 : u1.m_status ≠ State.RETRY)
    (h3 : u1.m_status ≠ State.CLOSE)
    (hdrain : sub (exec prog n) Cmd.timerDrain
      (if u1.m_status = State.RELOAD then u1.reloadStep else u1) = Except.ok u2)
    (hp : u2.m_status = State.PENDING) :
    exec prog (n + 1) Cmd.eventLoop ui = exec prog n Cmd.eventLoop u2 := by
  change eventLoopBody (exec prog n) ui = _
  simp [eventLoopBody, hsrv, hrun, hpoll, hwait, h1, h2, h3, hdrain, hp]

/-- C23 on a session in state `PENDING` with a registered on-open function, a
queued request and a queued click: the pass hands the session on as it is. -/
theorem C23_pending_pass_witness :
    c23Session.m_onOpen = some 0 ∧ c23Session.m_requestqueue = [Request.closeRequest] ∧
    c23Session.m_eventqueue = [{ element := "button", handler := "click", data := [] }] ∧
    exec noProg 2 Cmd.eventLoop c23Session = exec noProg 1 Cmd.eventLoop c23Session :=
  ⟨rfl, rfl, rfl,
   C23_pending_pass noProg 1 c23Session c23Session c23Session c23Session liveServer rfl rfl rfl
     rfl (by decide) (by decide) (by decide) rfl rfl⟩

theorem find_map_assign_ne {β : Type} (k j : String) (v : β) (m : List (String × β))
    (hj : j ≠ k) :
    find j (m.map (fun p => if p.1 = k then (k, v) else p)) = find j m := by
  induction m with
  | nil => rfl
  | cons p m ih =>
    obtain ⟨a, b⟩ := p
    by_cases h : a = k
    · subst h
      rw [List.map_cons, if_pos rfl, find_cons_ne j a v _ (fun e => hj e.symm),
        find_cons_ne j a b _ (fun e => hj e.symm)]
      exact ih
    · rw [List.map_cons, if_neg h]
      by_cases h2 : a = j
      · subst h2
        rw [find_cons_eq, find_cons_eq]
      · rw [find_cons_ne j a b _ h2, find_cons_ne j a b _ h2]
        exact ih

theorem find_append_singleton_ne {β : Type} (k j : String) (v : β) (m : List (String × β))
    (hj : j ≠ k) : find j (m ++ [(k, v)]) = find j m := by
  induction m with
  | nil => exact find_cons_ne j k v [] (fun e => hj e.symm)
  | cons p m ih =>
    obtain ⟨a, b⟩ := p
    by_cases h2 : a = j
    · subst h2
      rw [List.cons_append, find_cons_eq, find_cons_eq]
    · rw [List.cons_append, find_cons_ne j a b _ h2, find_cons_ne j a b _ h2]
      exact ih

theorem find_insert_or_assign_ne {β : Type} (k j : String) (v : β) (m : List (String × β))
    (hj : j ≠ k) : find j (insert_or_assign k v m) = find j m := by
  unfold insert_or_assign
  split
  · exact find_map_assign_ne k j v m hj
  · exact find_append_singleton_ne k j v m hj

/-- C24: for a message of type `query` whose fields `query_id` and
`query_value` hold the strings `i` and `k` and whose field `k` holds `v`, the
message handler completes; afterwards the pending-response table holds `v`
under `i` and what it held under every other id, the state and the
inbound-event queue are unchanged, and the loop has one more signal. -/
theorem C24_query_message (onError : CallbackId → Ui → Except Fault Ui) (ui : Ui)
    (params : Object) (i k : String) (v : Value)
    (ht : find "type" params = some (Value.str "query"))
    (hi : find "query_id" params = some (Value.str i))
    (hk : find "query_value" params = some (Value.str k))
    (hv : find k params = some v) :
    ui.messageHandler onError params = Except.ok (ui.pushResponse i v).signal ∧
    find i (ui.pushResponse i v).signal.m_responsemap = some v ∧
    (∀ j, j ≠ i → find j (ui.pushResponse i v).signal.m_responsemap = find j ui.m_responsemap) ∧
    (ui.pushResponse i v).signal.m_status = ui.m_status ∧
    (ui.pushResponse i v).signal.m_eventqueue = ui.m_eventqueue ∧
    (ui.pushResponse i v).signal.m_sema.count = ui.m_sema.count + 1 := by
  refine ⟨?_, ?_, ?_, rfl, rfl, rfl⟩
  · simp [Ui.messageHandler, ht, anyCastString, Ui.onQueryMessage, at_, hi, hk, hv, Except.bind,
      Ui.signal]
  · exact find_insert_or_assign_self i v ui.m_responsemap
  · intro j hj
    exact find_insert_or_assign_ne i j v ui.m_responsemap hj

/-- C24 on the answer to query `3`: the value of `width` is stored under `3`. -/
theorem C24_query_message_witness :
    c13Session.messageHandler noError c24Answer =
      Except.ok (c13Session.pushResponse "3" (Value.num 640)).signal ∧
    find "3" (c13Session.pushResponse "3" (Value.num 640)).signal.m_responsemap =
      some (Value.num 640) :=
  ⟨(C24_query_message noError c13Session c24Answer "3" "width" (Value.num 640) rfl rfl rfl rfl).1,
   (C24_query_message noError c13Session c24Answer "3" "width" (Value.num 640) rfl rfl rfl
     rfl).2.1⟩

/-! ### C22: the inbound-event drain -/

theorem prim_eventqueue (p : Prim) (a : Ui) (hp : p ≠ Prim.takeEvent) :
    ∃ new, (p.apply a).m_eventqueue = a.m_eventqueue ++ new := by
  have h : a.m_eventqueue <+: (p.apply a).m_eventqueue := by
    cases p <;> simp only [Prim.apply]
    all_goals first
      | contradiction
      | (simp only [Ui.openHandler, Ui.closeHandler, Ui.pendingClose, Ui.setTransport, Ui.elapse,
            flushTimers_eq, Ui.dropBatch, Ui.waitDone, Ui.pushEvent, Ui.pushResponse,
            Ui.signal, Ui.note, Ui.enter, Ui.after, Ui.startPeriodic, Ui.cancelTimer, Ui.onOpen,
            Ui.onReload, Ui.pendingCheck, Ui.serverSend, Ui.serverClose, Ui.serverRetry,
            Ui.serverQueryId, Ui.holdTimers, Ui.setExit, Ui.setStatus, Ui.takeResponse,
            Ui.close, Ui.send, Ui.beginBatch, Ui.endBatch, Ui.extensionCall, Ui.addRequest,
            Ui.popTimer, Ui.popRequest, Ui.fireTimer, Ui.pushBack, Ui.reloadStep, Ui.openStep]
         repeat' split
         all_goals simp)
  obtain ⟨new, hn⟩ := h
  exact ⟨new, hn.symm⟩

theorem prim_taken (p : Prim) (a : Ui) (hp : p ≠ Prim.takeEvent) :
    taken (p.apply a).log = taken a.log := by
  cases p <;> simp only [Prim.apply]
  all_goals first
    | contradiction
    | (simp only [Ui.openHandler, Ui.closeHandler, Ui.pendingClose, Ui.setTransport, Ui.elapse,
          flushTimers_eq, Ui.dropBatch, Ui.waitDone, Ui.pushEvent, Ui.pushResponse,
          Ui.signal, Ui.note, Ui.enter, Ui.after, Ui.startPeriodic, Ui.cancelTimer, Ui.onOpen,
          Ui.onReload, Ui.pendingCheck, Ui.serverSend, Ui.serverClose, Ui.serverRetry,
          Ui.serverQueryId, Ui.holdTimers, Ui.setExit, Ui.setStatus, Ui.takeResponse,
          Ui.close, Ui.send, Ui.beginBatch, Ui.endBatch, Ui.extensionCall, Ui.addRequest,
          Ui.popTimer, Ui.popRequest, Ui.fireTimer, Ui.pushBack, Ui.reloadStep, Ui.openStep]
       repeat' split
       all_goals simp [taken])

theorem eventFifo_refl (a : Ui) : EventFifo a a := ⟨[], [], by simp, by simp⟩

theorem eventFifo_trans (a b c : Ui) (h1 : EventFifo a b) (h2 : EventFifo b c) :
    EventFifo a c := by
  obtain ⟨A1, n1, hl1, hq1⟩ := h1
  obtain ⟨A2, n2, hl2, hq2⟩ := h2
  refine ⟨A1 ++ A2, n1 ++ n2, by rw [hl2, hl1, List.append_assoc], ?_⟩
  rw [List.append_assoc, hq2, ← List.append_assoc, hq1, List.append_assoc]

theorem taken_takeEvent (a : Ui) (it : InternalEvent) (rest : List InternalEvent)
    (hq : a.m_eventqueue = it :: rest) :
    taken a.takeEvent.log = taken a.log ++ [it] ∧ a.takeEvent.m_eventqueue = rest := by
  refine ⟨?_, by simp [Ui.takeEvent, hq]⟩
  simp only [Ui.takeEvent, hq]
  cases a.handlerOf it <;> simp [taken]

theorem eventFifo_prim (p : Prim) (a : Ui) : EventFifo a (p.apply a) := by
  by_cases hp : p = Prim.takeEvent
  · subst hp
    cases hq : a.m_eventqueue with
    | nil =>
      exact ⟨[], [], by simp [Prim.apply, Ui.takeEvent, hq], by simp [Prim.apply, Ui.takeEvent, hq]⟩
    | cons it rest =>
      obtain ⟨h1, h2⟩ := taken_takeEvent a it rest hq
      exact ⟨[it], [], by simpa [Prim.apply] using h1, by simp [Prim.apply, h2, hq]⟩
  · obtain ⟨new, hn⟩ := prim_eventqueue p a hp
    exact ⟨[], new, by simp [prim_taken p a hp], by simp [hn]⟩

theorem chain_eventFifo {a b : Ui} (h : Chain a b) : EventFifo a b := by
  induction h with
  | refl => exact eventFifo_refl a
  | tail _ hstep ih =>
    obtain ⟨p, rfl⟩ := hstep
    exact eventFifo_trans _ _ _ ih (eventFifo_prim p _)

/-- C22: the inbound-event drain of `Ui::eventLoop`.  (1) In a state other than
`RUNNING` the drain returns at once and takes nothing.  (2) In state `RUNNING`
the drain takes the event `it` at the front of the queue; when a handler `h`
is subscribed for the element and the event name of `it`, the trace records
the delivery of `it`, with its element and payload, to `h`, the host code `h`
is called, and the drain goes on with the session that call left.  (3) When
the element has no subscriptions or none for the event name, the event is
taken and dropped, no host code is called, and the drain goes on.  (4) The
handler is the one found under the event name among the subscriptions found
under the element id.  (5) In every run the inbound-event queue is
first-in-first-out: the events taken, followed by the queue at the end, are
the queue at the start followed by the events that arrived. -/
theorem C22_event_drain (prog : CallbackId → List Action) :
    (∀ (n : Nat) (ui : Ui), ui.m_status ≠ State.RUNNING →
      exec prog (n + 1) Cmd.eventDrain ui = Except.ok (ui, none)) ∧
    (∀ (n : Nat) (ui : Ui) (it : InternalEvent) (rest : List InternalEvent) (h : CallbackId),
      ui.m_eventqueue = it :: rest → ui.m_status = State.RUNNING → ui.handlerOf it = some h →
      exec prog (n + 1) Cmd.eventDrain ui =
        (match sub (exec prog n) (Cmd.call h) ui.takeEvent with
         | Except.ok u => exec prog n Cmd.eventDrain u
         | Except.error f => Except.error f) ∧
      ui.takeEvent.m_eventqueue = rest ∧
      ui.takeEvent.log = ui.log ++ [Obs.dispatch it h] ∧
      exec prog (n + 1) (Cmd.call h) ui.takeEvent =
        (match runActions (exec prog n) (prog h) (ui.takeEvent.enter h) with
         | Except.ok u => Except.ok (u, none)
         | Except.error f => Except.error f)) ∧
    (∀ (n : Nat) (ui : Ui) (it : InternalEvent) (rest : List InternalEvent),
      ui.m_eventqueue = it :: rest → ui.m_status = State.RUNNING → ui.handlerOf it = none →
      exec prog (n + 1) Cmd.eventDrain ui = exec prog n Cmd.eventDrain ui.takeEvent ∧
      ui.takeEvent.m_eventqueue = rest ∧
      ui.takeEvent.log = ui.log ++ [Obs.dropped it]) ∧
    (∀ (ui : Ui) (it : InternalEvent) (h : CallbackId),
      ui.handlerOf it = some h ↔
        ∃ handlers, find it.element ui.m_elements = some handlers ∧
          find it.handler handlers = some h) ∧
    (∀ (n : Nat) (c : Cmd) (ui : Ui) (r : Ui × Option Value), c.inner = true →
      exec prog n c ui = Except.ok r → EventFifo ui r.1) := by
  refine ⟨?_, ?_, ?_, ?_, ?_⟩
  · intro n ui hst
    cases hq : ui.m_eventqueue with
    | nil => simp [exec, body, eventDrainBody, hq, done]
    | cons it rest => simp [exec, body, eventDrainBody, hq, hst, done]
  · intro n ui it rest h hq hst hh
    refine ⟨?_, by simp [Ui.takeEvent, hq], by simp [Ui.takeEvent, hq, hh], ?_⟩
    · simp [exec, body, eventDrainBody, hq, hst, hh]
    · simp only [exec, body, callBody, done]
  · intro n ui it rest hq hst hh
    refine ⟨?_, by simp [Ui.takeEvent, hq], by simp [Ui.takeEvent, hq, hh]⟩
    simp [exec, body, eventDrainBody, hq, hst, hh]
  · intro ui it h
    unfold Ui.handlerOf
    cases find it.element ui.m_elements <;> simp [Option.bind]
  · intro n c ui r hc h
    exact chain_eventFifo (exec_chain prog n c ui r h hc)

/-- C22 on a session with three queued events of which only the second has a
handler: the drain drops the first, delivers the second to its handler, drops
the third, in this order, and calls no other host code. -/
theorem C22_event_drain_witness :
    c22Session.m_eventqueue = [c22Key, c22Click, c22Other] ∧
    exec c22Prog 6 Cmd.eventDrain c22Session =
      exec c22Prog 5 Cmd.eventDrain c22Session.takeEvent ∧
    taken (logOf (exec c22Prog 6 Cmd.eventDrain c22Session)) = [c22Key, c22Click, c22Other] ∧
    logOf (exec c22Prog 6 Cmd.eventDrain c22Session) =
      [Obs.dropped c22Key, Obs.dispatch c22Click 5, Obs.call 5, Obs.note 'c',
       Obs.dropped c22Other] :=
  ⟨rfl, ((C22_event_drain c22Prog).2.2.1 5 c22Session c22Key [c22Click, c22Other] rfl rfl rfl).1,
   rfl, rfl⟩

/-! ### C25: the on-open request is queued last -/

/-- C25, counterexample: a pass of the loop on a session with one request
queued and the on-open function registered.  The on-open step puts the
on-open request behind the queued one, and the drain attempts the queued
request first and the on-open request second. -/
theorem C25_on_open_runs_last_counterexample :
    c25Session.m_requestqueue = [Request.sendParams [("element", ""), ("type", "early")]] ∧
    c25Session.m_onOpen = some 0 ∧
    (c25Session.openStep 0).m_requestqueue =
      [Request.sendParams [("element", ""), ("type", "early")], Request.onOpen 0] ∧
    logOf (exec c25Prog 6 Cmd.requestDrain (c25Session.openStep 0)) =
      [Obs.attempt (Request.sendParams [("element", ""), ("type", "early")]),
       Obs.attempt (Request.onOpen 0), Obs.call 0, Obs.note 'm'] :=
  ⟨rfl, rfl, rfl, rfl⟩

/-- C25, amended: the on-open step of the loop puts the on-open request at the
tail of the outbound queue, behind every request `q` that was queued before.
In whatever runs afterwards the requests are attempted in queue order: at any
later moment either only requests of `q` have been attempted so far (on-open
has not run yet), or all of `q` has been attempted and then the on-open
request. -/
theorem C25_on_open_queued_last (prog : CallbackId → List Action) (u2 : Ui)
    (fptr : CallbackId) (q : List Request) (hq : u2.m_requestqueue = q) :
    (u2.openStep fptr).m_requestqueue = q ++ [Request.onOpen fptr] ∧
    attempts (u2.openStep fptr).log = attempts u2.log ∧
    ∀ (m : Nat) (c : Cmd) (res : Ui × Option Value), c.inner = true →
      exec prog m c (u2.openStep fptr) = Except.ok res →
      ∃ A new, attempts res.1.log = attempts u2.log ++ A ∧
        A ++ res.1.m_requestqueue = q ++ [Request.onOpen fptr] ++ new ∧
        (A <+: q ∨ q ++ [Request.onOpen fptr] <+: A) := by
  have hq2 : (u2.openStep fptr).m_requestqueue = q ++ [Request.onOpen fptr] := by
    simp [Ui.openStep, Ui.onOpen, Ui.addRequest, Ui.holdTimers, hq]
  have hl2 : attempts (u2.openStep fptr).log = attempts u2.log := by
    simp [Ui.openStep, Ui.onOpen, Ui.addRequest, Ui.holdTimers]
  refine ⟨hq2, hl2, ?_⟩
  intro m c res hc hres
  obtain ⟨A, new, hA, hQ⟩ := chain_requestFifo (exec_chain prog m c _ res hres hc)
  rw [hl2] at hA
  rw [hq2] at hQ
  refine ⟨A, new, hA, hQ, ?_⟩
  have h1 : A <+: q ++ [Request.onOpen fptr] ++ new := ⟨_, hQ⟩
  have h2 : q ++ [Request.onOpen fptr] <+: q ++ [Request.onOpen fptr] ++ new :=
    List.prefix_append _ _
  rcases List.prefix_or_prefix_of_prefix h1 h2 with h3 | h3
  · rcases List.prefix_concat_iff.mp h3 with h4 | h4
    · right; rw [h4]
    · left; exact h4
  · right; exact h3

/-- C25 on a session with one request queued before the on-open step: the
on-open request is queued behind it. -/
theorem C25_on_open_queued_last_witness :
    (c25Session.openStep 0).m_requestqueue =
      [Request.sendParams [("element", ""), ("type", "early")]] ++ [Request.onOpen 0] :=
  (C25_on_open_queued_last c25Prog c25Session 0
    [Request.sendParams [("element", ""), ("type", "early")]] rfl).1

/-! ### C26: termination of the outbound-request drain -/

theorem attempt_isSend (self : Cmd → Ui → Res) (r : Request) (u : Ui) (s : Server)
    (hr : r.isSend = true) (hs : u.m_server = some s) :
    attempt self r u = Except.ok (s.send.1, u.serverSend) := by
  cases r <;> simp [Request.isSend] at hr <;> simp [attempt, transportSend, hs]

theorem drain_stuck (prog : CallbackId → List Action) (s : Server) (hc : s.connected = true)
    (hscript : s.sendScript = []) (hdef : s.sendDefault = false) :
    ∀ (n : Nat) (u : Ui), u.m_status = State.RUNNING → u.m_server = some s →
      (∀ r ∈ u.m_requestqueue, r.isSend = true) → u.m_requestqueue ≠ [] →
      exec prog n Cmd.requestDrain u = Except.error Fault.outOfFuel := by
  have hsend : s.send = (false, s) := by simp [Server.send, hscript, hdef]
  intro n
  induction n with
  | zero => intro u _ _ _ _; rfl
  | succ n ih =>
    intro u hst hsrv hall hne
    cases hq : u.m_requestqueue with
    | nil => exact absurd hq hne
    | cons r rest =>
      have hr : r.isSend = true := hall r (by rw [hq]; exact List.mem_cons_self _ _)
      have hpsrv : u.popRequest.m_server = some s := by simp [Ui.popRequest, hq, hsrv]
      have hatt : attempt (exec prog n) r u.popRequest =
          Except.ok (false, u.popRequest.serverSend) := by
        rw [attempt_isSend _ r _ s hr hpsrv, hsend]
      rw [requestDrain_step prog n u _ r rest s false hq hst hsrv hc hatt]
      simp only [Bool.false_eq_true, if_false]
      apply ih
      · simp [Ui.pushBack, Ui.serverSend, Ui.popRequest, hq, hst]
      · simp [Ui.pushBack, Ui.serverSend, Ui.popRequest, hq, hsrv, hsend]
      · intro x hx
        have hx2 : x ∈ rest ++ [r] := by
          simpa [Ui.pushBack, Ui.serverSend, Ui.popRequest, hq] using hx
        rcases List.mem_append.mp hx2 with h | h
        · exact hall x (by rw [hq]; exact List.mem_cons_of_mem _ h)
        · rw [List.mem_singleton.mp h]; exact hr
      · simp [Ui.pushBack, Ui.serverSend, Ui.popRequest, hq]

theorem drain_finishes (prog : CallbackId → List Action) :
    ∀ (n : Nat) (u : Ui) (s : Server), u.m_status = State.RUNNING → u.m_server = some s →
      s.connected = true → s.sendDefault = true →
      (∀ r ∈ u.m_requestqueue, r.isSend = true) →
      u.m_requestqueue.length + s.sendScript.length ≤ n →
      ∃ v, exec prog (n + 1) Cmd.requestDrain u = Except.ok (v, none) ∧
        v.m_requestqueue = [] ∧ v.m_status = State.RUNNING := by
  intro n
  induction n with
  | zero =>
    intro u s hst hsrv hc hdef hall hlen
    have hq : u.m_requestqueue = [] := List.length_eq_zero.mp (by omega)
    exact ⟨u, by simp [exec, body, requestDrainBody, hq, done], hq, hst⟩
  | succ n ih =>
    intro u s hst hsrv hc hdef hall hlen
    cases hq : u.m_requestqueue with
    | nil => exact ⟨u, by simp [exec, body, requestDrainBody, hq, done], hq, hst⟩
    | cons r rest =>
      have hr : r.isSend = true := hall r (by rw [hq]; exact List.mem_cons_self _ _)
      have hpsrv : u.popRequest.m_server = some s := by simp [Ui.popRequest, hq, hsrv]
      have hatt : attempt (exec prog (n + 1)) r u.popRequest =
          Except.ok (s.send.1, u.popRequest.serverSend) := attempt_isSend _ r _ s hr hpsrv
      rw [requestDrain_step prog (n + 1) u _ r rest s s.send.1 hq hst hsrv hc hatt]
      rw [hq, List.length_cons] at hlen
      have hconn2 : s.send.2.connected = true := by
        unfold Server.send; split <;> simp [hc]
      have hdef2 : s.send.2.sendDefault = true := by
        unfold Server.send; split <;> simp [hdef]
      have hallrest : ∀ x ∈ rest, x.isSend = true := fun x hx =>
        hall x (by rw [hq]; exact List.mem_cons_of_mem _ hx)
      cases hb : s.send.1 with
      | true =>
        simp only [if_true]
        apply ih _ s.send.2
        · simp [Ui.serverSend, Ui.popRequest, hq, hst]
        · simp [Ui.serverSend, Ui.popRequest, hq, hsrv]
        · exact hconn2
        · exact hdef2
        · intro x hx
          exact hallrest x (by simpa [Ui.serverSend, Ui.popRequest, hq] using hx)
        · have h1 : (u.popRequest.serverSend).m_requestqueue = rest := by
            simp [Ui.serverSend, Ui.popRequest, hq]
          have h2 : s.send.2.sendScript.length ≤ s.sendScript.length := by
            unfold Server.send; split <;> simp_all
          rw [h1]; omega
      | false =>
        simp only [Bool.false_eq_true, if_false]
        apply ih _ s.send.2
        · simp [Ui.pushBack, Ui.serverSend, Ui.popRequest, hq, hst]
        · simp [Ui.pushBack, Ui.serverSend, Ui.popRequest, hq, hsrv]
        · exact hconn2
        · exact hdef2
        · intro x hx
          have hx2 : x ∈ rest ++ [r] := by
            simpa [Ui.pushBack, Ui.serverSend, Ui.popRequest, hq] using hx
          rcases List.mem_append.mp hx2 with h | h
          · exact hallrest x h
          · rw [List.mem_singleton.mp h]; exact hr
        · have h1 : ((u.popRequest.serverSend).pushBack r).m_requestqueue = rest ++ [r] := by
            simp [Ui.pushBack, Ui.serverSend, Ui.popRequest, hq]
          have h2 : s.send.2.sendScript.length + 1 = s.sendScript.length := by
            unfold Server.send at hb ⊢
            split at hb
            · simp [hdef] at hb
            · next b bs hbs => simp [hbs]
          rw [h1, List.length_append, List.length_singleton]; omega

theorem drain_result (prog : CallbackId → List Action) :
    ∀ (n : Nat) (u : Ui) (r : Ui × Option Value),
      exec prog n Cmd.requestDrain u = Except.ok r →
      r.1.m_requestqueue = [] ∨ r.1.m_status ≠ State.RUNNING ∨
        ∃ s, r.1.m_server = some s ∧ s.connected = false := by
  intro n
  induction n with
  | zero => intro u r h; cases h
  | succ n ih =>
    intro u r h
    simp only [exec, body, requestDrainBody, done] at h
    split at h
    · next hq => cases h; exact Or.inl hq
    · split at h
      · split at h
        · cases h
        · next s hs =>
          split at h
          · split at h
            · exact ih _ _ h
            · exact ih _ _ h
            · cases h
          · next hc => cases h; exact Or.inr (Or.inr ⟨s, hs, by simpa using hc⟩)
      · next hst => cases h; exact Or.inr (Or.inl hst)

/-- C26, counterexample: one queued send on a running session whose transport
is connected and refuses every send.  One round of the drain takes the
request, fails and puts it back, which leaves the session as it was but for
the trace; the drain does not return, whatever the fuel. -/
theorem C26_drain_spins_counterexample :
    c26Session.m_status = State.RUNNING ∧ c26Session.m_server = some brokenServer ∧
    brokenServer.connected = true ∧
    c26Session.m_requestqueue = [Request.sendParams [("element", ""), ("type", "nil")]] ∧
    c26Session.popRequest.serverSend.pushBack
        (Request.sendParams [("element", ""), ("type", "nil")]) =
      { c26Session with
        log := [Obs.attempt (Request.sendParams [("element", ""), ("type", "nil")])] } ∧
    ∀ n : Nat, exec noProg n Cmd.requestDrain c26Session = Except.error Fault.outOfFuel :=
  ⟨rfl, rfl, rfl, rfl, rfl,
   fun n => drain_stuck noProg brokenServer rfl rfl rfl n c26Session rfl rfl
     (by intro r hr; rw [List.mem_singleton.mp hr]; rfl) (by decide)⟩

/-- C26, amended: the outbound-request drain of one pass.  (1) Whenever the
drain returns, the outbound queue is empty, or the state is not `RUNNING`, or
the transport is not connected.  (2) On a queue of plain sends, in state
`RUNNING` on a connected transport that refuses only finitely many sends (the
sends after its script succeed), the drain returns with the queue empty; the
number of rounds is at most the length of the queue plus the number of
refusals.  (3) On a non-empty queue of plain sends, in state `RUNNING` on a
connected transport that refuses every send, the drain does not return. -/
theorem C26_request_drain (prog : CallbackId → List Action) (ui : Ui) (s : Server)
    (hst : ui.m_status = State.RUNNING) (hsrv : ui.m_server = some s)
    (hc : s.connected = true) (hall : ∀ r ∈ ui.m_requestqueue, r.isSend = true) :
    (∀ (n : Nat) (u : Ui) (r : Ui × Option Value),
      exec prog n Cmd.requestDrain u = Except.ok r →
      r.1.m_requestqueue = [] ∨ r.1.m_status ≠ State.RUNNING ∨
        ∃ t, r.1.m_server = some t ∧ t.connected = false) ∧
    (s.sendDefault = true →
      ∀ n, ui.m_requestqueue.length + s.sendScript.length ≤ n →
        ∃ v, exec prog (n + 1) Cmd.requestDrain ui = Except.ok (v, none) ∧
          v.m_requestqueue = [] ∧ v.m_status = State.RUNNING) ∧
    (s.sendScript = [] → s.sendDefault = false → ui.m_requestqueue ≠ [] →
      ∀ n, exec prog n Cmd.requestDrain ui = Except.error Fault.outOfFuel) := by
  refine ⟨drain_result prog, ?_, ?_⟩
  · intro hdef n hlen
    exact drain_finishes prog n ui s hst hsrv hc hdef hall hlen
  · intro hscript hdef hne n
    exact drain_stuck prog s hc hscript hdef n ui hst hsrv hall hne

/-- C26 on a session with two queued sends whose transport refuses the first
two: the drain returns with the queue empty after four attempts. -/
theorem C26_request_drain_witness :
    (∃ v, exec noProg 5 Cmd.requestDrain c26Slow = Except.ok (v, none) ∧
      v.m_requestqueue = [] ∧ v.m_status = State.RUNNING) ∧
    attempts (logOf (exec noProg 5 Cmd.requestDrain c26Slow)) =
      [Request.sendParams [("element", ""), ("type", "nil")], Request.closeRequest,
       Request.sendParams [("element", ""), ("type", "nil")], Request.closeRequest] :=
  ⟨(C26_request_drain noProg c26Slow slowServer rfl rfl rfl
      (by intro r hr; simp [c26Slow] at hr; rcases hr with h | h <;> rw [h] <;> rfl)).2.1 rfl 4
      (by decide),
   rfl⟩

/-! ### C27 and C28: adding files to the resource map -/

/-- C27: `Ui::addFile(url, file)`.  When the file does not exist, or when `url`
is a key of the resource map, the call returns false and leaves the session
as it is.  Otherwise it returns true and the session differs only in the
resource map, which has one more entry, the encoded content of the file under
the key `url` as given; every other key holds what it held. -/
theorem C27_addFile (codec : Base64) (fs : FileSystem) (ui : Ui) (url file : String) :
    (fs file = none → ui.addFile codec fs url file = (false, ui)) ∧
    (∀ e, find url ui.m_filemap = some e → ui.addFile codec fs url file = (false, ui)) ∧
    (∀ data, fs file = some data → find url ui.m_filemap = none →
      ui.addFile codec fs url file =
        (true, { ui with m_filemap := ui.m_filemap ++ [(url, codec.encode data)] }) ∧
      find url (ui.addFile codec fs url file).2.m_filemap = some (codec.encode data) ∧
      ∀ k, k ≠ url → find k (ui.addFile codec fs url file).2.m_filemap = find k ui.m_filemap) := by
  refine ⟨?_, ?_, ?_⟩
  · intro h
    simp [Ui.addFile, h]
  · intro e h
    cases hf : fs file <;> simp [Ui.addFile, hf, h]
  · intro data hf hu
    have h : ui.addFile codec fs url file =
        (true, { ui with m_filemap := ui.m_filemap ++ [(url, codec.encode data)] }) := by
      simp [Ui.addFile, hf, hu, insert_or_assign]
    refine ⟨h, ?_, ?_⟩
    · rw [h]
      exact find_append_singleton url _ _ hu
    · intro k hk
      rw [h]
      exact find_append_singleton_ne url k _ _ hk

/-- C27 on an empty resource map: the file is stored under the key as given,
and a second call with the same key is refused and changes nothing. -/
theorem C27_addFile_witness :
    (c3Session.addFile plainCodec c6Files "test_data" "/tmp/test_data").2.m_filemap =
      [("test_data", plainCodec.encode [104, 105])] ∧
    (c3Session.addFile plainCodec c6Files "test_data" "/tmp/test_data").2.addFile plainCodec
        c28Files "test_data" "/tmp/test_data" =
      (false, (c3Session.addFile plainCodec c6Files "test_data" "/tmp/test_data").2) :=
  ⟨congrArg (fun p => p.2.m_filemap)
     ((C27_addFile plainCodec c6Files c3Session "test_data" "/tmp/test_data").2.2 [104, 105] rfl
       rfl).1,
   rfl⟩

theorem slash_append_ne (x : String) : x ≠ "/" ++ x := by
  intro h
  have h2 := congrArg String.length h
  rw [String.length_append] at h2
  have h3 : "/".length = 1 := rfl
  omega

theorem addFile_fresh (codec : Base64) (fs : FileSystem) (map : List (String × String))
    (file : String) (data : List UInt8) (hfile : fs file = some data)
    (hraw : find (substitute file slashClass '_') map = none) :
    addFile codec fs map file =
      (some ("/" ++ substitute file slashClass '_'),
       insert_or_assign ("/" ++ substitute file slashClass '_') (codec.encode data) map) := by
  simp [addFile, hfile, hraw]

/-- C28: the static `Ui::addFile(map, file)` overwrites.  The guard looks up
the substituted name before the `/` is put in front, while the entry is
stored under the name with the `/`.  For an existing file whose substituted
name is not a key, the call returns the url and stores the encoded content
under it, whether or not the url was a key before; every other key holds what
it held.  The substituted name is still not a key afterwards, so adding the
same file again returns the same url again and replaces the entry. -/
theorem C28_static_addFile_overwrites (codec : Base64) (fs : FileSystem)
    (map : List (String × String)) (file : String) (data : List UInt8)
    (hfile : fs file = some data) (hraw : find (substitute file slashClass '_') map = none) :
    (addFile codec fs map file).1 = some ("/" ++ substitute file slashClass '_') ∧
    find ("/" ++ substitute file slashClass '_') (addFile codec fs map file).2 =
      some (codec.encode data) ∧
    (∀ k, k ≠ "/" ++ substitute file slashClass '_' →
      find k (addFile codec fs map file).2 = find k map) ∧
    find (substitute file slashClass '_') (addFile codec fs map file).2 = none ∧
    (∀ (fs2 : FileSystem) (data2 : List UInt8), fs2 file = some data2 →
      (addFile codec fs2 (addFile codec fs map file).2 file).1 =
        some ("/" ++ substitute file slashClass '_') ∧
      find ("/" ++ substitute file slashClass '_')
          (addFile codec fs2 (addFile codec fs map file).2 file).2 =
        some (codec.encode data2)) := by
  have h := addFile_fresh codec fs map file data hfile hraw
  have hraw2 : find (substitute file slashClass '_') (addFile codec fs map file).2 = none := by
    rw [h]
    show find _ (insert_or_assign _ _ _) = none
    rw [find_insert_or_assign_ne _ _ _ _ (slash_append_ne _)]
    exact hraw
  refine ⟨by rw [h], ?_, ?_, hraw2, ?_⟩
  · rw [h]
    exact find_insert_or_assign_self _ _ _
  · intro k hk
    rw [h]
    exact find_insert_or_assign_ne _ _ _ _ hk
  · intro fs2 data2 hf2
    have h2 := addFile_fresh codec fs2 (addFile codec fs map file).2 file data2 hf2 hraw2
    refine ⟨by rw [h2], ?_⟩
    rw [h2]
    exact find_insert_or_assign_self _ _ _

/-- C28 on an empty map: the same file is added twice, rewritten in between;
both calls return the url `/_tmp_test_data`, and the entry of the first call
is replaced by the second. -/
theorem C28_static_addFile_overwrites_witness :
    (addFile plainCodec c6Files [] "/tmp/test_data").1 = some "/_tmp_test_data" ∧
    (addFile plainCodec c6Files [] "/tmp/test_data").2 =
      [("/_tmp_test_data", plainCodec.encode [104, 105])] ∧
    (addFile plainCodec c28Files (addFile plainCodec c6Files [] "/tmp/test_data").2
        "/tmp/test_data").1 = some "/_tmp_test_data" ∧
    (addFile plainCodec c28Files (addFile plainCodec c6Files [] "/tmp/test_data").2
        "/tmp/test_data").2 = [("/_tmp_test_data", plainCodec.encode [98, 121, 101])] :=
  ⟨(C28_static_addFile_overwrites plainCodec c6Files [] "/tmp/test_data" [104, 105] rfl rfl).1,
   rfl, rfl, rfl⟩

/-! ### C29 and C30: colours -/

/-- C29: the constant `Graphics::Blue` is built from the same components as
`Graphics::Green`: its blue component is 0, its green component is 0xFF, and
the two constants are the same pixel value.  The four other constants have
the components they are named after and are pairwise distinct. -/
theorem C29_blue_is_green :
    Graphics.Blue = Graphics.Green ∧
    Color.r Graphics.Blue = 0 ∧ Color.g Graphics.Blue = 0xFF ∧ Color.b Graphics.Blue = 0 ∧
    Color.alpha Graphics.Blue = 0xFF ∧
    Graphics.Blue ≠ Color.rgba 0 0 0xFF 0xFF ∧
    Color.b (Color.rgba 0 0 0xFF 0xFF) = 0xFF ∧
    Graphics.Black ≠ Graphics.White ∧ Graphics.Black ≠ Graphics.Red ∧
    Graphics.Black ≠ Graphics.Green ∧ Graphics.White ≠ Graphics.Red ∧
    Graphics.White ≠ Graphics.Green ∧ Graphics.Red ≠ Graphics.Green := by
  refine ⟨rfl, rfl, rfl, rfl, rfl, ?_, rfl, ?_, ?_, ?_, ?_, ?_, ?_⟩ <;> decide

theorem mask0 : (0xFF : Nat) = 2 ^ 8 - 1 := by decide

theorem mask1 : (0xFF00 : Nat) = (2 ^ 8 - 1) <<< 8 := by decide

theorem mask2 : (0xFF0000 : Nat) = (2 ^ 8 - 1) <<< 16 := by decide

theorem mask3 : (0xFF000000 : Nat) = (2 ^ 8 - 1) <<< 24 := by decide

theorem clamped_r (r g b a : Nat) : Color.r (Color.rgba_clamped r g b a) = r % 256 := by
  apply Nat.eq_of_testBit_eq
  intro i
  have e : (256 : Nat) = 2 ^ 8 := by decide
  simp only [Color.r, Color.rgba_clamped, Color.wrap]
  rw [mask0, e]
  simp only [Nat.testBit_shiftRight, Nat.testBit_and, Nat.testBit_or, Nat.testBit_shiftLeft,
    Nat.testBit_mod_two_pow, Nat.testBit_two_pow_sub_one]
  by_cases h : i < 8
  · have h3 : ¬ i ≥ 8 := by omega
    have h4 : ¬ i ≥ 16 := by omega
    have h5 : ¬ i ≥ 24 := by omega
    simp [h, h3, h4, h5]
  · simp [h]

theorem clamped_g (r g b a : Nat) : Color.g (Color.rgba_clamped r g b a) = g % 256 := by
  apply Nat.eq_of_testBit_eq
  intro i
  have e : (256 : Nat) = 2 ^ 8 := by decide
  simp only [Color.g, Color.rgba_clamped, Color.wrap]
  rw [mask1, mask0, e]
  simp only [Nat.testBit_shiftRight, Nat.testBit_and, Nat.testBit_or, Nat.testBit_shiftLeft,
    Nat.testBit_mod_two_pow, Nat.testBit_two_pow_sub_one]
  by_cases h : i < 8
  · have h1 : 8 + i ≥ 8 := by omega
    have h2 : ¬ 8 + i < 8 := by omega
    have h3 : ¬ 8 + i ≥ 16 := by omega
    have h4 : ¬ 8 + i ≥ 24 := by omega
    have h5 : 8 + i < 32 := by omega
    have h6 : 8 + i - 8 = i := by omega
    simp [h, h1, h2, h3, h4, h5, h6]
  · have h1 : 8 + i ≥ 8 := by omega
    have h6 : 8 + i - 8 = i := by omega
    simp [h, h1, h6]

theorem clamped_b (r g b a : Nat) : Color.b (Color.rgba_clamped r g b a) = b % 256 := by
  apply Nat.eq_of_testBit_eq
  intro i
  have e : (256 : Nat) = 2 ^ 8 := by decide
  simp only [Color.b, Color.rgba_clamped, Color.wrap]
  rw [mask2, mask0, e]
  simp only [Nat.testBit_shiftRight, Nat.testBit_and, Nat.testBit_or, Nat.testBit_shiftLeft,
    Nat.testBit_mod_two_pow, Nat.testBit_two_pow_sub_one]
  by_cases h : i < 8
  · have h1 : 16 + i ≥ 16 := by omega
    have h2 : ¬ 16 + i < 8 := by omega
    have h3 : 16 + i ≥ 8 := by omega
    have h4 : ¬ 16 + i ≥ 24 := by omega
    have h5 : 16 + i < 32 := by omega
    have h6 : 16 + i - 16 = i := by omega
    have h7 : ¬ 16 + i - 8 < 8 := by omega
    simp [h, h1, h2, h3, h4, h5, h6, h7]
  · have h1 : 16 + i ≥ 16 := by omega
    have h6 : 16 + i - 16 = i := by omega
    simp [h, h1, h6]

theorem clamped_alpha (r g b a : Nat) : Color.alpha (Color.rgba_clamped r g b a) = a % 256 := by
  apply Nat.eq_of_testBit_eq
  intro i
  have e : (256 : Nat) = 2 ^ 8 := by decide
  simp only [Color.alpha, Color.rgba_clamped, Color.wrap]
  rw [mask3, mask0, e]
  simp only [Nat.testBit_shiftRight, Nat.testBit_and, Nat.testBit_or, Nat.testBit_shiftLeft,
    Nat.testBit_mod_two_pow, Nat.testBit_two_pow_sub_one]
  by_cases h : i < 8
  · have h1 : 24 + i ≥ 24 := by omega
    have h2 : ¬ 24 + i < 8 := by omega
    have h3 : 24 + i ≥ 8 := by omega
    have h4 : 24 + i ≥ 16 := by omega
    have h5 : 24 + i < 32 := by omega
    have h6 : 24 + i - 24 = i := by omega
    have h7 : ¬ 24 + i - 8 < 8 := by omega
    have h8 : ¬ 24 + i - 16 < 8 := by omega
    simp [h, h1, h2, h3, h4, h5, h6, h7, h8]
  · have h1 : 24 + i ≥ 24 := by omega
    have h6 : 24 + i - 24 = i := by omega
    simp [h, h1, h6]

theorem mask_small (x : Nat) (h : x ≤ 255) : 0xFF &&& x = x := by
  rw [Nat.land_comm, mask0, Nat.and_pow_two_sub_one_eq_mod]
  exact Nat.mod_eq_of_lt (by omega)

theorem clamped_lt (r g b a : Nat) : Color.rgba_clamped r g b a < 2 ^ 32 := by
  unfold Color.rgba_clamped Color.wrap
  have h0 : 0xFF &&& r < 2 ^ 32 := by
    have : 0xFF &&& r ≤ 0xFF := Nat.and_le_left
    omega
  exact Nat.or_lt_two_pow (Nat.or_lt_two_pow (Nat.or_lt_two_pow h0 (Nat.mod_lt _ (by decide)))
    (Nat.mod_lt _ (by decide))) (Nat.mod_lt _ (by decide))

/-- C30: packing and unpacking a colour.  For all `r`, `g`, `b`, `a` the
pixel `Color::rgba_clamped(r, g, b, a)` is a 32-bit value whose components
are `r`, `g`, `b` and `a` modulo 256.  When `r`, `g`, `b` and `a` are at most
255, `Color::rgba(r, g, b, a)` is the same pixel, and its components are `r`,
`g`, `b` and `a`. -/
theorem C30_colour_round_trip (r g b a : Nat) :
    Color.rgba_clamped r g b a < 2 ^ 32 ∧
    Color.r (Color.rgba_clamped r g b a) = r % 256 ∧
    Color.g (Color.rgba_clamped r g b a) = g % 256 ∧
    Color.b (Color.rgba_clamped r g b a) = b % 256 ∧
    Color.alpha (Color.rgba_clamped r g b a) = a % 256 ∧
    (r ≤ 255 → g ≤ 255 → b ≤ 255 → a ≤ 255 →
      Color.rgba r g b a = Color.rgba_clamped r g b a ∧
      Color.r (Color.rgba r g b a) = r ∧ Color.g (Color.rgba r g b a) = g ∧
      Color.b (Color.rgba r g b a) = b ∧ Color.alpha (Color.rgba r g b a) = a) := by
  refine ⟨clamped_lt r g b a, clamped_r r g b a, clamped_g r g b a, clamped_b r g b a,
    clamped_alpha r g b a, ?_⟩
  intro hr hg hb ha
  have h : Color.rgba r g b a = Color.rgba_clamped r g b a := by
    simp only [Color.rgba, Color.rgba_clamped, mask_small r hr, mask_small g hg,
      mask_small b hb, mask_small a ha]
  refine ⟨h, ?_, ?_, ?_, ?_⟩
  · rw [h, clamped_r]; omega
  · rw [h, clamped_g]; omega
  · rw [h, clamped_b]; omega
  · rw [h, clamped_alpha]; omega

/-- C30 on the components 0x12, 0x34, 0x56, 0x78: the pixel is 0x78563412. -/
theorem C30_colour_round_trip_witness :
    Color.rgba 0x12 0x34 0x56 0x78 = 0x78563412 ∧
    Color.rgba 0x12 0x34 0x56 0x78 = Color.rgba_clamped 0x12 0x34 0x56 0x78 ∧
    Color.g (Color.rgba 0x12 0x34 0x56 0x78) = 0x34 ∧
    Color.alpha (Color.rgba_clamped 0x112 0x134 0x156 0x178) = 0x178 % 256 :=
  ⟨rfl,
   ((C30_colour_round_trip 0x12 0x34 0x56 0x78).2.2.2.2.2 (by decide) (by decide) (by decide)
     (by decide)).1,
   ((C30_colour_round_trip 0x12 0x34 0x56 0x78).2.2.2.2.2 (by decide) (by decide) (by decide)
     (by decide)).2.2.1,
   (C30_colour_round_trip 0x112 0x134 0x156 0x178).2.2.2.2.1⟩

/-! ### C15: teardown in `Ui::run` and the next run -/

theorem prim_responses (p : Prim) (a : Ui) (hp : ∀ q, p ≠ Prim.takeResponse q)
    (h : a.m_responsemap ≠ []) : (p.apply a).m_responsemap ≠ [] := by
  cases p
  case takeResponse q => exact absurd rfl (hp q)
  case pushResponse id k =>
    simp only [Prim.apply, Ui.pushResponse, responsePush, insert_or_assign]
    split
    · simpa using h
    · simp
  all_goals simp only [Prim.apply]
  all_goals
    simp only [Ui.openHandler, Ui.closeHandler, Ui.pendingClose, Ui.setTransport, Ui.elapse,
      flushTimers_eq, Ui.dropBatch, Ui.waitDone, Ui.pushEvent,
      Ui.signal, Ui.note, Ui.enter, Ui.after, Ui.startPeriodic, Ui.cancelTimer, Ui.onOpen,
      Ui.onReload, Ui.pendingCheck, Ui.serverSend, Ui.serverClose, Ui.serverRetry,
      Ui.serverQueryId, Ui.holdTimers, Ui.setExit, Ui.setStatus,
      Ui.close, Ui.send, Ui.beginBatch, Ui.endBatch, Ui.extensionCall, Ui.addRequest,
      Ui.popTimer, Ui.popRequest, Ui.fireTimer, Ui.pushBack, Ui.takeEvent, Ui.reloadStep,
      Ui.openStep]
    repeat' split
    all_goals simp [h]

/-- C15: what `Ui::run()` leaves behind.  (1) When `run()` returns, the
transport handle is released and the outbound-request queue, the due-timer
queue and the timer manager are empty.  (2) The inbound-event queue and the
pending-response table are not cleared: they are what they were when the
event loop (and the on-exit function) returned.  (3) An entry in the
pending-response table stays there under every primitive step but the take
of a waiting query.  (4) When the first pass of the loop of a later `run()`
reaches the check of the pending-response table with the table not empty, the
loop returns there and `run()` tears the session down at once: the run is
over after one pass. -/
theorem C15_run_teardown (prog : CallbackId → List Action) (n : Nat) (srv : Server) (ui : Ui)
    (r : Ui × Option Value) (h : exec prog n (Cmd.run srv) ui = Except.ok r) :
    (r.1.m_server = none ∧ r.1.m_requestqueue = [] ∧ r.1.m_timerqueue = [] ∧
      r.1.m_timers.timers = []) ∧
    (∃ v : Ui,
      r.1 = Ui.flushTimers v.clearRequests.serverClose.resetServer.clearTimers.clearTimerqueue
        false ∧
      r.1.m_eventqueue = v.m_eventqueue ∧ r.1.m_responsemap = v.m_responsemap) ∧
    (∀ (p : Prim) (a : Ui), (∀ q, p ≠ Prim.takeResponse q) → a.m_responsemap ≠ [] →
      (p.apply a).m_responsemap ≠ []) ∧
    (∀ (m : Nat) (srv2 : Server) (w u0 u1 u2 u3 u4 : Ui),
      w.m_server = none → srv2.running = true →
      poll (exec prog m) ((w.startup srv2).setStatus State.RUNNING) = Except.ok u0 →
      (if u0.m_sema.count = 0 then sub (exec prog m) Cmd.wait u0 else Except.ok u0) =
        Except.ok u1 →
      u1.m_status ≠ State.EXIT → u1.m_status ≠ State.RETRY → u1.m_status ≠ State.CLOSE →
      sub (exec prog m) Cmd.timerDrain
        (if u1.m_status = State.RELOAD then u1.reloadStep else u1) = Except.ok u2 →
      u2.m_status ≠ State.PENDING → onOpenStep u2 = Except.ok u3 →
      sub (exec prog m) Cmd.requestDrain u3 = Except.ok u4 →
      u4.m_responsemap ≠ [] → u4.m_onUiExit = none →
      exec prog (m + 2) (Cmd.run srv2) w = Except.ok (u4.teardown, none) ∧
      u4.teardown.m_responsemap = u4.m_responsemap) := by
  have hdown : ∀ v : Ui,
      let w := Ui.flushTimers v.clearRequests.serverClose.resetServer.clearTimers.clearTimerqueue
        false
      (w.m_server = none ∧ w.m_requestqueue = [] ∧ w.m_timerqueue = [] ∧ w.m_timers.timers = []) ∧
      w.m_eventqueue = v.m_eventqueue ∧ w.m_responsemap = v.m_responsemap := by
    intro v
    simp [flushTimers_eq, Ui.clearRequests, Ui.serverClose, Ui.resetServer, Ui.clearTimers,
      Ui.clearTimerqueue, TimerMgr.clear, TimerMgr.dueTimers, TimerMgr.markFired,
      sortByDeadline]
  refine ⟨?_, ?_, prim_responses, ?_⟩
  · cases n with
    | zero => cases h
    | succ n =>
      simp only [exec, body, runBody] at h
      split at h
      · cases h
      · split at h
        · cases h
        · split at h
          · cases h
          · next v hv =>
            cases h
            exact (hdown v).1
  · cases n with
    | zero => cases h
    | succ n =>
      simp only [exec, body, runBody] at h
      split at h
      · cases h
      · split at h
        · cases h
        · split at h
          · cases h
          · next v hv =>
            cases h
            exact ⟨v, rfl, (hdown v).2.1, (hdown v).2.2⟩
  · intro m srv2 w u0 u1 u2 u3 u4 hw hrun hpoll hwait h1 h2 h3 hdrain hp hopen hreq hne hexit
    have hpass := eventLoop_pass_open (exec prog m) ((w.startup srv2).setStatus State.RUNNING)
      u0 u1 u2 u3 srv2 rfl hrun hpoll hwait h1 h2 h3 hdrain hp hopen
    have hloop : exec prog (m + 1) Cmd.eventLoop ((w.startup srv2).setStatus State.RUNNING) =
        Except.ok (u4, none) := by
      show eventLoopBody (exec prog m) ((w.startup srv2).setStatus State.RUNNING) =
        Except.ok (u4, none)
      rw [hpass]
      simp [restOfPass, hreq, hne, done]
    refine ⟨?_, (hdown u4).2.2⟩
    show runBody (exec prog (m + 1)) srv2 w = _
    simp only [runBody, hw, sub, hloop, hexit, done, Ui.teardown]

/-- C15 on two runs of one session.  During the first run a click and an answer
that nobody waits for arrive together with the exit request: when `run()`
returns, the transport handle is released and the timer manager is empty,
but the inbound-event queue and the pending-response table still hold them.
A timer of one second is started and `run()` is called again: the run returns
after its first pass, in state `RUNNING`, the timer function was not invoked,
nothing ran and three batches of the schedule are unread.  From the same
session with the table emptied, the second run invokes the timer function
once.  In the test `timerStartStop`, where no answer is left behind, the timer
of each run is invoked once. -/
theorem C15_run_teardown_witness :
    ((sessionOf (exec noProg 10 (Cmd.run listeningServer) c15Session) c15Session).m_server = none ∧
      (sessionOf (exec noProg 10 (Cmd.run listeningServer) c15Session)
        c15Session).m_timers.timers = []) ∧
    (sessionOf (exec noProg 10 (Cmd.run listeningServer) c15Session) c15Session).m_eventqueue =
      [{ element := "button", handler := "click", data := [] }] ∧
    (sessionOf (exec noProg 10 (Cmd.run listeningServer) c15Session) c15Session).m_responsemap =
      [("7", Value.str "late")] ∧
    c15Second.m_timers.timers.map (fun t => (t.id, t.ms, t.func)) =
      [(0, 1000, TimerFunc.user 2)] ∧
    statusOf (exec startStopProg 30 (Cmd.run listeningServer) c15Second) = some State.RUNNING ∧
    logOf (exec startStopProg 30 (Cmd.run listeningServer) c15Second) = [] ∧
    timerCalls 0 (logOf (exec startStopProg 30 (Cmd.run listeningServer) c15Second)) = 0 ∧
    (sessionOf (exec startStopProg 30 (Cmd.run listeningServer) c15Second) c15Second).env.length =
      3 ∧
    timerCalls 0 (logOf (exec startStopProg 30 (Cmd.run listeningServer) c15Cleared)) = 1 ∧
    (timerCalls 0 (logOf (exec startStopProg 30 (Cmd.run listeningServer) startStopSecond)) = 1 ∧
      timerCalls 1 (logOf (exec startStopProg 30 (Cmd.run listeningServer) startStopSecond)) = 1 ∧
      notes (logOf (exec startStopProg 30 (Cmd.run listeningServer) startStopSecond)) =
        ['1', '2']) :=
  ⟨⟨(C15_run_teardown noProg 10 listeningServer c15Session
        (sessionOf (exec noProg 10 (Cmd.run listeningServer) c15Session) c15Session, none)
        rfl).1.1,
    (C15_run_teardown noProg 10 listeningServer c15Session
        (sessionOf (exec noProg 10 (Cmd.run listeningServer) c15Session) c15Session, none)
        rfl).1.2.2.2⟩,
   rfl, rfl, rfl, rfl, rfl, rfl, rfl, rfl, ⟨rfl, rfl, rfl⟩⟩

end Gempyre
